import Mathlib

/-!
# StudioTVPlayer: synchronizing buffer, NDI output, managed channel, Decklink and FFmpeg helpers

A shallow embedding of `TVPlayRLib/FFmpeg/SynchronizingBuffer.cpp` (the plain class) and of
`TVPlayRLib/FFMpeg/SynchronizingBuffer.cpp` (the same class behind a pimpl), with the helpers
they call, of `TVPlayRLib/Ndi/NdiOutput.cpp`, of `AddOutput` and `RemoveOutput` of
`TVPlayR.Player/Channel.cpp`, of the conversions of `TVPlayRLib/Decklink/DecklinkUtils.cpp`, and
of the control flow of `Decoder.cpp`, `VideoFilter.cpp` and `AudioMuxer.cpp` under
`TVPlayRLib/FFMpeg`, followed by theorems about them.

Conventions of the embedding

* `std::shared_ptr<AVFrame>` is `Option AVFrame`; frames are compared by value. The video filter,
  which writes through the pointer it is given, keeps frames in memory by address instead.
* `int` and `int64_t` values are `Int`. `num * 10 / den` in `PushVideo` is kept as C++ evaluates
  it (truncating division, then the conversion to `size_t` the comparison with `size()`
  performs); `av_rescale` rounds to nearest as libavutil does; `static_cast<int>` and the `int`
  arithmetic of the timecode conversion wrap to 32 bits.
* A call that can trip a C `assert`, or dereference a null pointer, returns `Result`: the fault and
  the object state at the moment of the fault, or the normal result.
* `PtsToTime` and `TimeToPts` (declared in `FFmpegUtils.h`, which is not in the source tree) are
  parameters.
* The native `Core::Channel`, whose implementation is not in the source tree, is the sequence of
  calls the managed channel makes on it.
* Calls into libavcodec, libavfilter and the DeckLink SDK are outside the embedding: what they
  return is an argument of the function that makes them.
-/

namespace TVPlayR
namespace FFmpeg

/-! ## FFmpeg data -/

/-- The `AVRational` of libavutil: a numerator and a denominator, both `int`. -/
structure AVRational where
  num : Int
  den : Int
deriving DecidableEq, Repr

/-- One multi-channel sample: one value for each channel. -/
abbrev Sample := List Int

/-- The fields of `AVFrame` the embedded code reads or writes. `data` holds the picture or
the samples; for audio it has one entry for each sample. -/
structure AVFrame where
  pts : Int
  format : Int
  channels : Int
  channel_layout : Nat
  nb_samples : Int
  width : Int
  height : Int
  data : List Sample
deriving DecidableEq, Repr

/-- The `AV_NOPTS_VALUE` of libavutil, `0x8000000000000000` read as `int64_t`. -/
def AV_NOPTS_VALUE : Int := -(2 ^ 63)

/-- The `AV_TIME_BASE` of libavutil: the global time base is microseconds. -/
def AV_TIME_BASE : Int := 1000000

/-- The `AV_SAMPLE_FMT_S32` member of `enum AVSampleFormat`. -/
def AV_SAMPLE_FMT_S32 : Int := 2

/-- The frame `AllocFrame()` hands out: `av_frame_alloc` leaves every field at its default,
with no timestamp and no format. -/
def AllocFrame : AVFrame :=
  { pts := AV_NOPTS_VALUE, format := -1, channels := 0, channel_layout := 0,
    nb_samples := 0, width := 0, height := 0, data := [] }

/-- The block `av_samples_set_silence` leaves in a frame: `nb_samples` samples, every channel of
every sample zero. -/
def silence (nb_samples channels : Int) : List Sample :=
  List.replicate nb_samples.toNat (List.replicate channels.toNat 0)

/-- `CreateSilentAudioFrame(samples_count, num_channels)` of `FFMpeg/Utils.cpp`. The result is
`none` when `assert(num_channels <= 63)` fails. (For a negative channel count the C++ shift
amount exceeds 63; the shift is then taken to give 0.) -/
def CreateSilentAudioFrame (samples_count num_channels : Int) : Option AVFrame :=
  if num_channels ≤ 63 then
    some { AllocFrame with
      format := AV_SAMPLE_FMT_S32
      channels := num_channels
      channel_layout := 0x7FFFFFFFFFFFFFFF >>> (63 - num_channels).toNat
      nb_samples := samples_count
      data := silence samples_count num_channels }
  else
    none

/-- Modelled from the spec: the three-argument overload
`CreateSilentAudioFrame(samples_count, num_channels, format)` that `PullSync` calls is not in the
source tree. It synthesizes silence of the requested length; it is taken to be the two-argument
function of `Utils.cpp`, its assertion included, with the sample format set from the argument. -/
def CreateSilentAudioFrameAs (samples_count num_channels sample_format : Int) : Option AVFrame :=
  (CreateSilentAudioFrame samples_count num_channels).map
    fun frame => { frame with format := sample_format }

/-! ## The audio ring buffer -/

/-- Modelled from the spec: the class `AudioFifo` (`AudioFifo.h`) is not in the source tree.
Its attributes are a sample format, a channel count, a sample rate, a time base, a capacity in
samples and a base time; `samples` is the buffered content, oldest first. -/
structure AudioFifo where
  sample_fmt : Int
  channels_count : Int
  sample_rate : Int
  time_base : AVRational
  base_time : Int
  capacity : Nat
  samples : List Sample
deriving DecidableEq, Repr

namespace AudioFifo

/-- Modelled from the spec: the constructor of `AudioFifo`, called with a sample format, a channel
count, a sample rate, a time base, a base time and a capacity given as a duration in the global
time base; the capacity in samples is that duration at the sample rate. The buffer starts
empty. -/
def create (sample_fmt channels_count sample_rate : Int) (time_base : AVRational)
    (seek_time capacity : Int) : AudioFifo :=
  { sample_fmt := sample_fmt, channels_count := channels_count, sample_rate := sample_rate,
    time_base := time_base, base_time := seek_time,
    capacity := (Int.tdiv (capacity * sample_rate) AV_TIME_BASE).toNat, samples := [] }

/-- Modelled from the spec: `SamplesCount()` of the absent `AudioFifo`, the number of buffered
samples. -/
def SamplesCount (fifo : AudioFifo) : Nat := fifo.samples.length

/-- Modelled from the spec: `TryPush(block)` of the absent `AudioFifo`. It fails, returning false
without mutating state, if appending would exceed the capacity; otherwise the block is appended. -/
def TryPush (fifo : AudioFifo) (frame : AVFrame) : Bool × AudioFifo :=
  if fifo.samples.length + frame.data.length > fifo.capacity then (false, fifo)
  else (true, { fifo with samples := fifo.samples ++ frame.data })

/-- Modelled from the spec: `Pull(sample_count)` of the absent `AudioFifo`. It returns a block of
exactly `sample_count` samples, the oldest buffered ones, padded with silence if fewer are
available, and removes what it returned from the buffer. The block carries the buffer's sample
format and channel count; the spec names no other tag, and the other fields stay as `AllocFrame`
leaves them. -/
def Pull (fifo : AudioFifo) (sample_count : Int) : AVFrame × AudioFifo :=
  let taken := fifo.samples.take sample_count.toNat
  ({ AllocFrame with
      format := fifo.sample_fmt
      channels := fifo.channels_count
      nb_samples := sample_count
      data := taken ++ silence (sample_count - taken.length) fifo.channels_count },
   { fifo with samples := fifo.samples.drop sample_count.toNat })

/-- Modelled from the spec: `Reset(new_base_time)` of the absent `AudioFifo`. It discards all
content and re-anchors the buffer. -/
def Reset (fifo : AudioFifo) (new_base_time : Int) : AudioFifo :=
  { fifo with samples := [], base_time := new_base_time }

/-- The attributes of a ring buffer that stay fixed once it is created: everything but the
content and the base time. -/
def attributes (fifo : AudioFifo) : Int × Int × Int × AVRational × Nat :=
  (fifo.sample_fmt, fifo.channels_count, fifo.sample_rate, fifo.time_base, fifo.capacity)

end AudioFifo

/-! ## The synchronized frame unit -/

/-- The `AVSync` triple (`AVSync.h` is not in the source tree; the member names are those
`NdiOutput::Tick` reads): an audio block, a video frame and a time. -/
structure AVSync where
  Audio : Option AVFrame
  Video : Option AVFrame
  Time : Int
deriving DecidableEq, Repr

end FFmpeg

/-! ## Channel configuration read by the constructors -/

namespace Core

/-- What the constructors read of `Core::VideoFormat`: `type()` and `FrameRate().av()`. -/
structure VideoFormat where
  type : Nat
  FrameRate : FFmpeg.AVRational
deriving DecidableEq, Repr

/-- What the constructor of the plain class reads of `Core::Channel`. -/
structure Channel where
  Format : VideoFormat
  AudioSampleRate : Int
  AudioChannelsCount : Int
  AudioSampleFormat : Int
deriving DecidableEq, Repr

end Core

namespace FFmpeg

/-! ## SynchronizingBuffer -/

/-- The data members of `SynchronizingBuffer` (the same in both files). `have_video_` is a
`const bool` that the only constructor sets to `true`; it is the constant `have_video_` below
rather than a field. -/
structure SynchronizingBuffer where
  video_format_ : Nat
  video_frame_rate_ : AVRational
  sample_rate_ : Int
  audio_time_base_ : AVRational
  audio_channel_count_ : Int
  have_audio_ : Bool
  is_playing_ : Bool
  duration_ : Int
  sync_ : Int
  is_flushed_ : Bool
  audio_sample_format_ : Int
  input_video_time_base_ : AVRational
  video_queue_ : List AVFrame
  fifo_ : Option AudioFifo
  last_video_ : Option AVFrame
deriving DecidableEq, Repr

/-- Why a call did not return normally. -/
inductive Fault where
  | assertion_failed
  | null_dereference
deriving DecidableEq, Repr

/-- The outcome of a member function: its result, or a fault together with the object as it was
when the fault happened. -/
abbrev Result (α : Type) := Except (Fault × SynchronizingBuffer) α

/-- The conversion to `size_t` (64 bits) that `size() > int_expression` applies to its right
operand. -/
def to_size_t (value : Int) : Nat := (value % 2 ^ 64).toNat

namespace SynchronizingBuffer

/-- The member `have_video_`: `const`, initialised to `true` by the constructor. -/
def have_video_ : Bool := true

/-- The constructor of the plain class, `SynchronizingBuffer(channel, is_playing, duration,
initial_sync)`. `input_video_time_base_` has no initialiser; its indeterminate first value is the
argument `uninitialized_time_base`. (The class declaration is not in the source tree;
`audio_time_base_`, initialised from `sample_rate_`, is taken to be declared after it.) -/
def create (channel : Core.Channel) (is_playing : Bool) (duration initial_sync : Int)
    (uninitialized_time_base : AVRational) : SynchronizingBuffer :=
  { video_format_ := channel.Format.type
    video_frame_rate_ := channel.Format.FrameRate
    sample_rate_ := channel.AudioSampleRate
    audio_time_base_ := ⟨1, channel.AudioSampleRate⟩
    audio_channel_count_ := channel.AudioChannelsCount
    have_audio_ := decide (channel.AudioChannelsCount > 0)
    is_playing_ := is_playing
    duration_ := duration
    sync_ := initial_sync
    is_flushed_ := false
    audio_sample_format_ := channel.AudioSampleFormat
    input_video_time_base_ := uninitialized_time_base
    video_queue_ := []
    fifo_ := none
    last_video_ := none }

/-- `Sweep()`: its first statement is `return;`, the rest is dead code. -/
def Sweep (self : SynchronizingBuffer) : SynchronizingBuffer := self

/-- The overflow threshold of `PushVideo`, `video_frame_rate_.num * 10 / video_frame_rate_.den`
as the comparison with `video_queue_.size()` sees it: the `int` quotient, truncated toward zero,
converted to `size_t`. (The product is not wrapped to 32 bits and a zero denominator gives 0;
C++ leaves signed overflow and division by zero undefined.) -/
def video_queue_limit (self : SynchronizingBuffer) : Nat :=
  to_size_t (Int.tdiv (self.video_frame_rate_.num * 10) self.video_frame_rate_.den)

/-- `PushVideo(frame, time_base)`, the same text in both files. -/
def PushVideo (self : SynchronizingBuffer) (frame : Option AVFrame) (time_base : AVRational) :
    Result SynchronizingBuffer :=
  match frame with
  | none => .ok self
  | some f =>
    if !have_video_ then .ok self
    else
      let s1 := { self with input_video_time_base_ := time_base }
      -- assert(!is_flushed_)
      if s1.is_flushed_ then .error (Fault.assertion_failed, s1)
      else
        let s2 := Sweep s1
        let s3 :=
          if s2.video_queue_.length > s2.video_queue_limit then { s2 with video_queue_ := [] }
          else s2
        .ok { s3 with video_queue_ := s3.video_queue_ ++ [f] }

/-- `PushAudio(frame)`, the same text in both files. `PtsToTime` is the absent helper of
`FFmpegUtils.h`. -/
def PushAudio (PtsToTime : Int → AVRational → Int) (self : SynchronizingBuffer)
    (frame : Option AVFrame) : Result SynchronizingBuffer :=
  match frame with
  | none => .ok self
  | some f =>
    if !self.have_audio_ then .ok self
    -- assert(!is_flushed_)
    else if self.is_flushed_ then .error (Fault.assertion_failed, self)
    else
      let s1 := Sweep self
      let fifo :=
        match s1.fifo_ with
        | some existing => existing
        | none =>
          AudioFifo.create s1.audio_sample_format_ s1.audio_channel_count_ s1.sample_rate_
            s1.audio_time_base_ (PtsToTime f.pts s1.audio_time_base_) (AV_TIME_BASE * 10)
      let pushed := fifo.TryPush f
      if !pushed.1 then
        let restarted := pushed.2.Reset (PtsToTime f.pts s1.audio_time_base_)
        .ok { s1 with fifo_ := some (restarted.TryPush f).2 }
      else
        .ok { s1 with fifo_ := some pushed.2 }

/-- The first statement of `PullSync`, the same in both files: the audio block comes from the ring
buffer when playing and a ring buffer exists, and is synthesized silence otherwise. The result is
the block and the ring buffer afterwards, or `none` when the assertion of the silence helper
fails. -/
def pull_audio (self : SynchronizingBuffer) (audio_samples_count : Int) :
    Option (AVFrame × Option AudioFifo) :=
  match self.is_playing_, self.fifo_ with
  | true, some fifo =>
    let pulled := fifo.Pull audio_samples_count
    some (pulled.1, some pulled.2)
  | _, _ =>
    (CreateSilentAudioFrameAs audio_samples_count self.audio_channel_count_
      self.audio_sample_format_).map fun audio => (audio, self.fifo_)

/-- The two `if` statements of `PullSync` on the video queue, the same in both files: the front
frame becomes the last delivered frame when playing or when none is cached, and is popped when
playing. -/
def pull_video (self : SynchronizingBuffer) : SynchronizingBuffer :=
  let s1 :=
    if (self.is_playing_ || self.last_video_.isNone) && !self.video_queue_.isEmpty then
      { self with last_video_ := self.video_queue_.head? }
    else self
  if s1.is_playing_ && !s1.video_queue_.isEmpty then
    { s1 with video_queue_ := s1.video_queue_.tail }
  else s1

/-- `SynchronizingBuffer::PullSync(audio_samples_count)` of the plain class
(`FFmpeg/SynchronizingBuffer.cpp`): an absent last frame gives the time of `AV_NOPTS_VALUE`. -/
def PullSync (PtsToTime : Int → AVRational → Int) (self : SynchronizingBuffer)
    (audio_samples_count : Int) : Result (AVSync × SynchronizingBuffer) :=
  match pull_audio self audio_samples_count with
  | none => .error (Fault.assertion_failed, self)
  | some (audio, fifo) =>
    let s1 := pull_video { self with fifo_ := fifo }
    let pts :=
      match s1.last_video_ with
      | some video => video.pts
      | none => AV_NOPTS_VALUE
    .ok ({ Audio := some audio, Video := s1.last_video_,
           Time := PtsToTime pts s1.input_video_time_base_ }, s1)

/-- `SetIsPlaying(is_playing)`. -/
def SetIsPlaying (self : SynchronizingBuffer) (is_playing : Bool) : SynchronizingBuffer :=
  { self with is_playing_ := is_playing }

/-- `Seek(time)`. -/
def Seek (self : SynchronizingBuffer) (time : Int) : SynchronizingBuffer :=
  { self with
    fifo_ := self.fifo_.map fun fifo => fifo.Reset time
    video_queue_ := []
    last_video_ := none
    is_flushed_ := false }

/-- `SetSynchro(time)`. -/
def SetSynchro (self : SynchronizingBuffer) (time : Int) : SynchronizingBuffer :=
  { self with sync_ := time }

/-- `IsFlushed()`. -/
def IsFlushed (self : SynchronizingBuffer) : Bool := self.is_flushed_

/-- `IsEof()`. -/
def IsEof (self : SynchronizingBuffer) : Bool :=
  self.is_flushed_ && self.video_queue_.isEmpty &&
    (match self.fifo_ with
     | none => true
     | some fifo => fifo.SamplesCount == 0)

/-- `Flush()`. -/
def Flush (self : SynchronizingBuffer) : SynchronizingBuffer :=
  { self with is_flushed_ := true }

namespace implementation

/-- The constructor of `SynchronizingBuffer::implementation` (`FFMpeg/SynchronizingBuffer.cpp`):
the sample rate is the macro `SAMPLE_RATE`, and `have_audio_` is the channel count converted to
`bool`. `input_video_time_base_` has no initialiser, as in the plain class. -/
def create (format : Core.VideoFormat) (audio_channel_count audio_sample_format : Int)
    (is_playing : Bool) (duration initial_sync : Int) (uninitialized_time_base : AVRational) :
    SynchronizingBuffer :=
  { video_format_ := format.type
    video_frame_rate_ := format.FrameRate
    sample_rate_ := 48000
    audio_time_base_ := ⟨1, 48000⟩
    audio_channel_count_ := audio_channel_count
    have_audio_ := decide (audio_channel_count ≠ 0)
    is_playing_ := is_playing
    duration_ := duration
    sync_ := initial_sync
    is_flushed_ := false
    audio_sample_format_ := audio_sample_format
    input_video_time_base_ := uninitialized_time_base
    video_queue_ := []
    fifo_ := none
    last_video_ := none }

/-- `SynchronizingBuffer::implementation::PullSync(audio_samples_count)`
(`FFMpeg/SynchronizingBuffer.cpp`): `last_video_->pts` is read without a null check. -/
def PullSync (PtsToTime : Int → AVRational → Int) (self : SynchronizingBuffer)
    (audio_samples_count : Int) : Result (AVSync × SynchronizingBuffer) :=
  match pull_audio self audio_samples_count with
  | none => .error (Fault.assertion_failed, self)
  | some (audio, fifo) =>
    let s1 := pull_video { self with fifo_ := fifo }
    match s1.last_video_ with
    | none => .error (Fault.null_dereference, s1)
    | some video =>
      .ok ({ Audio := some audio, Video := some video,
             Time := PtsToTime video.pts s1.input_video_time_base_ }, s1)

end implementation

/-! ### Sequences of calls -/

/-- Which of the two source files a run executes. -/
inductive Variant where
  | plain
  | pimpl
deriving DecidableEq, Repr

/-- `PullSync` of the chosen variant. -/
def PullSyncOf (variant : Variant) (PtsToTime : Int → AVRational → Int) :
    SynchronizingBuffer → Int → Result (AVSync × SynchronizingBuffer) :=
  match variant with
  | .plain => PullSync PtsToTime
  | .pimpl => implementation.PullSync PtsToTime

/-- One call of a state-changing member function, with its arguments. -/
inductive Call where
  | PushVideo (frame : Option AVFrame) (time_base : AVRational)
  | PushAudio (frame : Option AVFrame)
  | PullSync (audio_samples_count : Int)
  | Seek (time : Int)
  | Flush
  | SetIsPlaying (is_playing : Bool)
  | SetSynchro (time : Int)
deriving DecidableEq, Repr

/-- The object after one call. -/
def call (variant : Variant) (PtsToTime : Int → AVRational → Int) (self : SynchronizingBuffer) :
    Call → Result SynchronizingBuffer
  | .PushVideo frame time_base => self.PushVideo frame time_base
  | .PushAudio frame => self.PushAudio PtsToTime frame
  | .PullSync audio_samples_count =>
    (PullSyncOf variant PtsToTime self audio_samples_count).map Prod.snd
  | .Seek time => .ok (self.Seek time)
  | .Flush => .ok self.Flush
  | .SetIsPlaying is_playing => .ok (self.SetIsPlaying is_playing)
  | .SetSynchro time => .ok (self.SetSynchro time)

/-- The object after a sequence of calls, made in order; the run stops at the first fault. -/
def calls (variant : Variant) (PtsToTime : Int → AVRational → Int) :
    SynchronizingBuffer → List Call → Result SynchronizingBuffer
  | self, [] => .ok self
  | self, c :: rest =>
    match call variant PtsToTime self c with
    | .ok next => calls variant PtsToTime next rest
    | .error fault => .error fault

/-- A sequence of `PushVideo` calls with non-null frames, no other call between them. -/
def push_videos : SynchronizingBuffer → List (AVFrame × AVRational) → Result SynchronizingBuffer
  | self, [] => .ok self
  | self, (frame, time_base) :: rest =>
    match self.PushVideo (some frame) time_base with
    | .ok next => push_videos next rest
    | .error fault => .error fault

/-- Successive `PullSync` calls of the chosen variant with the given sample counts: the units
returned, in order, and the object after the last call. -/
def pull_syncs (variant : Variant) (PtsToTime : Int → AVRational → Int) :
    SynchronizingBuffer → List Int → Result (List AVSync × SynchronizingBuffer)
  | self, [] => .ok ([], self)
  | self, n :: rest =>
    match PullSyncOf variant PtsToTime self n with
    | .error fault => .error fault
    | .ok (unit, next) =>
      match pull_syncs variant PtsToTime next rest with
      | .error fault => .error fault
      | .ok (units, last) => .ok (unit :: units, last)

/-! ### Configuration and two-run comparison -/

/-- The members the constructor fixes for the lifetime of the object (all `const`). -/
def configuration (self : SynchronizingBuffer) :
    Nat × AVRational × Int × AVRational × Int × Bool × Int × Int :=
  (self.video_format_, self.video_frame_rate_, self.sample_rate_, self.audio_time_base_,
    self.audio_channel_count_, self.have_audio_, self.duration_, self.audio_sample_format_)

/-- The attributes of the ring buffer that `PushAudio` creates for this object: those of
`AudioFifo.create` with the arguments `PushAudio` passes, whatever the base time. -/
def fifo_attributes (self : SynchronizingBuffer) : Int × Int × Int × AVRational × Nat :=
  (AudioFifo.create self.audio_sample_format_ self.audio_channel_count_ self.sample_rate_
    self.audio_time_base_ 0 (AV_TIME_BASE * 10)).attributes

/-- The object with its recorded source time base replaced, as the assignment
`input_video_time_base_ = time_base` in `PushVideo` does. -/
def with_time_base (self : SynchronizingBuffer) (time_base : AVRational) :
    SynchronizingBuffer :=
  { self with input_video_time_base_ := time_base }

/-- Whether `Flush` occurs in a history of calls. -/
def flush_called (history : List Call) : Bool :=
  history.any fun c => decide (c = Call.Flush)

/-- Whether the most recent `Flush` or `Seek` of a history is a `Flush`; `start` is the answer
for the empty history. -/
def flushed_since_seek (start : Bool) : List Call → Bool
  | [] => start
  | Call.Flush :: rest => flushed_since_seek true rest
  | Call.Seek _ :: rest => flushed_since_seek false rest
  | _ :: rest => flushed_since_seek start rest

/-- Modelled from the spec: `PtsToTime(pts, time_base)` of the absent `FFmpegUtils.h`, for a
timestamp that is present: the presentation time converted through the source time base into the
global time base, that is `pts * num / den` seconds in units of `1 / AV_TIME_BASE`. The theorems
take `PtsToTime` as a parameter; this instance serves the examples. -/
def pts_to_microseconds (pts : Int) (time_base : AVRational) : Int :=
  pts * time_base.num * AV_TIME_BASE / time_base.den

/-- The channel of the examples: 25 frames a second, 48000 Hz, 32-bit samples, and the given
number of audio channels. -/
def example_channel (audio_channels : Int) : Core.Channel :=
  { Format := { type := 1, FrameRate := ⟨25, 1⟩ }, AudioSampleRate := 48000,
    AudioChannelsCount := audio_channels, AudioSampleFormat := AV_SAMPLE_FMT_S32 }

/-- A freshly constructed buffer for the examples, on `example_channel`. -/
def example_buffer (audio_channels : Int) (is_playing : Bool) : SynchronizingBuffer :=
  create (example_channel audio_channels) is_playing 1000000 0 ⟨0, 1⟩

/-- A video frame with the given timestamp. -/
def video_frame (pts : Int) : AVFrame :=
  { AllocFrame with pts := pts, width := 1920, height := 1080 }

/-- An audio frame with the given timestamp, holding `count` two-channel samples of value 1. -/
def audio_frame (pts : Int) (count : Nat) : AVFrame :=
  { AllocFrame with
    pts := pts, format := AV_SAMPLE_FMT_S32, channels := 2, nb_samples := count,
    data := List.replicate count [1, 1] }

/-- A flushed 25 fps buffer holding 251 frames, as 251 pushes followed by `Flush` leave it. -/
def overfull_flushed_buffer : SynchronizingBuffer :=
  { example_buffer 2 true with
    is_flushed_ := true
    input_video_time_base_ := ⟨1, 25⟩
    video_queue_ := List.replicate 251 (video_frame 0) }

/-- A playing 25 fps buffer holding ten frames with timestamps 0 to 9 in the time base 1/25, that
is 40 ms apart. -/
def ten_frames_buffer : SynchronizingBuffer :=
  { example_buffer 2 true with
    input_video_time_base_ := ⟨1, 25⟩
    video_queue_ := (List.range 10).map fun i => video_frame i }

/-- A paused buffer configured with 64 audio channels, with a last delivered frame cached, an
empty queue and a ring buffer holding one sample: the state a playing 64-channel buffer is in
after three samples and one frame were pushed, one unit of two samples was pulled and
`SetIsPlaying(false)` was called. -/
def wide_paused_buffer : SynchronizingBuffer :=
  { example_buffer 64 false with
    input_video_time_base_ := ⟨1, 25⟩
    last_video_ := some (video_frame 0)
    fifo_ := some
      { sample_fmt := AV_SAMPLE_FMT_S32, channels_count := 64, sample_rate := 48000,
        time_base := ⟨1, 48000⟩, base_time := 0, capacity := 480000, samples := [[1, 1]] } }

/-- A playing two-channel 25 fps buffer whose queue has run empty, with a last delivered frame
cached and no ring buffer. -/
def starved_buffer : SynchronizingBuffer :=
  { example_buffer 2 true with
    input_video_time_base_ := ⟨1, 25⟩
    last_video_ := some (video_frame 7) }

end SynchronizingBuffer

end FFmpeg
end TVPlayR


/-! ## libavutil arithmetic and integer conversions -/

namespace TVPlayR
namespace FFmpeg

/-- The `INT64_MIN` of `<cstdint>`: what `av_rescale` returns for arguments it rejects. -/
def INT64_MIN : Int := -(2 ^ 63)

/-- The `av_rescale(a, b, c)` of libavutil, `av_rescale_rnd` with `AV_ROUND_NEAR_INF`: `a * b / c`
rounded to the nearest integer, halves away from zero, and `INT64_MIN` when `c <= 0` or `b < 0`.
(libavutil also returns `INT64_MIN` when the result does not fit 64 bits; results are not clipped
here.) -/
def av_rescale (a b c : Int) : Int :=
  if c ≤ 0 ∨ b < 0 then INT64_MIN
  else if a < 0 then -(((-a) * b + c / 2) / c)
  else (a * b + c / 2) / c

/-- The conversion `static_cast<int>(value)` of an `int64_t` to a 32-bit `int`: the value modulo
`2 ^ 32`, taken in `[-2 ^ 31, 2 ^ 31)`. -/
def to_int (value : Int) : Int := (value + 2 ^ 31) % 2 ^ 32 - 2 ^ 31

namespace SynchronizingBuffer

/-- `Full()`, the same text in both files. The queue length is compared as `size_t`, the sample
count as a signed integer. (`video_frame_rate_.den * AV_TIME_BASE` is not wrapped to 32 bits.) -/
def Full (self : SynchronizingBuffer) : Bool :=
  if self.is_flushed_ then true
  else
    decide (self.video_queue_.length ≥
        to_size_t (av_rescale self.duration_ self.video_frame_rate_.num
          (self.video_frame_rate_.den * AV_TIME_BASE))) &&
      (match self.fifo_ with
       | none => true
       | some fifo =>
         decide ((fifo.SamplesCount : Int) > av_rescale self.duration_ self.sample_rate_
           AV_TIME_BASE))

/-- `Ready()`, the same text in both files. -/
def Ready (self : SynchronizingBuffer) : Bool :=
  if self.is_flushed_ then true
  else if self.is_playing_ then
    !self.video_queue_.isEmpty &&
      (match self.fifo_ with
       | none => true
       | some fifo =>
         decide ((fifo.SamplesCount : Int) > av_rescale self.sample_rate_
           self.input_video_time_base_.num self.input_video_time_base_.den))
  else
    self.last_video_.isSome || !self.video_queue_.isEmpty

end SynchronizingBuffer
end FFmpeg
end TVPlayR

/-! ## The NDI output -/

namespace TVPlayR
namespace Ndi
namespace NdiOutput

open FFmpeg

/-- The data members of `NdiOutput::implementation` that `AssignToChannel`, `ReleaseChannel`,
`Push`, `Tick` and `AudioSamplesRequired` read or write. `frame_requested_callback_` is kept as
whether a callback is set. `audio_channels_count_` and `audio_sample_format_`, which no statement
assigns after their default member initialisers, are the constants of the same names below. -/
structure implementation where
  is_running_ : Bool
  format_ : Core.VideoFormat
  audio_sample_rate_ : Int
  last_video_ : Option AVFrame
  buffer_frame_ : Option AVSync
  frame_requested_callback_ : Bool
  video_frames_pushed_ : Int
  audio_samples_pushed_ : Int
  last_video_time_ : Int
deriving DecidableEq, Repr

/-- What one `Tick` hands to the outside: the sample count passed to the frame-requested callback,
if one is set, and the video frame, its time and the audio block handed to the NDI send calls
(`CreateVideoFrame`, `CreateAudioFrame` and the library are not in the source tree). -/
structure Sent where
  requested : Option Int
  video : Option AVFrame
  time : Int
  audio : AVFrame
deriving DecidableEq, Repr

namespace implementation

/-- The member `audio_channels_count_`: `int audio_channels_count_ = 2;`, never assigned. -/
def audio_channels_count_ : Int := 2

/-- The member `audio_sample_format_`: `AV_SAMPLE_FMT_S32`, never assigned. -/
def audio_sample_format_ : Int := AV_SAMPLE_FMT_S32

/-- The outcome of `Tick`: its result, or a fault together with the object as it was when the
fault happened. -/
abbrev Outcome (α : Type) := Except (Fault × implementation) α

/-- The constructor: not running, the format `VideoFormatType::invalid` (its description, from
the absent `VideoFormat.h`, is the argument), 48000 Hz, no frames, no callback, counters zero. -/
def create (invalid_format : Core.VideoFormat) : implementation :=
  { is_running_ := false, format_ := invalid_format, audio_sample_rate_ := 48000,
    last_video_ := none, buffer_frame_ := none, frame_requested_callback_ := false,
    video_frames_pushed_ := 0, audio_samples_pushed_ := 0, last_video_time_ := 0 }

/-- `AssignToChannel(channel)`: refused when already running; otherwise the format and the sample
rate are taken from the channel and the counters start at zero. `empty_video` is the frame
`CreateEmptyVideoFrame(format_, channel.PixelFormat())` returns. The first `Tick` it schedules is
a step of its own here. -/
def AssignToChannel (self : implementation) (channel : Core.Channel) (empty_video : AVFrame) :
    Bool × implementation :=
  if self.is_running_ then (false, self)
  else
    (true, { self with
      is_running_ := true
      format_ := channel.Format
      audio_sample_rate_ := channel.AudioSampleRate
      last_video_ := some empty_video
      video_frames_pushed_ := 0
      audio_samples_pushed_ := 0
      last_video_time_ := 0 })

/-- `ReleaseChannel()`. `invalid_format` describes `VideoFormatType::invalid`. -/
def ReleaseChannel (self : implementation) (invalid_format : Core.VideoFormat) : implementation :=
  { self with is_running_ := false, format_ := invalid_format }

/-- `Push(sync)`: the unit replaces whatever was pending. -/
def Push (self : implementation) (sync : AVSync) : implementation :=
  { self with buffer_frame_ := some sync }

/-- `SetFrameRequestedCallback(callback)`, with whether the callback is non-null. -/
def SetFrameRequestedCallback (self : implementation) (callback : Bool) : implementation :=
  { self with frame_requested_callback_ := callback }

/-- `AudioSamplesRequired()`: the rounded sample count for one more frame than pushed so far,
less the samples pushed so far, converted to `int`. (`audio_sample_rate_ * Denominator()` is not
wrapped to 32 bits.) -/
def AudioSamplesRequired (self : implementation) : Int :=
  to_int (av_rescale (self.video_frames_pushed_ + 1)
      (self.audio_sample_rate_ * self.format_.FrameRate.den) self.format_.FrameRate.num
    - self.audio_samples_pushed_)

/-- `Tick()`, up to the calls into the NDI library: the pending unit, or else the previous video
with silence of `AudioSamplesRequired()` samples, is taken; the counters advance; the callback, if
set, gets the next `AudioSamplesRequired()`. Reading `nb_samples` of a null audio block is a
fault. The re-scheduling `begin_invoke` at the end is not a state change. -/
def Tick (self : implementation) : Outcome (Sent × implementation) :=
  let taken : Option (Option AVFrame × implementation) :=
    match self.buffer_frame_ with
    | some unit =>
      some (unit.Audio,
        { self with last_video_ := unit.Video, last_video_time_ := unit.Time,
                    buffer_frame_ := none })
    | none =>
      (CreateSilentAudioFrameAs self.AudioSamplesRequired audio_channels_count_
        audio_sample_format_).map fun audio => (some audio, self)
  match taken with
  | none => .error (Fault.assertion_failed, self)
  | some (audio, s1) =>
    let s2 := { s1 with video_frames_pushed_ := s1.video_frames_pushed_ + 1 }
    match audio with
    | none => .error (Fault.null_dereference, s2)
    | some block =>
      let s3 := { s2 with audio_samples_pushed_ := s2.audio_samples_pushed_ + block.nb_samples }
      .ok ({ requested :=
               if s3.frame_requested_callback_ then some s3.AudioSamplesRequired else none
             video := s3.last_video_
             time := s3.last_video_time_
             audio := block }, s3)

/-- A run of ticks; before each, the unit `Push` delivered since the previous tick, if any. The
result is what each tick sent and the object after the last one; the run stops at a fault. -/
def ticks : implementation → List (Option AVSync) → Outcome (List Sent × implementation)
  | self, [] => .ok ([], self)
  | self, pushed :: rest =>
    match (match pushed with
           | some unit => self.Push unit
           | none => self).Tick with
    | .error fault => .error fault
    | .ok (sent, next) =>
      match ticks next rest with
      | .error fault => .error fault
      | .ok (sents, last) => .ok (sent :: sents, last)

/-- The pending unit, if there is one, carries an audio block of exactly the
`AudioSamplesRequired()` samples of the moment: the count the previous `Tick` passed to the
callback. -/
def answers_request (self : implementation) : Prop :=
  match self.buffer_frame_ with
  | none => True
  | some unit => ∃ audio, unit.Audio = some audio ∧ audio.nb_samples = self.AudioSamplesRequired

/-- Every tick of a run consumes silence or a unit that answers the request. -/
def well_fed : implementation → List (Option AVSync) → Prop
  | _, [] => True
  | self, pushed :: rest =>
    answers_request (match pushed with
                     | some unit => self.Push unit
                     | none => self) ∧
    match (match pushed with
           | some unit => self.Push unit
           | none => self).Tick with
    | .error _ => True
    | .ok (_, next) => well_fed next rest

/-- The rounded sample count for `n` frames: `av_rescale(n, sample_rate * den, num)`. -/
def samples_for (self : implementation) (n : Int) : Int :=
  av_rescale n (self.audio_sample_rate_ * self.format_.FrameRate.den) self.format_.FrameRate.num

/-- The configuration `Tick` computes with is sound: a positive frame-rate numerator, a
non-negative denominator and sample rate, and a product `sample_rate * den` within `int`. -/
def sound_configuration (self : implementation) : Prop :=
  0 < self.format_.FrameRate.num ∧ 0 ≤ self.format_.FrameRate.den ∧
    0 ≤ self.audio_sample_rate_ ∧
    self.audio_sample_rate_ * self.format_.FrameRate.den < 2 ^ 31

/-- An NDI channel of the examples: the given frame rate, 48000 Hz, two channels. -/
def example_channel (frame_rate : AVRational) : Core.Channel :=
  { Format := { type := 1, FrameRate := frame_rate }, AudioSampleRate := 48000,
    AudioChannelsCount := 2, AudioSampleFormat := AV_SAMPLE_FMT_S32 }

/-- A newly constructed output assigned to `example_channel`, with the callback set. -/
def example_output (frame_rate : AVRational) : implementation :=
  (((create { type := 0, FrameRate := ⟨0, 1⟩ }).SetFrameRequestedCallback true).AssignToChannel
    (example_channel frame_rate) AllocFrame).2

end implementation
end NdiOutput
end Ndi
end TVPlayR

/-! ## Queries and observed runs of the synchronizing buffer -/

namespace TVPlayR
namespace FFmpeg
namespace SynchronizingBuffer

/-- One call of a member function of the public interface, state-changing or query, with its
arguments. -/
inductive Operation where
  | PushVideo (frame : Option AVFrame) (time_base : AVRational)
  | PushAudio (frame : Option AVFrame)
  | PullSync (audio_samples_count : Int)
  | Ready
  | Full
  | Seek (time : Int)
  | Flush
  | SetIsPlaying (is_playing : Bool)
  | IsEof
deriving DecidableEq, Repr

/-- What a call hands back to its caller: nothing for a `void` member function, the unit for
`PullSync`, the answer for a query. -/
inductive Observation where
  | nothing
  | unit (sync : AVSync)
  | answer (value : Bool)
deriving DecidableEq, Repr

/-- One call of the chosen variant: what it returns and the object afterwards. -/
def operate (variant : Variant) (PtsToTime : Int → AVRational → Int)
    (self : SynchronizingBuffer) : Operation → Result (Observation × SynchronizingBuffer)
  | .PushVideo frame time_base =>
    (self.PushVideo frame time_base).map fun next => (Observation.nothing, next)
  | .PushAudio frame =>
    (self.PushAudio PtsToTime frame).map fun next => (Observation.nothing, next)
  | .PullSync audio_samples_count =>
    (PullSyncOf variant PtsToTime self audio_samples_count).map
      fun pulled => (Observation.unit pulled.1, pulled.2)
  | .Ready => .ok (Observation.answer self.Ready, self)
  | .Full => .ok (Observation.answer self.Full, self)
  | .Seek time => .ok (Observation.nothing, self.Seek time)
  | .Flush => .ok (Observation.nothing, self.Flush)
  | .SetIsPlaying is_playing => .ok (Observation.nothing, self.SetIsPlaying is_playing)
  | .IsEof => .ok (Observation.answer self.IsEof, self)

/-- What a run shows: the results of the calls that returned, in order, the fault that stopped
the run (if one did), and the object at the end of the run or at the fault. -/
structure Trace where
  results : List Observation
  fault : Option Fault
  state : SynchronizingBuffer
deriving DecidableEq, Repr

/-- A sequence of calls of the chosen variant, made in order; the run stops at the first
fault. -/
def operations (variant : Variant) (PtsToTime : Int → AVRational → Int) :
    SynchronizingBuffer → List Operation → Trace
  | self, [] => { results := [], fault := none, state := self }
  | self, op :: rest =>
    match operate variant PtsToTime self op with
    | .error (fault, at_fault) => { results := [], fault := some fault, state := at_fault }
    | .ok (result, next) =>
      let later := operations variant PtsToTime next rest
      { later with results := result :: later.results }

/-- No `PullSync` of the run is issued while the video queue is empty and no last frame is
cached. -/
def pulls_have_video (variant : Variant) (PtsToTime : Int → AVRational → Int) :
    SynchronizingBuffer → List Operation → Prop
  | _, [] => True
  | self, op :: rest =>
    (match op with
     | .PullSync _ => ¬ (self.video_queue_ = [] ∧ self.last_video_ = none)
     | _ => True) ∧
    match operate variant PtsToTime self op with
    | .error _ => True
    | .ok (_, next) => pulls_have_video variant PtsToTime next rest

/-- Two objects are the same, or differ in the recorded source time base only and have no frame
queued or cached. -/
def same_until_first_video (a b : SynchronizingBuffer) : Prop :=
  b = a ∨
    ((∃ time_base, b = a.with_time_base time_base) ∧
      a.video_queue_ = [] ∧ a.last_video_ = none)

/-! ### Example states for the queries -/

/-- A ring buffer of the examples holding `count` samples, with the attributes `PushAudio`
gives it on `example_channel 2`. -/
def example_fifo (count : Nat) : AudioFifo :=
  { sample_fmt := AV_SAMPLE_FMT_S32, channels_count := 2, sample_rate := 48000,
    time_base := ⟨1, 48000⟩, base_time := 0, capacity := 480000,
    samples := List.replicate count [1, 1] }

/-- A playing 25 fps buffer with a target duration of 40 ms (one frame, 1920 samples), holding
one frame and exactly 1920 samples. -/
def exactly_full_buffer : SynchronizingBuffer :=
  { create (example_channel 2) true 40000 0 ⟨0, 1⟩ with
    input_video_time_base_ := ⟨1, 25⟩
    video_queue_ := [video_frame 0]
    fifo_ := some (example_fifo 1920) }

/-- A playing 25 fps buffer with a target duration of 40 ms, holding one frame and no ring
buffer: no audio was pushed. -/
def video_only_buffer : SynchronizingBuffer :=
  { create (example_channel 2) true 40000 0 ⟨0, 1⟩ with
    input_video_time_base_ := ⟨1, 25⟩
    video_queue_ := [video_frame 0] }

/-- A playing 25 fps buffer whose source stamps its frames in milliseconds, holding one frame
and 100 samples. -/
def millisecond_source_buffer : SynchronizingBuffer :=
  { example_buffer 2 true with
    input_video_time_base_ := ⟨1, 1000⟩
    video_queue_ := [video_frame 0]
    fifo_ := some (example_fifo 100) }

/-- A flushed 25 fps buffer whose ring buffer is filled to its capacity of 480000 samples, as a
push of ten seconds of audio followed by `Flush` leaves it. -/
def full_fifo_flushed_buffer : SynchronizingBuffer :=
  { example_buffer 2 true with
    is_flushed_ := true
    fifo_ := some (example_fifo 480000) }

/-- A 25 fps buffer whose ring buffer is filled to its capacity of 480000 samples. -/
def full_fifo_buffer : SynchronizingBuffer :=
  { example_buffer 2 true with fifo_ := some (example_fifo 480000) }

/-- A flushed 25 fps buffer that recorded the time base 1/25, holding one frame and three
samples. -/
def flushed_buffer : SynchronizingBuffer :=
  { example_buffer 2 true with
    is_flushed_ := true
    input_video_time_base_ := ⟨1, 25⟩
    video_queue_ := [video_frame 0]
    fifo_ := some (example_fifo 3) }

end SynchronizingBuffer
end FFmpeg

/-! ## The managed channel -/

namespace Core

/-- A native output device (`std::shared_ptr<Core::OutputDevice>`), known by its identity. -/
abbrev OutputDevice := Nat

/-- One call the managed channel makes on the native `Core::Channel` it owns, with the native
device it passes: `nullptr` is `none`. -/
inductive Request where
  | SetFrameClock (device : Option OutputDevice)
  | AddOutput (device : Option OutputDevice)
  | RemoveOutput (device : Option OutputDevice)
deriving DecidableEq, Repr

end Core

/-- A managed output (`OutputBase^`): its identity as an object and what `GetNativeDevice()`
returns for it. -/
structure OutputBase where
  reference : Nat
  GetNativeDevice : Option Core.OutputDevice
deriving DecidableEq, Repr

/-- The managed `Channel` of `TVPlayR.Player/Channel.cpp`, as far as `AddOutput` and
`RemoveOutput` go. The implementation of the native `Core::Channel` is not in the source tree:
`_channel` is the sequence of calls made on it, oldest first. `_outputs` is the managed list of
outputs. -/
structure Channel where
  _channel : List Core.Request
  _outputs : List OutputBase
deriving DecidableEq, Repr

namespace Channel

/-- `Channel::AddOutput(output, setAsClockBase)`; a null `output` is `none`. The result of the
native `Core::Channel::AddOutput`, whose implementation is not in the source tree, is
`native_AddOutput` applied to the calls made on the native channel before it and to the device. -/
def AddOutput (native_AddOutput : List Core.Request → Option Core.OutputDevice → Bool)
    (self : Channel) (output : Option OutputBase) (setAsClockBase : Bool) : Bool × Channel :=
  match output with
  | none => (false, self)
  | some out =>
    let s1 :=
      if setAsClockBase then
        { self with _channel := self._channel ++ [Core.Request.SetFrameClock out.GetNativeDevice] }
      else self
    let accepted := native_AddOutput s1._channel out.GetNativeDevice
    let s2 := { s1 with _channel := s1._channel ++ [Core.Request.AddOutput out.GetNativeDevice] }
    if !accepted then (false, s2)
    else (true, { s2 with _outputs := s2._outputs ++ [out] })

/-- `Channel::RemoveOutput(output)`, a `void` member function: `List<T>::Remove` removes the
first occurrence and tells whether there was one. -/
def RemoveOutput (self : Channel) (output : OutputBase) : Channel :=
  if output ∈ self._outputs then
    { _outputs := self._outputs.erase output
      _channel := self._channel ++ [Core.Request.RemoveOutput output.GetNativeDevice] }
  else self

/-- The output the native channel was last told to take its frame clock from, if any. -/
def clock_source (self : Channel) : Option (Option Core.OutputDevice) :=
  self._channel.reverse.findSome? fun request =>
    match request with
    | Core.Request.SetFrameClock device => some device
    | _ => none

/-- A managed output of the examples, with a native device of the same number. -/
def example_output (number : Nat) : OutputBase :=
  { reference := number, GetNativeDevice := some number }

/-- A channel of the examples: output 1 was added as the clock source, then output 2, the native
channel accepting both. -/
def two_output_channel : Channel :=
  { _channel := [Core.Request.SetFrameClock (some 1), Core.Request.AddOutput (some 1),
      Core.Request.AddOutput (some 2)]
    _outputs := [example_output 1, example_output 2] }

end Channel
end TVPlayR

/-! ## Example states of the NDI output -/

namespace TVPlayR
namespace Ndi
namespace NdiOutput
namespace implementation

open FFmpeg

/-- A newly constructed output assigned to a 25 fps channel, with no frame-requested callback
set: an output that is not the clock of its channel. -/
def output_without_callback : implementation :=
  ((create { type := 0, FrameRate := ⟨0, 1⟩ }).AssignToChannel (example_channel ⟨25, 1⟩)
    AllocFrame).2

/-- A unit with a video frame and a time but no audio block. -/
def unit_without_audio : AVSync :=
  { Audio := none, Video := some (SynchronizingBuffer.video_frame 0), Time := 40000 }

/-- A unit of the examples: 1920 samples, a video frame stamped 1, and the time 40000. -/
def example_unit : AVSync :=
  { Audio := some (SynchronizingBuffer.audio_frame 1920 1920)
    Video := some (SynchronizingBuffer.video_frame 1), Time := 40000 }

end implementation
end NdiOutput
end Ndi
end TVPlayR

/-! ## Runs of the synchronizing buffer with `SetSynchro` and `IsFlushed` -/

namespace TVPlayR
namespace FFmpeg
namespace SynchronizingBuffer

/-- One call of the public interface: one of the calls of `Operation`, `IsFlushed()` or
`SetSynchro(time)`. -/
inductive Step where
  | operation (op : Operation)
  | IsFlushed
  | SetSynchro (time : Int)
deriving DecidableEq, Repr

/-- Whether a call is `SetSynchro`. -/
def Step.is_SetSynchro : Step → Bool
  | Step.SetSynchro _ => true
  | _ => false

/-- The calls of a sequence other than `SetSynchro`, in order. -/
def other_steps (calls : List Step) : List Step :=
  calls.filter fun step => !step.is_SetSynchro

/-- A sequence of calls of the chosen variant, made in order; the run stops at the first fault.
The results are those of the calls other than `SetSynchro`, which returns nothing. -/
def steps (variant : Variant) (PtsToTime : Int → AVRational → Int) :
    SynchronizingBuffer → List Step → Trace
  | self, [] => { results := [], fault := none, state := self }
  | self, Step.SetSynchro time :: rest => steps variant PtsToTime (self.SetSynchro time) rest
  | self, Step.IsFlushed :: rest =>
    let later := steps variant PtsToTime self rest
    { later with results := Observation.answer self.IsFlushed :: later.results }
  | self, Step.operation op :: rest =>
    match operate variant PtsToTime self op with
    | .error (fault, at_fault) => { results := [], fault := some fault, state := at_fault }
    | .ok (result, next) =>
      let later := steps variant PtsToTime next rest
      { later with results := result :: later.results }

end SynchronizingBuffer
end FFmpeg
end TVPlayR

/-! ## Decklink utilities -/

namespace TVPlayR

namespace Core

/-- The enumerators of `Core::VideoFormatType` that `DecklinkUtils.cpp` names (the declaration,
in `VideoFormat.h`, is not in the source tree); `other` stands for any enumerator it does not
name, each of which takes the `default` branch of a `switch`. -/
inductive VideoFormatType where
  | invalid
  | pal
  | pal_fha
  | ntsc
  | ntsc_fha
  | v720p5000
  | v720p5994
  | v720p6000
  | v1080p2398
  | v1080p2400
  | v1080i5000
  | v1080i5994
  | v1080i6000
  | v1080p2500
  | v1080p2997
  | v1080p3000
  | v1080p5000
  | v1080p5994
  | v1080p6000
  | v2160p2398
  | v2160p2400
  | v2160p2500
  | v2160p2997
  | v2160p3000
  | v2160p5000
  | v2160p5994
  | v2160p6000
  | other (value : Nat)
deriving DecidableEq, Repr

end Core

namespace Common

/-- The `Common::Rational<int>` of the absent `Rational.h`, as far as `Numerator()` and
`Denominator()` go; the constructor is taken to keep the two `int` values it is given. -/
structure Rational where
  Numerator : Int
  Denominator : Int
deriving DecidableEq, Repr

end Common

namespace Decklink

open FFmpeg

/-- The enumerators of `BMDDisplayMode` (DeckLink SDK) that `DecklinkUtils.cpp` names; `other`
stands for any display mode it does not name, each of which takes the `default` branch of a
`switch`. -/
inductive BMDDisplayMode where
  | bmdModeNTSC
  | bmdModePAL
  | bmdModeHD720p50
  | bmdModeHD720p5994
  | bmdModeHD720p60
  | bmdModeHD1080p2398
  | bmdModeHD1080p24
  | bmdModeHD1080p25
  | bmdModeHD1080p2997
  | bmdModeHD1080p30
  | bmdModeHD1080i50
  | bmdModeHD1080i5994
  | bmdModeHD1080i6000
  | bmdModeHD1080p50
  | bmdModeHD1080p5994
  | bmdModeHD1080p6000
  | bmdMode4K2160p2398
  | bmdMode4K2160p24
  | bmdMode4K2160p25
  | bmdMode4K2160p2997
  | bmdMode4K2160p30
  | bmdMode4K2160p50
  | bmdMode4K2160p5994
  | bmdMode4K2160p60
  | bmdModeUnknown
  | other (code : Nat)
deriving DecidableEq, Repr

/-- `GetDecklinkDisplayMode(fmt)`. -/
def GetDecklinkDisplayMode (fmt : Core.VideoFormatType) : BMDDisplayMode :=
  match fmt with
  | .pal => .bmdModePAL
  | .pal_fha => .bmdModePAL
  | .ntsc => .bmdModeNTSC
  | .ntsc_fha => .bmdModeNTSC
  | .v720p5000 => .bmdModeHD720p50
  | .v720p5994 => .bmdModeHD720p5994
  | .v720p6000 => .bmdModeHD720p60
  | .v1080p2398 => .bmdModeHD1080p2398
  | .v1080p2400 => .bmdModeHD1080p24
  | .v1080i5000 => .bmdModeHD1080i50
  | .v1080i5994 => .bmdModeHD1080i5994
  | .v1080i6000 => .bmdModeHD1080i6000
  | .v1080p2500 => .bmdModeHD1080p25
  | .v1080p2997 => .bmdModeHD1080p2997
  | .v1080p3000 => .bmdModeHD1080p30
  | .v1080p5000 => .bmdModeHD1080p50
  | .v1080p5994 => .bmdModeHD1080p5994
  | .v1080p6000 => .bmdModeHD1080p6000
  | .v2160p2398 => .bmdMode4K2160p2398
  | .v2160p2400 => .bmdMode4K2160p24
  | .v2160p2500 => .bmdMode4K2160p25
  | .v2160p2997 => .bmdMode4K2160p2997
  | .v2160p3000 => .bmdMode4K2160p30
  | .v2160p5000 => .bmdMode4K2160p50
  | .v2160p5994 => .bmdMode4K2160p5994
  | .v2160p6000 => .bmdMode4K2160p60
  | _ => .bmdModeUnknown

/-- `BMDDisplayModeToVideoFormatType(displayMode, isWide)`. -/
def BMDDisplayModeToVideoFormatType (displayMode : BMDDisplayMode) (isWide : Bool) :
    Core.VideoFormatType :=
  match displayMode with
  | .bmdModeNTSC => if isWide then .ntsc_fha else .ntsc
  | .bmdModePAL => if isWide then .pal_fha else .pal
  | .bmdModeHD720p50 => .v720p5000
  | .bmdModeHD720p5994 => .v720p5994
  | .bmdModeHD720p60 => .v720p6000
  | .bmdModeHD1080p2398 => .v1080p2398
  | .bmdModeHD1080p24 => .v1080p2400
  | .bmdModeHD1080p25 => .v1080p2500
  | .bmdModeHD1080p2997 => .v1080p2997
  | .bmdModeHD1080p30 => .v1080p3000
  | .bmdModeHD1080i50 => .v1080i5000
  | .bmdModeHD1080i5994 => .v1080i5994
  | .bmdModeHD1080i6000 => .v1080i6000
  | .bmdModeHD1080p50 => .v1080p5000
  | .bmdModeHD1080p5994 => .v1080p5994
  | .bmdModeHD1080p6000 => .v1080p6000
  | .bmdMode4K2160p2398 => .v2160p2398
  | .bmdMode4K2160p24 => .v2160p2400
  | .bmdMode4K2160p25 => .v2160p2500
  | .bmdMode4K2160p2997 => .v2160p2997
  | .bmdMode4K2160p30 => .v2160p3000
  | .bmdMode4K2160p50 => .v2160p5000
  | .bmdMode4K2160p5994 => .v2160p5994
  | .bmdMode4K2160p60 => .v2160p6000
  | _ => .invalid

/-- The `SUCCEEDED(hr)` macro of the Windows SDK: the `HRESULT` is not negative. -/
def SUCCEEDED (hr : Int) : Bool := decide (0 ≤ hr)

/-- The `FAILED(hr)` macro of the Windows SDK: the `HRESULT` is negative. -/
def FAILED (hr : Int) : Bool := decide (hr < 0)

/-- The `S_OK` of the Windows SDK. -/
def S_OK : Int := 0

/-- The `E_FAIL` of the Windows SDK, `0x80004005` read as a 32-bit `HRESULT`. -/
def E_FAIL : Int := -2147467259

/-- An `IDeckLinkTimecode` (DeckLink SDK), as far as `GetComponents` goes: its `HRESULT` and the
hours, minutes, seconds and frames it stores, each an `unsigned char`. -/
structure IDeckLinkTimecode where
  GetComponents : Int × Nat × Nat × Nat × Nat
deriving DecidableEq, Repr

/-- The timecode formats `FrameNumberFromDeclinkTimecode` and the synchro provider pass
(`BMDTimecodeFormat`, DeckLink SDK). -/
inductive BMDTimecodeFormat where
  | bmdTimecodeRP188Any
  | bmdTimecodeVITC
deriving DecidableEq, Repr

/-- An `IDeckLinkVideoInputFrame` (DeckLink SDK), as far as the calls made on it go. `GetBytes`
is the `HRESULT` and the pointer it leaves in its argument, `none` for a null pointer, with the
bytes it points to; `GetStreamTime` takes the time scale and gives the `HRESULT`, the frame time
and the frame duration; `GetTimecode` gives the `HRESULT` and the timecode pointer. -/
structure IDeckLinkVideoInputFrame where
  GetBytes : Int × Option (List Int)
  GetWidth : Int
  GetHeight : Int
  GetRowBytes : Int
  GetStreamTime : Int → Int × Int × Int
  GetTimecode : BMDTimecodeFormat → Int × Option IDeckLinkTimecode

/-- An `IDeckLinkAudioInputPacket` (DeckLink SDK), as far as the calls made on it go. -/
structure IDeckLinkAudioInputPacket where
  GetBytes : Int × Option (List Int)
  GetSampleFrameCount : Int
  GetPacketTime : Int → Int × Int

/-- The frame number of a timecode as `GetFrameFromTimecode` and `GetPts` compute it,
`((((hours * 60) + minutes) * 60) + seconds) * num / den + frames`: the `unsigned char` operands
are promoted to `int`, so every operation is 32-bit `int` arithmetic (wrapping where C++ leaves
the overflow undefined, division truncating, and 0 for a zero denominator). -/
def timecode_frame_number (hours minutes seconds frames : Nat) (frame_rate : Common.Rational) :
    Int :=
  to_int (Int.tdiv
      (to_int (to_int (to_int (to_int ((hours : Int) * 60) + minutes) * 60 + seconds) *
        frame_rate.Numerator))
      frame_rate.Denominator + frames)

/-- `GetFrameFromTimecode(video_frame, timecode_format, frame_rate)` of `DecklinkUtils.cpp`. -/
def GetFrameFromTimecode (video_frame : IDeckLinkVideoInputFrame)
    (timecode_format : BMDTimecodeFormat) (frame_rate : Common.Rational) : Int :=
  match video_frame.GetTimecode timecode_format with
  | (hr, timecode) =>
    if SUCCEEDED hr then
      match timecode with
      | some tc =>
        match tc.GetComponents with
        | (hr_components, hours, minutes, seconds, frames) =>
          if SUCCEEDED hr_components then
            timecode_frame_number hours minutes seconds frames frame_rate
          else AV_NOPTS_VALUE
      | none => AV_NOPTS_VALUE
    else AV_NOPTS_VALUE

/-- The timecode sources of the absent `DecklinkTimecodeSource.h` that the code names. -/
inductive DecklinkTimecodeSource where
  | StreamTime
  | RP188Any
  | VITC
  | other (value : Nat)
deriving DecidableEq, Repr

/-- `FrameNumberFromDeclinkTimecode(decklink_frame, timecode_source, frame_rate)`. -/
def FrameNumberFromDeclinkTimecode (decklink_frame : IDeckLinkVideoInputFrame)
    (timecode_source : DecklinkTimecodeSource) (frame_rate : Common.Rational) : Int :=
  match timecode_source with
  | .RP188Any =>
    GetFrameFromTimecode decklink_frame BMDTimecodeFormat.bmdTimecodeRP188Any frame_rate
  | .VITC => GetFrameFromTimecode decklink_frame BMDTimecodeFormat.bmdTimecodeVITC frame_rate
  | _ => AV_NOPTS_VALUE

/-- The members of `DecklinkInputSynchroProvider` that `SetInputParameters` writes and `GetPts`
reads. -/
structure DecklinkInputSynchroProvider where
  field_dominance_ : Nat
  time_scale_ : Int
  frame_duration_ : Int
  frame_rate_ : Common.Rational
  video_time_base_ : Common.Rational
deriving DecidableEq, Repr

namespace DecklinkInputSynchroProvider

/-- `SetInputParameters(field_dominance, time_scale, frame_duration)`: the frame rate is
`time_scale / frame_duration`, both converted to `int`, and the video time base its inverse. -/
def SetInputParameters (self : DecklinkInputSynchroProvider) (field_dominance : Nat)
    (time_scale frame_duration : Int) : DecklinkInputSynchroProvider :=
  { self with
    field_dominance_ := field_dominance
    time_scale_ := time_scale
    frame_duration_ := frame_duration
    frame_rate_ := ⟨to_int time_scale, to_int frame_duration⟩
    video_time_base_ := ⟨to_int frame_duration, to_int time_scale⟩ }

/-- `DecklinkInputSynchroProvider::GetPts(video_frame, timecode_format)`: the text of
`GetFrameFromTimecode` with the member `frame_rate_`. -/
def GetPts (self : DecklinkInputSynchroProvider) (video_frame : IDeckLinkVideoInputFrame)
    (timecode_format : BMDTimecodeFormat) : Int :=
  match video_frame.GetTimecode timecode_format with
  | (hr, timecode) =>
    if SUCCEEDED hr then
      match timecode with
      | some tc =>
        match tc.GetComponents with
        | (hr_components, hours, minutes, seconds, frames) =>
          if SUCCEEDED hr_components then
            timecode_frame_number hours minutes seconds frames self.frame_rate_
          else AV_NOPTS_VALUE
      | none => AV_NOPTS_VALUE
    else AV_NOPTS_VALUE

end DecklinkInputSynchroProvider

/-- What a conversion from a Decklink buffer to an `AVFrame` comes to: the null pointer, a frame,
an exception thrown by `THROW_ON_FFMPEG_ERROR`, a failed `assert`, or a `memcpy` from a null
source pointer. -/
inductive Converted where
  | null
  | frame (converted : AVFrame)
  | thrown (code : Int)
  | assertion_failed
  | copy_from_null
deriving DecidableEq, Repr

/-- The `AV_PIX_FMT_UYVY422` member of `enum AVPixelFormat` (15 since FFmpeg 4). -/
def AV_PIX_FMT_UYVY422 : Int := 15

/-- `AVFrameFromDecklinkVideo(decklink_frame, timecode_source, format, time_scale)`; a null
`decklink_frame` is `none`. `av_frame_get_buffer` is the result of the libavutil call: its return
code and the `linesize[0]` it sets. The members of `AVFrame` set from `format` (`pict_type`,
`interlaced_frame`, `top_field_first`, `sample_aspect_ratio`) are not part of the frame record;
the pixel data copied is the one plane `data[0]`, of `linesize[0] * height` bytes. -/
def AVFrameFromDecklinkVideo (decklink_frame : Option IDeckLinkVideoInputFrame)
    (time_scale : Int) (av_frame_get_buffer : Int × Int) : Converted :=
  match decklink_frame with
  | none => Converted.null
  | some input =>
    match input.GetBytes with
    | (hr, video_bytes) =>
      -- !decklink_frame || FAILED(...) && video_bytes
      if FAILED hr && video_bytes.isSome then Converted.null
      else
        let frame := { AllocFrame with
          format := AV_PIX_FMT_UYVY422, width := input.GetWidth, height := input.GetHeight }
        if av_frame_get_buffer.1 < 0 then Converted.thrown av_frame_get_buffer.1
        else if input.GetRowBytes ≠ av_frame_get_buffer.2 then Converted.assertion_failed
        else
          match video_bytes with
          | none => Converted.copy_from_null
          | some bytes =>
            let copied := { frame with
              data := [bytes.take (av_frame_get_buffer.2 * frame.height).toNat] }
            match input.GetStreamTime time_scale with
            | (hr_time, frameTime, frameDuration) =>
              if SUCCEEDED hr_time then
                Converted.frame { copied with pts := Int.tdiv frameTime frameDuration }
              else Converted.frame copied

/-- `AVFrameFromDecklinkAudio(audio_packet, channels, sample_format, sample_rate)`; a null
`audio_packet` is `none`. `default_channel_layout` is what `av_get_default_channel_layout`
returns for `channels`, and `av_frame_get_buffer` the return code of the libavutil call and the
`linesize[0]` it sets. -/
def AVFrameFromDecklinkAudio (audio_packet : Option IDeckLinkAudioInputPacket) (channels : Int)
    (sample_rate : Int) (default_channel_layout : Nat) (av_frame_get_buffer : Int × Int) :
    Converted :=
  match audio_packet with
  | none => Converted.null
  | some packet =>
    match packet.GetBytes with
    | (hr, audio_bytes) =>
      -- !audio_packet || FAILED(...) || !audio_bytes
      if FAILED hr || audio_bytes.isNone then Converted.null
      else
        let sized := { AllocFrame with
          format := AV_SAMPLE_FMT_S32, nb_samples := packet.GetSampleFrameCount }
        let timed :=
          match packet.GetPacketTime sample_rate with
          | (hr_time, packetTime) =>
            if SUCCEEDED hr_time then { sized with pts := packetTime } else sized
        let audio := { timed with channels := channels, channel_layout := default_channel_layout }
        if av_frame_get_buffer.1 < 0 then Converted.thrown av_frame_get_buffer.1
        else
          match audio_bytes with
          | none => Converted.copy_from_null
          | some bytes =>
            Converted.frame { audio with data := [bytes.take av_frame_get_buffer.2.toNat] }

/-! ### Example inputs -/

/-- A Decklink video frame of the examples, 4 by 2 pixels of two bytes each, whose `GetBytes`
gives the `HRESULT` and the pointer passed and whose timecode is the one passed. -/
def example_video_frame (bytes : Int × Option (List Int)) (timecode : Int × Nat × Nat × Nat × Nat) :
    IDeckLinkVideoInputFrame :=
  { GetBytes := bytes, GetWidth := 4, GetHeight := 2, GetRowBytes := 8
    GetStreamTime := fun _ => (S_OK, 3000, 1000)
    GetTimecode := fun _ => (S_OK, some { GetComponents := timecode }) }

/-- A Decklink audio packet of the examples, of two samples, whose `GetBytes` gives the `HRESULT`
and the pointer passed. -/
def example_audio_packet (bytes : Int × Option (List Int)) : IDeckLinkAudioInputPacket :=
  { GetBytes := bytes, GetSampleFrameCount := 2, GetPacketTime := fun _ => (S_OK, 96000) }

end Decklink
end TVPlayR

/-! ## The decoder -/

namespace TVPlayR
namespace FFmpeg

/-- The `AVERROR_EOF` of libavutil, `-MKTAG('E','O','F',' ')`. -/
def AVERROR_EOF : Int := -541478725

/-- The `AVERROR(EAGAIN)` of libavutil, with `EAGAIN` = 11. -/
def AVERROR_EAGAIN : Int := -11

/-- The `AVERROR(EINVAL)` of libavutil, with `EINVAL` = 22. -/
def AVERROR_EINVAL : Int := -22

/-- A frame as the codec delivers it: the `AVFrame` record with the members `Decoder::Pull` reads
or writes besides `pts`. -/
structure DecodedFrame where
  frame : AVFrame
  best_effort_timestamp : Int
  pkt_duration : Int
  pict_type : Int
deriving DecidableEq, Repr

namespace Decoder

/-- The data members of `Decoder::implementation` that `Pull`, `Flush` and `Seek` read or write.
The codec context `ctx_` is outside the embedding: what `avcodec_receive_frame` and
`avcodec_send_packet` return is an argument of the calls. `hw_device_ctx_` is kept as whether a
hardware device context exists. -/
structure implementation where
  is_eof_ : Bool
  is_flushed_ : Bool
  time_base_ : AVRational
  seek_pts_ : Int
  hw_device_ctx_ : Bool
deriving DecidableEq, Repr

namespace implementation

/-- The outcome of a member function: its result and the object afterwards, or the code of the
exception `THROW_ON_FFMPEG_ERROR` throws together with the object as it was then. -/
abbrev Outcome (α : Type) := Except (Int × implementation) α

/-- `Push(packet)`: `sent` is what `avcodec_send_packet` returns. -/
def Push (sent : Int) : Bool :=
  if sent = 0 then true
  else if sent = AVERROR_EAGAIN then false
  else if sent = AVERROR_EOF then false
  else true

/-- `Pull()`. `received` is what `avcodec_receive_frame` returns and `decoded` the frame it
fills; `av_hwframe_transfer_data` gives the return code of the libavutil call and the software
frame it fills. `THROW_ON_FFMPEG_ERROR`, a macro of an absent header, is taken to throw for a
negative code. The sum `pts + pkt_duration` is not wrapped to 64 bits. -/
def Pull (av_hwframe_transfer_data : DecodedFrame → Int × DecodedFrame) (self : implementation)
    (received : Int) (decoded : DecodedFrame) : Outcome (Option DecodedFrame × implementation) :=
  if received = 0 then
    let frame :=
      if decoded.frame.pts = AV_NOPTS_VALUE then
        { decoded with frame := { decoded.frame with pts := decoded.best_effort_timestamp } }
      else decoded
    if frame.frame.pts ≥ self.seek_pts_ ∨ frame.frame.pts + frame.pkt_duration > self.seek_pts_
    then
      if self.hw_device_ctx_ then
        match av_hwframe_transfer_data frame with
        | (code, sw_frame) =>
          if code < 0 then .error (code, self)
          else
            .ok (some { sw_frame with
                   frame := { sw_frame.frame with pts := frame.frame.pts }
                   pict_type := frame.pict_type }, self)
      else .ok (some frame, self)
    else .ok (none, self)
  else if received = AVERROR_EOF then .ok (none, { self with is_eof_ := true })
  else if received = AVERROR_EAGAIN then .ok (none, self)
  else if received < 0 then .error (received, self)
  else .ok (none, self)

/-- `Flush()`: `sent` is what `avcodec_send_packet` returns for the flush packet. -/
def Flush (self : implementation) (sent : Int) : Bool × implementation :=
  if self.is_flushed_ then (false, self)
  else (Push sent, { self with is_flushed_ := true })

/-- `Seek(seek_time)`. `TimeToPts` is the absent helper of `FFmpegUtils.h`. -/
def Seek (TimeToPts : Int → AVRational → Int) (self : implementation) (seek_time : Int) :
    implementation :=
  { self with
    is_eof_ := false
    is_flushed_ := false
    seek_pts_ := TimeToPts seek_time self.time_base_ }

/-- `Decoder::IsEof()`. -/
def IsEof (self : implementation) : Bool := self.is_eof_

/-! ### Example data -/

/-- Modelled from the spec: `TimeToPts(time, time_base)` of the absent `FFmpegUtils.h`, the
inverse of `PtsToTime`: a time in the global time base converted to units of `time_base`. The
theorems take `TimeToPts` as a parameter; this instance serves the examples. -/
def microseconds_to_pts (time : Int) (time_base : AVRational) : Int :=
  time * time_base.den / (time_base.num * AV_TIME_BASE)

/-- A software decoder of the examples on a stream with the time base 1/25, sought to the given
timestamp. -/
def example_decoder (seek_pts : Int) : implementation :=
  { is_eof_ := false, is_flushed_ := false, time_base_ := ⟨1, 25⟩, seek_pts_ := seek_pts,
    hw_device_ctx_ := false }

/-- A decoded video frame of the examples with the given timestamp and duration. -/
def decoded_frame (pts pkt_duration : Int) : DecodedFrame :=
  { frame := { AllocFrame with pts := pts, width := 1920, height := 1080 }
    best_effort_timestamp := pts, pkt_duration := pkt_duration, pict_type := 1 }

/-- A transfer from a hardware frame that succeeds and keeps the content. -/
def example_transfer (hw_frame : DecodedFrame) : Int × DecodedFrame :=
  (0, { hw_frame with pict_type := 0 })

end implementation
end Decoder
end FFmpeg
end TVPlayR

/-! ## The video filter -/

namespace TVPlayR
namespace FFmpeg
namespace VideoFilter

/-- The `AV_PICTURE_TYPE_NONE` member of `enum AVPictureType`. -/
def AV_PICTURE_TYPE_NONE : Int := 0

/-- An `AVFramePtr` (`std::shared_ptr<AVFrame>`) that is not null: the frame it points to, known
by its address. `Push` writes through the pointer, so here frames are objects in memory, not
values. -/
abbrev AVFramePtr := Nat

/-- The content of a frame in memory: the members `Push` writes, and the rest of the frame. -/
structure Picture where
  pict_type : Int
  key_frame : Int
  content : AVFrame
deriving DecidableEq, Repr

/-- The frames in memory, by address. -/
abbrev Frames := AVFramePtr → Picture

/-- The data members of `VideoFilter::implementation` that `Push`, `Pull`, `Flush` and `Reset`
read or write; a filter context is known by a number, `NULL` is `none`. The filter graph is
outside the embedding: what `av_buffersrc_write_frame` and `av_buffersink_get_frame` return is an
argument of the calls. -/
structure implementation where
  source_ctx_ : Option Nat
  sink_ctx_ : Option Nat
  direct_path_frame_ : Option AVFramePtr
  is_flushed_ : Bool
  is_eof_ : Bool
deriving DecidableEq, Repr

/-- Why `Push` did not return. -/
inductive Fault where
  | null_dereference
deriving DecidableEq, Repr

namespace implementation

/-- The constructor: no filter graph, an empty slot, neither flushed nor at the end. -/
def create : implementation :=
  { source_ctx_ := none, sink_ctx_ := none, direct_path_frame_ := none, is_flushed_ := false,
    is_eof_ := false }

/-- `Push(frame)`; a null `frame` is `none`, and `written` is what `av_buffersrc_write_frame`
returns. Without a source context the frame goes to the slot if it is empty, after `pict_type`
and `key_frame` are reset through the pointer. The result is what `Push` returns, the frames in
memory and the object afterwards. -/
def Push (written : Int) (frames : Frames) (self : implementation) (frame : Option AVFramePtr) :
    Except Fault (Bool × Frames × implementation) :=
  match self.source_ctx_ with
  | none =>
    if self.direct_path_frame_.isSome then .ok (false, frames, self)
    else
      match frame with
      | none => .error Fault.null_dereference
      | some pointer =>
        .ok (true,
          Function.update frames pointer
            { frames pointer with pict_type := AV_PICTURE_TYPE_NONE, key_frame := 0 },
          { self with direct_path_frame_ := some pointer })
  | some _ =>
    if written < 0 then .ok (false, frames, self)
    else .ok (true, frames, self)

/-- `Pull()`. `received` is what `av_buffersink_get_frame` returns and `filtered` the frame it
fills. Without a sink context the slot is handed out and emptied. `FF`, a macro of an absent
header, is taken to hold for a code that is not negative. -/
def Pull (received : Int) (filtered : AVFramePtr) (self : implementation) :
    Option AVFramePtr × implementation :=
  match self.sink_ctx_ with
  | none => (self.direct_path_frame_, { self with direct_path_frame_ := none })
  | some _ =>
    if received = AVERROR_EOF then (none, { self with is_eof_ := true })
    else if received = AVERROR_EAGAIN then (none, self)
    else if received = AVERROR_EINVAL then (none, self)
    else if 0 ≤ received then (some filtered, self)
    else (none, self)

/-- `Flush()`. -/
def Flush (self : implementation) : implementation :=
  { self with is_flushed_ := true }

/-! ### Example data -/

/-- Frames in memory for the examples: every frame is an intra picture and a key frame, stamped
with its address. -/
def example_frames : Frames :=
  fun pointer => { pict_type := 1, key_frame := 1, content := { AllocFrame with pts := pointer } }

end implementation
end VideoFilter
end FFmpeg
end TVPlayR

/-! ## The audio muxer -/

namespace TVPlayR
namespace FFmpeg
namespace AudioMuxer

/-- What the muxer reads of a `Decoder` that matters to its control flow: `StreamIndex()` and
whether `MediaType()` is `AVMEDIA_TYPE_AUDIO`. -/
structure DecoderInfo where
  StreamIndex : Int
  is_audio : Bool
deriving DecidableEq, Repr

/-- An `AVFilterContext*` that is not null, known by the number of the graph it belongs to and
its position among the sources of that graph. -/
structure AVFilterContext where
  graph : Nat
  position : Nat
deriving DecidableEq, Repr

/-- The data members of `AudioMuxer::implementation` that `Push`, `Pull`, `Flush`, `Reset` and
`CreateFilterChain` read or write. `graph_` is kept as the number of graphs allocated so far. The
filter graph is outside the embedding: how far the libavfilter calls of `CreateFilterChain` get,
and what `av_buffersrc_write_frame` and `av_buffersink_get_frame` return, are arguments of the
calls. The `lock_guard` statements are left out. -/
structure implementation where
  decoders_ : List DecoderInfo
  source_ctx_ : List (Int × AVFilterContext)
  sink_ctx_ : Option AVFilterContext
  graph_ : Nat
  is_eof_ : Bool
  is_flushed_ : Bool
deriving DecidableEq, Repr

/-- How far the libavfilter calls in the `try` block of `CreateFilterChain` get: whether the sink
is created and configured, and how many sources are created before a call fails (all of them,
when the number is at least the number of decoders). A failure is thrown and caught inside
`CreateFilterChain`. -/
structure Built where
  sink_created : Bool
  sources_created : Nat
deriving DecidableEq, Repr

/-- What is thrown out of a member function. -/
inductive Thrown where
  | non_audio_stream
  | stream_not_found
  | ffmpeg_error (code : Int)
  | no_decoder
deriving DecidableEq, Repr

namespace implementation

/-- The outcome of a member function: its result, or what it throws together with the object as
it is then. -/
abbrev Outcome (α : Type) := Except (Thrown × implementation) α

/-- The sources the loop of `CreateFilterChain` creates: one for each of the first `count`
decoders, paired with the decoder's stream index. -/
def created_sources (graph : Nat) (decoders : List DecoderInfo) (count : Nat) :
    List (Int × AVFilterContext) :=
  (decoders.take count).enum.map fun entry =>
    (entry.2.StreamIndex, { graph := graph, position := entry.1 })

/-- `CreateFilterChain()`. It throws when a decoder is not an audio decoder; otherwise it clears
the sources and both flags, allocates a new graph and creates the sink and the sources as far as
`built` says, every later failure being caught inside. `decoders_[0]` with no decoder, which C++
leaves undefined, is taken to throw. -/
def CreateFilterChain (self : implementation) (built : Built) : Outcome implementation :=
  if self.decoders_.any fun decoder => !decoder.is_audio then
    .error (Thrown.non_audio_stream, self)
  else
    let cleared := { self with
      source_ctx_ := [], is_eof_ := false, is_flushed_ := false, graph_ := self.graph_ + 1 }
    match cleared.decoders_ with
    | [] => .error (Thrown.no_decoder, cleared)
    | _ :: _ =>
      if !built.sink_created then .ok { cleared with sink_ctx_ := none }
      else
        .ok { cleared with
          sink_ctx_ := some { graph := cleared.graph_, position := 0 }
          source_ctx_ := created_sources cleared.graph_ cleared.decoders_ built.sources_created }

/-- The constructor: the members are initialised and `CreateFilterChain()` is called; when that
throws there is no object. -/
def create (decoders : List DecoderInfo) (built : Built) : Option implementation :=
  match CreateFilterChain
      { decoders_ := decoders, source_ctx_ := [], sink_ctx_ := none, graph_ := 0,
        is_eof_ := false, is_flushed_ := false } built with
  | .ok made => some made
  | .error _ => none

/-- `Push(stream_index, frame)`. `attempts` lists, for each call of `av_buffersrc_write_frame` in
turn, what it returns and how far the `CreateFilterChain()` that follows an `EINVAL` gets; `Push`
calls itself after that `CreateFilterChain()`. When the list ends before a call of
`av_buffersrc_write_frame` is answered, the object is as it was at that call. -/
def Push (self : implementation) (stream_index : Int) :
    List (Int × Built) → Outcome implementation
  | [] =>
    match self.source_ctx_.find? fun ctx => decide (ctx.1 = stream_index) with
    | none => .error (Thrown.stream_not_found, self)
    | some _ => .ok self
  | (written, built) :: rest =>
    match self.source_ctx_.find? fun ctx => decide (ctx.1 = stream_index) with
    | none => .error (Thrown.stream_not_found, self)
    | some _ =>
      if written = 0 then .ok self
      else if written = AVERROR_EINVAL then
        match CreateFilterChain self built with
        | .error thrown => .error thrown
        | .ok rebuilt => Push rebuilt stream_index rest
      else if written < 0 then .error (Thrown.ffmpeg_error written, self)
      else .ok self

/-- `Pull()`: `received` is what `av_buffersink_get_frame` returns and `frame` the frame it
fills. -/
def Pull (self : implementation) (received : Int) (frame : AVFrame) :
    Option AVFrame × implementation :=
  if received < 0 then (none, self) else (some frame, self)

/-- `Flush()`. -/
def Flush (self : implementation) : implementation :=
  if self.is_flushed_ then self else { self with is_flushed_ := true }

/-- `Reset()`. -/
def Reset (self : implementation) (built : Built) : Outcome implementation :=
  if !self.is_eof_ then .ok self
  else CreateFilterChain { self with is_eof_ := false, is_flushed_ := false } built

/-- `AudioMuxer::IsEof()`. -/
def IsEof (self : implementation) : Bool := self.is_eof_

/-- `AudioMuxer::IsFlushed()`. -/
def IsFlushed (self : implementation) : Bool := self.is_flushed_

end implementation

/-- One call of a member function of the muxer, with its arguments and with what the libav calls
it makes return. -/
inductive Call where
  | Push (stream_index : Int) (attempts : List (Int × Built))
  | Pull (received : Int) (frame : AVFrame)
  | Flush
  | Reset (built : Built)
deriving DecidableEq, Repr

namespace implementation

/-- The object after one call: as the call leaves it when it returns, and as it is when the call
throws. -/
def call (self : implementation) : Call → implementation
  | Call.Push stream_index attempts =>
    match Push self stream_index attempts with
    | .ok next => next
    | .error (_, at_throw) => at_throw
  | Call.Pull received frame => (Pull self received frame).2
  | Call.Flush => Flush self
  | Call.Reset built =>
    match Reset self built with
    | .ok next => next
    | .error (_, at_throw) => at_throw

/-- The object after a sequence of calls, made in order. -/
def calls : implementation → List Call → implementation
  | self, [] => self
  | self, c :: rest => calls (call self c) rest

/-- A muxer of the examples over two audio decoders, streams 1 and 2, with its graph built. -/
def example_muxer : Option implementation :=
  create [{ StreamIndex := 1, is_audio := true }, { StreamIndex := 2, is_audio := true }]
    { sink_created := true, sources_created := 2 }

end implementation
end AudioMuxer
end FFmpeg
end TVPlayR
/-! ## Theorems -/

namespace TVPlayR
namespace FFmpeg
namespace SynchronizingBuffer

/-! ### `PushVideo` and C1 -/

/-- The overflow threshold depends on the frame rate only. -/
theorem video_queue_limit_congr {a b : SynchronizingBuffer}
    (h : a.video_frame_rate_ = b.video_frame_rate_) :
    a.video_queue_limit = b.video_queue_limit := by
  simp [video_queue_limit, h]

/-- What `PushVideo` does with a non-null frame on an object that is not flushed: it returns,
the queue is cleared first when it is longer than the limit, the frame goes to the back, the time
base is recorded, and the flag and the frame rate stay. -/
theorem PushVideo_unflushed (self : SynchronizingBuffer) (f : AVFrame) (time_base : AVRational)
    (h : self.is_flushed_ = false) :
    ∃ next, self.PushVideo (some f) time_base = .ok next ∧
      next.video_queue_ =
        (if self.video_queue_.length > self.video_queue_limit then [] else self.video_queue_)
          ++ [f] ∧
      next.input_video_time_base_ = time_base ∧
      next.is_flushed_ = false ∧
      next.video_frame_rate_ = self.video_frame_rate_ := by
  unfold PushVideo
  simp only [have_video_, h, Sweep, video_queue_limit]
  split_ifs <;> simp_all

/-- A run of `PushVideo` calls from an object that is not flushed returns, and a queue of at most
`limit + 1` frames stays within `limit + 1`. -/
theorem push_videos_bounded (frames : List (AVFrame × AVRational)) :
    ∀ self : SynchronizingBuffer, self.is_flushed_ = false →
      self.video_queue_.length ≤ self.video_queue_limit + 1 →
      ∃ last, push_videos self frames = .ok last ∧
        last.video_queue_.length ≤ self.video_queue_limit + 1 := by
  induction frames with
  | nil => intro self _ hb; exact ⟨self, rfl, hb⟩
  | cons x rest ih =>
    intro self h hb
    obtain ⟨f, tb⟩ := x
    obtain ⟨next, h1, h2, _, h4, h5⟩ := PushVideo_unflushed self f tb h
    have hl := video_queue_limit_congr h5
    obtain ⟨last, h6, h7⟩ := ih next h4 (by
      rw [h2, hl]; split <;> (simp; try omega))
    exact ⟨last, by simp only [push_videos, h1, h6], by rw [← hl]; exact h7⟩

/-- A run of `k` pushes onto an unflushed queue appends the `k` frames in order as long as the
total stays within `limit + 1`: the queue is cleared only once it is longer than the limit. -/
theorem push_videos_append (frames : List (AVFrame × AVRational)) :
    ∀ self : SynchronizingBuffer, self.is_flushed_ = false →
      self.video_queue_.length + frames.length ≤ self.video_queue_limit + 1 →
      ∃ last, push_videos self frames = .ok last ∧
        last.video_queue_ = self.video_queue_ ++ frames.map Prod.fst := by
  induction frames with
  | nil => intro self _ _; exact ⟨self, rfl, by simp⟩
  | cons x rest ih =>
    intro self h hb
    obtain ⟨f, tb⟩ := x
    obtain ⟨next, h1, h2, _, h4, h5⟩ := PushVideo_unflushed self f tb h
    have hl := video_queue_limit_congr h5
    simp only [List.length_cons] at hb
    have hle : ¬ self.video_queue_.length > self.video_queue_limit := by omega
    simp only [hle, if_false] at h2
    obtain ⟨last, h6, h7⟩ := ih next h4 (by rw [h2, hl]; simp; omega)
    exact ⟨last, by simp only [push_videos, h1, h6], by simp [h7, h2]⟩

/-- C1, as amended: a run of `PushVideo` calls with non-null frames on an empty, unflushed
buffer, with no other call in between, returns after each call, and the video queue then holds at
most `limit + 1` frames, where `limit` is `video_frame_rate.num * 10 / video_frame_rate.den`. -/
theorem C1_push_video_queue_bounded (self : SynchronizingBuffer)
    (h_empty : self.video_queue_ = []) (h_unflushed : self.is_flushed_ = false)
    (frames : List (AVFrame × AVRational)) (k : Nat) :
    ∃ after, push_videos self (frames.take k) = .ok after ∧
      after.video_queue_.length ≤ self.video_queue_limit + 1 :=
  push_videos_bounded (frames.take k) self h_unflushed (by simp [h_empty])

/-- C1, witness: five pushes on a freshly constructed 25 fps buffer. -/
theorem C1_push_video_queue_bounded_witness :
    ∃ after, push_videos (example_buffer 2 true)
        ((List.replicate 5 (video_frame 0, (⟨1, 25⟩ : AVRational))).take 3) = .ok after ∧
      after.video_queue_.length ≤ (example_buffer 2 true).video_queue_limit + 1 :=
  C1_push_video_queue_bounded (example_buffer 2 true) rfl rfl
    (List.replicate 5 (video_frame 0, ⟨1, 25⟩)) 3

/-- C1, counterexample: at 25 fps the cap is 250, and 251 pushes on a freshly constructed buffer
leave 251 frames in the queue. -/
theorem C1_queue_exceeds_cap :
    (example_buffer 2 true).video_queue_limit = 250 ∧
    ((push_videos (example_buffer 2 true)
        (List.replicate 251 (video_frame 0, ⟨1, 25⟩))).map
      fun after => after.video_queue_.length) = .ok 251 := by
  have hlim : (example_buffer 2 true).video_queue_limit = 250 := by decide
  refine ⟨hlim, ?_⟩
  obtain ⟨last, h1, h2⟩ := push_videos_append (List.replicate 251 (video_frame 0, ⟨1, 25⟩))
    (example_buffer 2 true) rfl (by
      rw [hlim, List.length_replicate]; simp [example_buffer, create])
  rw [h1]
  show Except.ok last.video_queue_.length = Except.ok 251
  rw [h2, List.length_append, List.length_map, List.length_replicate]
  rfl

/-! ### C2 -/

/-- C2, as amended: for every non-null frame `f` and every unflushed buffer state, `PushVideo`
returns; when the video queue is longer than the limit `num * 10 / den` the queue afterwards is
exactly `[f]`, and when it is at most the limit `f` is appended at the back and the earlier
frames stay in order. -/
theorem C2_push_video_clears_or_appends (self : SynchronizingBuffer) (f : AVFrame)
    (time_base : AVRational) (h_unflushed : self.is_flushed_ = false) :
    ∃ next, self.PushVideo (some f) time_base = .ok next ∧
      (self.video_queue_.length > self.video_queue_limit → next.video_queue_ = [f]) ∧
      (self.video_queue_.length ≤ self.video_queue_limit →
        next.video_queue_ = self.video_queue_ ++ [f]) := by
  obtain ⟨next, h1, h2, _⟩ := PushVideo_unflushed self f time_base h_unflushed
  refine ⟨next, h1, ?_, ?_⟩
  · intro h; rw [h2, if_pos h]; rfl
  · intro h; rw [h2, if_neg (by omega)]

/-- C2, witness: a push on the ten-frame example buffer. -/
theorem C2_push_video_clears_or_appends_witness :
    ten_frames_buffer.is_flushed_ = false ∧
    ∃ next, ten_frames_buffer.PushVideo (some (video_frame 10)) ⟨1, 25⟩ = .ok next ∧
      (ten_frames_buffer.video_queue_.length > ten_frames_buffer.video_queue_limit →
        next.video_queue_ = [video_frame 10]) ∧
      (ten_frames_buffer.video_queue_.length ≤ ten_frames_buffer.video_queue_limit →
        next.video_queue_ = ten_frames_buffer.video_queue_ ++ [video_frame 10]) :=
  ⟨rfl, C2_push_video_clears_or_appends ten_frames_buffer (video_frame 10) ⟨1, 25⟩ rfl⟩

/-- C2, counterexample: on a flushed buffer whose queue of 251 frames is longer than the limit of
250, `PushVideo` with a non-null frame stops at `assert(!is_flushed_)`, and the queue still holds
the 251 frames. -/
theorem C2_flushed_push_keeps_queue :
    overfull_flushed_buffer.video_queue_.length > overfull_flushed_buffer.video_queue_limit ∧
    overfull_flushed_buffer.PushVideo (some (video_frame 1)) ⟨1, 25⟩ =
      .error (Fault.assertion_failed, overfull_flushed_buffer) := by
  constructor
  · have : overfull_flushed_buffer.video_queue_limit = 250 := by decide
    rw [this]
    show (List.replicate 251 (video_frame 0)).length > 250
    rw [List.length_replicate]
    omega
  · rfl

/-! ### `PullSync` -/

/-- The audio step of `PullSync` returns when a ring buffer is read, or when the configured
channel count passes the assertion of the silence helper. -/
theorem pull_audio_returns (self : SynchronizingBuffer) (n : Int)
    (h : (self.is_playing_ = true ∧ self.fifo_.isSome = true) ∨ self.audio_channel_count_ ≤ 63) :
    ∃ audio fifo, pull_audio self n = some (audio, fifo) ∧
      fifo.isSome = self.fifo_.isSome := by
  unfold pull_audio
  cases hp : self.is_playing_ <;> cases hf : self.fifo_ <;>
    simp_all [CreateSilentAudioFrameAs, CreateSilentAudioFrame] <;>
    exact ⟨_, _, ⟨rfl, rfl⟩, rfl⟩

/-- One `PullSync` while playing with a frame queued, in either variant. -/
theorem PullSyncOf_playing_front (variant : Variant) (PtsToTime : Int → AVRational → Int)
    (self : SynchronizingBuffer) (n : Int) (f1 : AVFrame) (rest : List AVFrame)
    (h_playing : self.is_playing_ = true) (h_queue : self.video_queue_ = f1 :: rest)
    (h_audio : self.fifo_.isSome = true ∨ self.audio_channel_count_ ≤ 63) :
    ∃ unit next, PullSyncOf variant PtsToTime self n = .ok (unit, next) ∧
      unit.Video = some f1 ∧
      unit.Time = PtsToTime f1.pts self.input_video_time_base_ ∧
      next.video_queue_ = rest ∧
      next.last_video_ = some f1 ∧
      next.is_playing_ = true ∧
      next.input_video_time_base_ = self.input_video_time_base_ ∧
      next.audio_channel_count_ = self.audio_channel_count_ ∧
      next.fifo_.isSome = self.fifo_.isSome := by
  obtain ⟨audio, fifo, ha, hf⟩ := pull_audio_returns self n (by
    rcases h_audio with h | h
    · exact Or.inl ⟨h_playing, h⟩
    · exact Or.inr h)
  cases variant <;>
    simp [PullSyncOf, PullSync, implementation.PullSync, ha, pull_video, h_playing, h_queue] <;>
    exact ⟨_, _, ⟨rfl, rfl⟩, by simp [hf]⟩

/-- Successive `PullSync` calls while playing drain the queue front to back: as many calls as
frames queued return the frames in queue order, each with its timestamp converted through the
recorded time base, and leave the queue empty. -/
theorem pull_syncs_playing (variant : Variant) (PtsToTime : Int → AVRational → Int) :
    ∀ (queue : List AVFrame) (counts : List Int) (self : SynchronizingBuffer),
      self.is_playing_ = true → self.video_queue_ = queue →
      (self.fifo_.isSome = true ∨ self.audio_channel_count_ ≤ 63) →
      counts.length = queue.length →
      ∃ units last, pull_syncs variant PtsToTime self counts = .ok (units, last) ∧
        units.map AVSync.Video = queue.map some ∧
        units.map AVSync.Time =
          queue.map (fun f => PtsToTime f.pts self.input_video_time_base_) ∧
        last.video_queue_ = [] := by
  intro queue
  induction queue with
  | nil =>
    intro counts self _ hq _ hc
    have : counts = [] := List.length_eq_zero.mp (by simpa using hc)
    subst this
    exact ⟨[], self, rfl, rfl, rfl, hq⟩
  | cons f1 rest ih =>
    intro counts self hp hq ha hc
    cases counts with
    | nil => simp at hc
    | cons n cs =>
      obtain ⟨unit, next, h1, h2, h3, h4, _, h6, h7, h8, h9⟩ :=
        PullSyncOf_playing_front variant PtsToTime self n f1 rest hp hq ha
      obtain ⟨units, last, k1, k2, k3, k4⟩ := ih cs next h6 h4 (by rw [h9, h8]; exact ha)
        (by simpa using hc)
      refine ⟨unit :: units, last, by simp only [pull_syncs, h1, k1], ?_, ?_, k4⟩
      · simp [h2, k2]
      · simp [h3, k3, h7]

/-- One `PullSync` while playing with an empty queue and a last frame cached, in either variant:
the unit repeats the cached frame, and the queue and the cache stay as they were. -/
theorem PullSyncOf_underrun (variant : Variant) (PtsToTime : Int → AVRational → Int)
    (self : SynchronizingBuffer) (n : Int) (V : AVFrame)
    (h_playing : self.is_playing_ = true) (h_queue : self.video_queue_ = [])
    (h_last : self.last_video_ = some V)
    (h_audio : self.fifo_.isSome = true ∨ self.audio_channel_count_ ≤ 63) :
    ∃ unit next, PullSyncOf variant PtsToTime self n = .ok (unit, next) ∧
      unit.Video = some V ∧
      unit.Time = PtsToTime V.pts self.input_video_time_base_ ∧
      next.video_queue_ = [] ∧
      next.last_video_ = some V := by
  obtain ⟨audio, fifo, ha, hf⟩ := pull_audio_returns self n (by
    rcases h_audio with h | h
    · exact Or.inl ⟨h_playing, h⟩
    · exact Or.inr h)
  cases variant <;>
    simp [PullSyncOf, PullSync, implementation.PullSync, ha, pull_video, h_playing, h_queue,
      h_last] <;>
    exact ⟨_, _, ⟨rfl, rfl⟩, by simp⟩

/-- The video step of `PullSync` leaves a last frame absent exactly when the queue is empty and
none was cached. -/
theorem pull_video_last_video_none (self : SynchronizingBuffer) :
    (pull_video self).last_video_ = none ↔ self.video_queue_ = [] ∧ self.last_video_ = none := by
  unfold pull_video
  dsimp only
  cases hq : self.video_queue_ <;> cases hl : self.last_video_ <;>
    cases hp : self.is_playing_ <;> simp [hq, hl, hp]

/-- The unit and the object `PullSync` of the plain class returns once the audio step went
through. -/
theorem PullSync_of_audio (PtsToTime : Int → AVRational → Int) (self : SynchronizingBuffer)
    (n : Int) (audio : AVFrame) (fifo : Option AudioFifo)
    (h : pull_audio self n = some (audio, fifo)) :
    PullSync PtsToTime self n =
      .ok ({ Audio := some audio
             Video := (pull_video { self with fifo_ := fifo }).last_video_
             Time := PtsToTime
               (match (pull_video { self with fifo_ := fifo }).last_video_ with
                | some video => video.pts
                | none => AV_NOPTS_VALUE)
               (pull_video { self with fifo_ := fifo }).input_video_time_base_ },
           pull_video { self with fifo_ := fifo }) := by
  simp only [PullSync, h]

/-- The unit and the object `PullSync` of the pimpl variant returns once the audio step went
through and a frame is at hand. -/
theorem implementation_PullSync_of_audio (PtsToTime : Int → AVRational → Int)
    (self : SynchronizingBuffer) (n : Int) (audio video : AVFrame) (fifo : Option AudioFifo)
    (h : pull_audio self n = some (audio, fifo))
    (hv : (pull_video { self with fifo_ := fifo }).last_video_ = some video) :
    implementation.PullSync PtsToTime self n =
      .ok ({ Audio := some audio
             Video := some video
             Time := PtsToTime video.pts
               (pull_video { self with fifo_ := fifo }).input_video_time_base_ },
           pull_video { self with fifo_ := fifo }) := by
  simp only [implementation.PullSync, h, hv]

/-! ### C3 -/

/-- The times of the ten units of the 40 ms example, in microseconds. -/
theorem ten_frames_times :
    (pull_syncs Variant.plain pts_to_microseconds ten_frames_buffer (List.replicate 10 1920)).map
      (fun r => r.1.map AVSync.Time) =
      .ok [0, 40000, 80000, 120000, 160000, 200000, 240000, 280000, 320000, 360000] := by
  rfl

/-- What `PushVideo` with a non-null frame leaves alone on an object that is not flushed. -/
theorem PushVideo_unflushed_frame (self : SynchronizingBuffer) (f : AVFrame)
    (time_base : AVRational) (h : self.is_flushed_ = false) :
    ∃ next, self.PushVideo (some f) time_base = .ok next ∧
      next.is_playing_ = self.is_playing_ ∧
      next.fifo_ = self.fifo_ ∧
      next.audio_channel_count_ = self.audio_channel_count_ ∧
      next.input_video_time_base_ = time_base ∧
      next.is_flushed_ = false := by
  unfold PushVideo
  simp only [have_video_, h, Sweep, video_queue_limit]
  split_ifs <;> simp_all

/-- A run of `PushVideo` calls that all pass the same time base leaves that time base recorded,
and leaves the play state, the ring buffer and the channel count alone. -/
theorem push_videos_frame (frames : List (AVFrame × AVRational)) (time_base : AVRational) :
    ∀ self : SynchronizingBuffer, self.is_flushed_ = false →
      (∀ x ∈ frames, x.2 = time_base) →
      ∃ last, push_videos self frames = .ok last ∧
        last.is_playing_ = self.is_playing_ ∧
        last.fifo_ = self.fifo_ ∧
        last.audio_channel_count_ = self.audio_channel_count_ ∧
        (frames ≠ [] → last.input_video_time_base_ = time_base) ∧
        (frames = [] → last.input_video_time_base_ = self.input_video_time_base_) := by
  induction frames with
  | nil => intro self _ _; exact ⟨self, rfl, rfl, rfl, rfl, by simp, fun _ => rfl⟩
  | cons x rest ih =>
    intro self h htb
    obtain ⟨f, tb⟩ := x
    have hx : tb = time_base := htb (f, tb) (List.mem_cons_self _ _)
    obtain ⟨next, h1, h2, h3, h4, h5, h6⟩ := PushVideo_unflushed_frame self f tb h
    obtain ⟨last, k1, k2, k3, k4, k5, k6⟩ :=
      ih next h6 (fun y hy => htb y (List.mem_cons_of_mem _ hy))
    refine ⟨last, by simp only [push_videos, h1, k1], k2.trans h2, k3.trans h3, k4.trans h4,
      fun _ => ?_, by simp⟩
    cases rest with
    | nil => rw [k6 rfl, h5, hx]
    | cons y ys => exact k5 (by simp)

/-- Frames pushed with one time base onto an empty, unflushed, playing buffer, no more than
`limit + 1` of them, and then pulled with as many `PullSync` calls, come back in push order, each
with its timestamp converted through that time base. -/
theorem push_then_pull_times (variant : Variant) (PtsToTime : Int → AVRational → Int)
    (start : SynchronizingBuffer) (frames : List AVFrame) (time_base : AVRational)
    (counts : List Int)
    (h_empty : start.video_queue_ = []) (h_unflushed : start.is_flushed_ = false)
    (h_playing : start.is_playing_ = true)
    (h_audio : start.fifo_.isSome = true ∨ start.audio_channel_count_ ≤ 63)
    (h_fits : frames.length ≤ start.video_queue_limit + 1)
    (h_counts : counts.length = frames.length) (h_some : frames ≠ []) :
    ∃ pushed units last,
      push_videos start (frames.map fun f => (f, time_base)) = .ok pushed ∧
      pull_syncs variant PtsToTime pushed counts = .ok (units, last) ∧
      units.map AVSync.Video = frames.map some ∧
      units.map AVSync.Time = frames.map (fun f => PtsToTime f.pts time_base) ∧
      last.video_queue_ = [] := by
  obtain ⟨pushed, h1, h2⟩ := push_videos_append (frames.map fun f => (f, time_base)) start
    h_unflushed (by simp [h_empty]; exact h_fits)
  obtain ⟨pushed2, k1, k2, k3, k4, k5, _⟩ :=
    push_videos_frame (frames.map fun f => (f, time_base)) time_base start h_unflushed
      (by intro x hx; obtain ⟨f, _, rfl⟩ := List.mem_map.mp hx; rfl)
  have : pushed2 = pushed := by rw [h1] at k1; exact (Except.ok.inj k1).symm
  subst this
  have hq : pushed2.video_queue_ = frames := by
    rw [h2, h_empty]; simp [List.map_map, Function.comp_def]
  have htb : pushed2.input_video_time_base_ = time_base := k5 (by simpa using h_some)
  obtain ⟨units, last, p1, p2, p3, p4⟩ :=
    pull_syncs_playing variant PtsToTime frames counts pushed2 (k2.trans h_playing) hq
      (by rw [k3, k4]; exact h_audio) h_counts
  rw [htb] at p3
  exact ⟨pushed2, units, last, h1, p1, p2, p3, p4⟩

/-! ### C4 -/

/-- When `PushVideo` returns, the flushed flag is as before. -/
theorem PushVideo_is_flushed (self next : SynchronizingBuffer) (frame : Option AVFrame)
    (time_base : AVRational) (h : self.PushVideo frame time_base = .ok next) :
    next.is_flushed_ = self.is_flushed_ := by
  unfold PushVideo at h
  cases frame with
  | none => simp at h; rw [← h]
  | some f =>
    simp only [have_video_, Sweep] at h
    split_ifs at h <;> simp at h <;> rw [← h]

/-- When `PushAudio` returns, the flushed flag is as before. -/
theorem PushAudio_is_flushed (PtsToTime : Int → AVRational → Int)
    (self next : SynchronizingBuffer) (frame : Option AVFrame)
    (h : self.PushAudio PtsToTime frame = .ok next) :
    next.is_flushed_ = self.is_flushed_ := by
  unfold PushAudio at h
  cases frame with
  | none => simp at h; rw [← h]
  | some f =>
    simp only [Sweep] at h
    split_ifs at h <;> simp at h <;> rw [← h]

/-- When `PullSync` returns, in either variant, the flushed flag is as before. -/
theorem PullSyncOf_is_flushed (variant : Variant) (PtsToTime : Int → AVRational → Int)
    (self next : SynchronizingBuffer) (n : Int) (unit : AVSync)
    (h : PullSyncOf variant PtsToTime self n = .ok (unit, next)) :
    next.is_flushed_ = self.is_flushed_ := by
  have hv : ∀ s : SynchronizingBuffer, (pull_video s).is_flushed_ = s.is_flushed_ := by
    intro s; unfold pull_video; dsimp only; split_ifs <;> rfl
  cases variant <;> simp only [PullSyncOf, PullSync, implementation.PullSync] at h
  · split at h
    · simp at h
    · simp only [Except.ok.injEq, Prod.mk.injEq] at h
      rw [← h.2, hv]
  · split at h
    · simp at h
    · split at h
      · simp at h
      · simp only [Except.ok.injEq, Prod.mk.injEq] at h
        rw [← h.2, hv]

/-- After a run of calls that returns, the flushed flag says whether the most recent `Flush` or
`Seek` was a `Flush`. -/
theorem calls_is_flushed (variant : Variant) (PtsToTime : Int → AVRational → Int)
    (history : List Call) :
    ∀ (start self : SynchronizingBuffer), calls variant PtsToTime start history = .ok self →
      self.is_flushed_ = flushed_since_seek start.is_flushed_ history := by
  induction history with
  | nil => intro start self h; simp [calls] at h; simp [flushed_since_seek, h]
  | cons c rest ih =>
    intro start self h
    simp only [calls] at h
    split at h
    · rename_i next hc
      have := ih next self h
      rw [this]
      cases c with
      | PushVideo frame tb =>
        simp only [call] at hc
        simp [flushed_since_seek, PushVideo_is_flushed _ _ _ _ hc]
      | PushAudio frame =>
        simp only [call] at hc
        simp [flushed_since_seek, PushAudio_is_flushed _ _ _ _ hc]
      | PullSync n =>
        simp only [call] at hc
        cases hr : PullSyncOf variant PtsToTime start n with
        | error e => simp [hr, Except.map] at hc
        | ok r =>
          obtain ⟨unit, nx⟩ := r
          simp [hr, Except.map] at hc
          subst hc
          simp [flushed_since_seek, PullSyncOf_is_flushed _ _ _ _ _ _ hr]
      | Seek t => simp [call] at hc; subst hc; simp [flushed_since_seek, Seek]
      | Flush => simp [call] at hc; subst hc; simp [flushed_since_seek, Flush]
      | SetIsPlaying p => simp [call] at hc; subst hc; simp [flushed_since_seek, SetIsPlaying]
      | SetSynchro t => simp [call] at hc; subst hc; simp [flushed_since_seek, SetSynchro]
    · simp at h

/-- What `IsEof` computes. -/
theorem IsEof_iff (self : SynchronizingBuffer) :
    self.IsEof = true ↔ self.is_flushed_ = true ∧ self.video_queue_ = [] ∧
      ∀ fifo, self.fifo_ = some fifo → fifo.SamplesCount = 0 := by
  unfold IsEof
  cases hf : self.fifo_ <;> simp [List.isEmpty_iff, and_assoc]

/-- C6, as amended: in every state reached from an unflushed buffer by a sequence of `PushVideo`,
`PushAudio`, `PullSync`, `Seek`, `Flush`, `SetIsPlaying` (and `SetSynchro`) calls that return,
`IsEof()` is true if and only if `Flush` has been called with no `Seek` after it, the video queue
is empty and the ring buffer, if any, holds no samples. -/
theorem C6_is_eof_iff_flushed_and_drained (variant : Variant)
    (PtsToTime : Int → AVRational → Int) (start self : SynchronizingBuffer)
    (history : List Call)
    (h_start : start.is_flushed_ = false)
    (h_run : calls variant PtsToTime start history = .ok self) :
    self.IsEof = true ↔
      flushed_since_seek false history = true ∧ self.video_queue_ = [] ∧
        ∀ fifo, self.fifo_ = some fifo → fifo.SamplesCount = 0 := by
  rw [IsEof_iff, calls_is_flushed variant PtsToTime history start self h_run, h_start]

/-- C6, witness: a frame pushed, the buffer flushed, the frame pulled. -/
theorem C6_is_eof_iff_flushed_and_drained_witness :
    ∃ self, calls Variant.plain pts_to_microseconds (example_buffer 2 true)
        [Call.PushVideo (some (video_frame 0)) ⟨1, 25⟩, Call.Flush, Call.PullSync 1920] =
          .ok self ∧
      (self.IsEof = true ↔
        flushed_since_seek false
            [Call.PushVideo (some (video_frame 0)) ⟨1, 25⟩, Call.Flush, Call.PullSync 1920] =
          true ∧
        self.video_queue_ = [] ∧ ∀ fifo, self.fifo_ = some fifo → fifo.SamplesCount = 0) :=
  ⟨_, rfl, C6_is_eof_iff_flushed_and_drained Variant.plain pts_to_microseconds
    (example_buffer 2 true) _ _ rfl rfl⟩

/-- C6, counterexample: after `Flush` then `Seek`, `Flush` has been called, the video queue is
empty and there is no ring buffer, yet `IsEof()` is false. -/
theorem C6_flush_then_seek_not_eof :
    ∃ self, calls Variant.plain pts_to_microseconds (example_buffer 2 true)
        [Call.Flush, Call.Seek 0] = .ok self ∧
      flush_called [Call.Flush, Call.Seek 0] = true ∧
      self.video_queue_ = [] ∧ self.fifo_ = none ∧ self.IsEof = false :=
  ⟨_, rfl, by decide, rfl, rfl, rfl⟩

/-- C7, as amended: after `Seek(T)` the video queue is empty, the cached last frame is absent, the
ring buffer, if it exists, has been reset to base time `T` and holds no samples (and none is
created), the flushed flag is false, and `sync_` is what it was before: only `SetSynchro` sets
it. -/
theorem C7_seek_clears_buffers_keeps_sync (self : SynchronizingBuffer) (T : Int) :
    (self.Seek T).video_queue_ = [] ∧
    (self.Seek T).last_video_ = none ∧
    (self.Seek T).fifo_ = self.fifo_.map (fun fifo => fifo.Reset T) ∧
    (∀ fifo, (self.Seek T).fifo_ = some fifo → fifo.base_time = T ∧ fifo.SamplesCount = 0) ∧
    (self.Seek T).is_flushed_ = false ∧
    (self.Seek T).sync_ = self.sync_ ∧
    ((self.Seek T).SetSynchro T).sync_ = T := by
  refine ⟨rfl, rfl, rfl, ?_, rfl, rfl, rfl⟩
  intro fifo h
  cases hf : self.fifo_ with
  | none => simp [Seek, hf] at h
  | some q =>
    simp [Seek, hf] at h
    subst h
    exact ⟨rfl, rfl⟩

/-- C7, counterexample: a buffer constructed with `initial_sync = 0`; after `Seek(5000000)` its
`sync_` is still 0. -/
theorem C7_seek_leaves_sync :
    ((example_buffer 2 true).Seek 5000000).sync_ = 0 ∧
    ((example_buffer 2 true).Seek 5000000).sync_ ≠ 5000000 := by
  decide

/-! ### C8 -/

/-- The video step of `PullSync` changes the queue and the cached frame only. -/
theorem pull_video_frame (self : SynchronizingBuffer) :
    (pull_video self).fifo_ = self.fifo_ ∧
    configuration (pull_video self) = configuration self := by
  unfold pull_video
  dsimp only
  split_ifs <;> exact ⟨rfl, rfl⟩

/-- `TryPush`, `Pull` and `Reset` keep the attributes of the ring buffer, and a ring buffer has
the attributes it is created with, whatever its base time. -/
theorem AudioFifo_attributes (fifo : AudioFifo) (frame : AVFrame) (n t : Int) :
    (fifo.TryPush frame).2.attributes = fifo.attributes ∧
    (fifo.Pull n).2.attributes = fifo.attributes ∧
    (fifo.Reset t).attributes = fifo.attributes := by
  refine ⟨?_, rfl, rfl⟩
  unfold AudioFifo.TryPush
  split_ifs <;> rfl

/-- When `PushAudio` returns, the object is as before except possibly for the ring buffer, which
then exists and has the attributes of the one before, or of a newly created one. -/
theorem PushAudio_form (PtsToTime : Int → AVRational → Int) (self next : SynchronizingBuffer)
    (frame : Option AVFrame) (h : self.PushAudio PtsToTime frame = .ok next) :
    next = self ∨ ∃ fifo, next = { self with fifo_ := some fifo } ∧
      ((∃ before, self.fifo_ = some before ∧ fifo.attributes = before.attributes) ∨
        (self.fifo_ = none ∧ fifo.attributes = self.fifo_attributes)) := by
  unfold PushAudio at h
  cases frame with
  | none => simp at h; exact Or.inl h.symm
  | some f =>
    simp only [Sweep] at h
    split_ifs at h with h1 h2 h3
    · simp at h; exact Or.inl h.symm
    · simp only [Except.ok.injEq] at h
      refine Or.inr ⟨_, h.symm, ?_⟩
      cases hf : self.fifo_ with
      | none =>
        refine Or.inr ⟨rfl, ?_⟩
        simp only [(AudioFifo_attributes _ f 0 0).1, (AudioFifo_attributes _ f 0 _).2.2]
        rfl
      | some before =>
        refine Or.inl ⟨before, rfl, ?_⟩
        simp only [(AudioFifo_attributes _ f 0 0).1, (AudioFifo_attributes _ f 0 _).2.2]
    · simp only [Except.ok.injEq] at h
      refine Or.inr ⟨_, h.symm, ?_⟩
      cases hf : self.fifo_ with
      | none =>
        refine Or.inr ⟨rfl, ?_⟩
        simp only [(AudioFifo_attributes _ f 0 0).1]
        rfl
      | some before =>
        refine Or.inl ⟨before, rfl, ?_⟩
        simp only [(AudioFifo_attributes _ f 0 0).1]

/-- When `PullSync` returns, in either variant, the object is the video step applied to the
object with the ring buffer read or left alone. -/
theorem PullSyncOf_form (variant : Variant) (PtsToTime : Int → AVRational → Int)
    (self next : SynchronizingBuffer) (n : Int) (unit : AVSync)
    (h : PullSyncOf variant PtsToTime self n = .ok (unit, next)) :
    ∃ audio fifo, pull_audio self n = some (audio, fifo) ∧
      next = pull_video { self with fifo_ := fifo } := by
  cases hp : pull_audio self n with
  | none => cases variant <;> simp [PullSyncOf, PullSync, implementation.PullSync, hp] at h
  | some r =>
    obtain ⟨audio, fifo⟩ := r
    refine ⟨audio, fifo, rfl, ?_⟩
    cases variant
    · simp only [PullSyncOf, PullSync, hp, Except.ok.injEq, Prod.mk.injEq] at h
      exact h.2.symm
    · simp only [PullSyncOf, implementation.PullSync, hp] at h
      split at h
      · simp at h
      · simp only [Except.ok.injEq, Prod.mk.injEq] at h
        exact h.2.symm

/-- When the audio step of `PullSync` goes through, a ring buffer is at hand afterwards or the
configured channel count passed the assertion of the silence helper. -/
theorem pull_audio_at_hand (self : SynchronizingBuffer) (n : Int) (audio : AVFrame)
    (fifo : Option AudioFifo) (h : pull_audio self n = some (audio, fifo)) :
    fifo.isSome = true ∨ self.audio_channel_count_ ≤ 63 := by
  by_cases hc : self.audio_channel_count_ ≤ 63
  · exact Or.inr hc
  · left
    unfold pull_audio at h
    cases hp : self.is_playing_ <;> cases hf : self.fifo_ <;>
      simp_all [CreateSilentAudioFrameAs, CreateSilentAudioFrame]
    rw [← h.2]
    rfl

/-- A call that returns keeps this: whenever a last delivered frame is cached, a ring buffer
exists or the configured channel count is at most 63. -/
theorem call_keeps_audio_at_hand (variant : Variant) (PtsToTime : Int → AVRational → Int)
    (self next : SynchronizingBuffer) (c : Call)
    (h : call variant PtsToTime self c = .ok next)
    (hinv : self.last_video_.isSome = true →
      self.fifo_.isSome = true ∨ self.audio_channel_count_ ≤ 63) :
    next.last_video_.isSome = true →
      next.fifo_.isSome = true ∨ next.audio_channel_count_ ≤ 63 := by
  cases c with
  | PushVideo frame tb =>
    simp only [call, PushVideo, have_video_, Sweep] at h
    cases frame with
    | none => simp at h; subst h; exact hinv
    | some f =>
      simp only [Bool.not_true, Bool.false_eq_true, if_false] at h
      split_ifs at h <;> simp at h <;> subst h <;> exact hinv
  | PushAudio frame =>
    simp only [call] at h
    rcases PushAudio_form PtsToTime self next frame h with rfl | ⟨fifo, rfl, _⟩
    · exact hinv
    · intro _; exact Or.inl rfl
  | PullSync n =>
    simp only [call] at h
    cases hr : PullSyncOf variant PtsToTime self n with
    | error e => simp [hr, Except.map] at h
    | ok r =>
      obtain ⟨unit, nx⟩ := r
      simp [hr, Except.map] at h
      subst h
      obtain ⟨audio, fifo, ha, hn⟩ := PullSyncOf_form variant PtsToTime self nx n unit hr
      have hat := pull_audio_at_hand self n audio fifo ha
      have hv := pull_video_frame { self with fifo_ := fifo }
      have hf : nx.fifo_ = fifo := by rw [hn]; exact hv.1
      have hc : nx.audio_channel_count_ = self.audio_channel_count_ := by
        have := congrArg (fun t => t.2.2.2.2.1) hv.2
        rw [hn]; exact this
      intro _
      rw [hf, hc]
      exact hat
  | Seek time =>
    simp only [call, Except.ok.injEq] at h
    subst h
    intro hl
    simp [Seek] at hl
  | Flush =>
    simp only [call, Except.ok.injEq] at h
    subst h
    exact hinv
  | SetIsPlaying is_playing =>
    simp only [call, Except.ok.injEq] at h
    subst h
    exact hinv
  | SetSynchro time =>
    simp only [call, Except.ok.injEq] at h
    subst h
    exact hinv

/-- In every state a run of returning calls reaches from a state without a cached frame, a
cached last delivered frame comes with a ring buffer or a channel count of at most 63. -/
theorem calls_keep_audio_at_hand (variant : Variant) (PtsToTime : Int → AVRational → Int)
    (history : List Call) :
    ∀ start self : SynchronizingBuffer,
      (start.last_video_.isSome = true →
        start.fifo_.isSome = true ∨ start.audio_channel_count_ ≤ 63) →
      calls variant PtsToTime start history = .ok self →
      self.last_video_.isSome = true →
        self.fifo_.isSome = true ∨ self.audio_channel_count_ ≤ 63 := by
  induction history with
  | nil =>
    intro start self hinv h
    simp only [calls, Except.ok.injEq] at h
    subst h
    exact hinv
  | cons c rest ih =>
    intro start self hinv h
    simp only [calls] at h
    cases hc : call variant PtsToTime start c with
    | error e => simp [hc] at h
    | ok next =>
      rw [hc] at h
      exact ih next self (call_keeps_audio_at_hand variant PtsToTime start next c hc hinv) h

/-- C5: hold last frame on underrun. For every buffer state reached from either constructor by a
sequence of calls that returned, in either variant: while playing, with the video queue empty
and the cached last delivered frame `V`, `PullSync` returns a unit whose video is `V` and whose
time is the converted presentation time of `V`, and leaves the queue empty and the cached frame
equal to `V`. -/
theorem C5_underrun_holds_last_frame (variant : Variant) (PtsToTime : Int → AVRational → Int)
    (start self : SynchronizingBuffer) (history : List Call) (n : Int) (V : AVFrame)
    (h_constructed :
      (∃ channel is_playing duration initial_sync time_base,
        start = create channel is_playing duration initial_sync time_base) ∨
      (∃ format audio_channel_count audio_sample_format is_playing duration initial_sync
          time_base,
        start = implementation.create format audio_channel_count audio_sample_format
          is_playing duration initial_sync time_base))
    (h_reached : calls variant PtsToTime start history = .ok self)
    (h_playing : self.is_playing_ = true) (h_queue : self.video_queue_ = [])
    (h_last : self.last_video_ = some V) :
    ∃ unit next, PullSyncOf variant PtsToTime self n = .ok (unit, next) ∧
      unit.Video = some V ∧
      unit.Time = PtsToTime V.pts self.input_video_time_base_ ∧
      next.video_queue_ = [] ∧
      next.last_video_ = some V := by
  have hstart : start.last_video_ = none := by
    rcases h_constructed with ⟨_, _, _, _, _, rfl⟩ | ⟨_, _, _, _, _, _, _, rfl⟩ <;> rfl
  have h_audio := calls_keep_audio_at_hand variant PtsToTime history start self
    (by rw [hstart]; intro h; simp at h) h_reached (by rw [h_last]; rfl)
  exact PullSyncOf_underrun variant PtsToTime self n V h_playing h_queue h_last h_audio

/-- C5, witness: the example buffer is constructed, one frame is pushed and pulled, and the next
pull finds the queue empty. -/
theorem C5_underrun_holds_last_frame_witness :
    example_buffer 2 true = create (example_channel 2) true 1000000 0 ⟨0, 1⟩ ∧
    calls Variant.plain pts_to_microseconds (example_buffer 2 true)
        [Call.PushVideo (some (video_frame 7)) ⟨1, 25⟩, Call.PullSync 1920] =
      .ok starved_buffer ∧
    starved_buffer.is_playing_ = true ∧ starved_buffer.video_queue_ = [] ∧
    starved_buffer.last_video_ = some (video_frame 7) ∧
    ∃ unit next, PullSyncOf Variant.plain pts_to_microseconds starved_buffer 1920 =
        .ok (unit, next) ∧
      unit.Video = some (video_frame 7) ∧
      unit.Time = pts_to_microseconds (video_frame 7).pts
        starved_buffer.input_video_time_base_ ∧
      next.video_queue_ = [] ∧
      next.last_video_ = some (video_frame 7) :=
  ⟨rfl, rfl, rfl, rfl, rfl,
    C5_underrun_holds_last_frame Variant.plain pts_to_microseconds (example_buffer 2 true)
      starved_buffer
      [Call.PushVideo (some (video_frame 7)) ⟨1, 25⟩, Call.PullSync 1920] 1920 (video_frame 7)
      (Or.inl ⟨example_channel 2, true, 1000000, 0, ⟨0, 1⟩, rfl⟩) rfl rfl rfl rfl⟩

/-- The underrun on a 64-channel buffer, evaluated: in the state reached by a push of audio, a
push of video and one pull, the next pull while playing repeats the frame, its audio coming from
the ring buffer. -/
theorem wide_underrun_evaluated :
    ∃ unit next,
      PullSyncOf Variant.pimpl pts_to_microseconds (wide_paused_buffer.SetIsPlaying true) 1920 =
        .ok (unit, next) ∧
      unit.Video = some (video_frame 0) ∧ next.video_queue_ = [] :=
  ⟨_, _, rfl, rfl, rfl⟩

/-! ### C9 and C10 -/

end SynchronizingBuffer
end FFmpeg
end TVPlayR

/-! ### The NDI sample counter, C11 and C12 -/

namespace TVPlayR
namespace Ndi
namespace NdiOutput
namespace implementation

open FFmpeg

/-- A quotient is pinned by the two multiples around the dividend. -/
theorem ediv_eq_of_bounds {x c q : Int} (hc : 0 < c) (h1 : q * c ≤ x) (h2 : x < (q + 1) * c) :
    x / c = q := by
  apply le_antisymm
  · have := Int.ediv_lt_of_lt_mul hc h2
    omega
  · exact Int.le_ediv_of_mul_le hc h1

/-- Adding `b` to the dividend raises the quotient by `b / c` or by one more, and by exactly
`b / c` when `c` divides `b`. -/
theorem ediv_add_step (A b c : Int) (hc : 0 < c) :
    ((A + b) / c = A / c + b / c ∨ ((A + b) / c = A / c + b / c + 1 ∧ b % c ≠ 0)) := by
  have hA1 : A / c * c ≤ A := Int.ediv_mul_le A (ne_of_gt hc)
  have hA2 : A < (A / c + 1) * c := Int.lt_ediv_add_one_mul_self A hc
  have hb1 : b / c * c + b % c = b := by
    have := Int.emod_add_ediv b c
    linarith [mul_comm c (b / c)]
  have hr0 : 0 ≤ b % c := Int.emod_nonneg b (ne_of_gt hc)
  have hr1 : b % c < c := Int.emod_lt_of_pos b hc
  by_cases h : A + b < (A / c + b / c + 1) * c
  · left
    apply ediv_eq_of_bounds hc
    · nlinarith
    · exact h
  · right
    constructor
    · apply ediv_eq_of_bounds hc
      · push_neg at h; linarith
      · nlinarith
    · intro h0
      apply h
      rw [h0] at hb1
      nlinarith

/-- The conversion to `int` leaves a value within 32 bits alone. -/
theorem to_int_of_small {v : Int} (h1 : -(2 ^ 31) ≤ v) (h2 : v < 2 ^ 31) : to_int v = v := by
  unfold to_int
  omega

/-- The rounded sample count under a sound configuration, for a non-negative frame count. -/
theorem samples_for_eq (self : implementation) (n : Int) (hs : self.sound_configuration)
    (hn : 0 ≤ n) :
    self.samples_for n =
      (n * (self.audio_sample_rate_ * self.format_.FrameRate.den) +
        self.format_.FrameRate.num / 2) / self.format_.FrameRate.num := by
  obtain ⟨h1, h2, h3, _⟩ := hs
  have hb : 0 ≤ self.audio_sample_rate_ * self.format_.FrameRate.den := mul_nonneg h3 h2
  unfold samples_for av_rescale
  rw [if_neg (by omega), if_neg (by omega)]

/-- Under a sound configuration the rounded count for one more frame exceeds the count for `n`
frames by the floor of `sample_rate * den / num`, or by one more when the quotient is not an
integer; the step is non-negative and fits `int`. -/
theorem samples_for_step (self : implementation) (n : Int) (hs : self.sound_configuration)
    (hn : 0 ≤ n) :
    (self.samples_for (n + 1) - self.samples_for n =
        self.audio_sample_rate_ * self.format_.FrameRate.den / self.format_.FrameRate.num ∨
      (self.samples_for (n + 1) - self.samples_for n =
          self.audio_sample_rate_ * self.format_.FrameRate.den / self.format_.FrameRate.num + 1 ∧
        self.audio_sample_rate_ * self.format_.FrameRate.den % self.format_.FrameRate.num ≠ 0)) ∧
    0 ≤ self.samples_for (n + 1) - self.samples_for n ∧
    self.samples_for (n + 1) - self.samples_for n < 2 ^ 31 := by
  rw [samples_for_eq self n hs hn, samples_for_eq self (n + 1) hs (by omega)]
  obtain ⟨h1, h2, h3, h4⟩ := hs
  have hb : 0 ≤ self.audio_sample_rate_ * self.format_.FrameRate.den := mul_nonneg h3 h2
  generalize self.audio_sample_rate_ * self.format_.FrameRate.den = b at *
  generalize self.format_.FrameRate.num = c at *
  have hq : 0 ≤ b / c := Int.ediv_nonneg hb (le_of_lt h1)
  have hqb : b / c * c ≤ b := Int.ediv_mul_le b (ne_of_gt h1)
  have hrw : (n + 1) * b + c / 2 = (n * b + c / 2) + b := by ring
  rw [hrw]
  have hqle : b / c ≤ b := by nlinarith
  rcases ediv_add_step (n * b + c / 2) b c h1 with h | ⟨h, hne⟩
  · refine ⟨Or.inl (by omega), by omega, by omega⟩
  · have hr0 : 0 ≤ b % c := Int.emod_nonneg b (ne_of_gt h1)
    have hdecomp : b / c * c + b % c = b := by
      have := Int.emod_add_ediv b c
      linarith [mul_comm c (b / c)]
    have hlt : b / c + 1 ≤ b := by
      have : 1 ≤ b % c := by omega
      nlinarith
    refine ⟨Or.inr ⟨by omega, hne⟩, by omega, by omega⟩

/-- No samples for no frames. -/
theorem samples_for_zero (self : implementation) (hs : self.sound_configuration) :
    self.samples_for 0 = 0 := by
  rw [samples_for_eq self 0 hs (le_refl 0)]
  obtain ⟨h1, _⟩ := hs
  simp only [zero_mul, zero_add]
  exact Int.ediv_eq_zero_of_lt (by omega) (by omega)

/-- The rounded sample count is the integer nearest to `n * sample_rate * den / num`. -/
theorem samples_for_nearest (self : implementation) (n : Int) (hs : self.sound_configuration)
    (hn : 0 ≤ n) :
    2 * (self.samples_for n * self.format_.FrameRate.num -
        n * (self.audio_sample_rate_ * self.format_.FrameRate.den)) ≤
      self.format_.FrameRate.num ∧
    2 * (n * (self.audio_sample_rate_ * self.format_.FrameRate.den) -
        self.samples_for n * self.format_.FrameRate.num) ≤
      self.format_.FrameRate.num := by
  rw [samples_for_eq self n hs hn]
  obtain ⟨h1, _⟩ := hs
  generalize n * (self.audio_sample_rate_ * self.format_.FrameRate.den) = x
  generalize self.format_.FrameRate.num = c at *
  have k1 : (x + c / 2) / c * c ≤ x + c / 2 := Int.ediv_mul_le _ (ne_of_gt h1)
  have k2 : x + c / 2 < ((x + c / 2) / c + 1) * c := Int.lt_ediv_add_one_mul_self _ h1
  constructor <;> nlinarith [Int.ediv_mul_le c (show (2 : Int) ≠ 0 by decide),
    Int.lt_ediv_add_one_mul_self c (show (0 : Int) < 2 by decide)]

/-- Under the no-drift invariant `AudioSamplesRequired()` is the step of the rounded count. -/
theorem AudioSamplesRequired_of_invariant (self : implementation)
    (hs : self.sound_configuration) (hF : 0 ≤ self.video_frames_pushed_)
    (hinv : self.audio_samples_pushed_ = self.samples_for self.video_frames_pushed_) :
    self.AudioSamplesRequired =
      self.samples_for (self.video_frames_pushed_ + 1) -
        self.samples_for self.video_frames_pushed_ := by
  obtain ⟨_, h2, h3⟩ := samples_for_step self self.video_frames_pushed_ hs hF
  show to_int (self.samples_for (self.video_frames_pushed_ + 1) - self.audio_samples_pushed_) = _
  rw [hinv]
  exact to_int_of_small (by omega) h3

/-- What `Tick` does with nothing pending: the previous video and its time go out again with
silence of `AudioSamplesRequired()` samples, and the counters advance by one frame and by that
many samples. -/
theorem Tick_silent (self : implementation) (hb : self.buffer_frame_ = none) :
    ∃ audio, audio.nb_samples = self.AudioSamplesRequired ∧
      audio.channels = audio_channels_count_ ∧
      audio.data = silence self.AudioSamplesRequired audio_channels_count_ ∧
      self.Tick =
        .ok ({ requested :=
                 if self.frame_requested_callback_ then
                   some (AudioSamplesRequired
                     { self with
                       video_frames_pushed_ := self.video_frames_pushed_ + 1
                       audio_samples_pushed_ :=
                         self.audio_samples_pushed_ + self.AudioSamplesRequired })
                 else none
               video := self.last_video_
               time := self.last_video_time_
               audio := audio },
             { self with
               video_frames_pushed_ := self.video_frames_pushed_ + 1
               audio_samples_pushed_ :=
                 self.audio_samples_pushed_ + self.AudioSamplesRequired }) := by
  refine ⟨{ AllocFrame with
      format := audio_sample_format_
      channels := audio_channels_count_
      channel_layout := 0x7FFFFFFFFFFFFFFF >>> (63 - audio_channels_count_).toNat
      nb_samples := self.AudioSamplesRequired
      data := silence self.AudioSamplesRequired audio_channels_count_ }, rfl, rfl, rfl, ?_⟩
  simp [Tick, hb, CreateSilentAudioFrameAs, CreateSilentAudioFrame, audio_channels_count_]

/-- What `Tick` does with a unit pending whose audio block is present: the unit's video, time and
audio go out, the pending slot is emptied, and the counters advance by one frame and by the
block's sample count. -/
theorem Tick_pending (self : implementation) (unit : AVSync) (audio : AVFrame)
    (hb : self.buffer_frame_ = some unit) (ha : unit.Audio = some audio) :
    self.Tick =
      .ok ({ requested :=
               if self.frame_requested_callback_ then
                 some (AudioSamplesRequired
                   { self with
                     last_video_ := unit.Video
                     last_video_time_ := unit.Time
                     buffer_frame_ := none
                     video_frames_pushed_ := self.video_frames_pushed_ + 1
                     audio_samples_pushed_ := self.audio_samples_pushed_ + audio.nb_samples })
               else none
             video := unit.Video
             time := unit.Time
             audio := audio },
           { self with
             last_video_ := unit.Video
             last_video_time_ := unit.Time
             buffer_frame_ := none
             video_frames_pushed_ := self.video_frames_pushed_ + 1
             audio_samples_pushed_ := self.audio_samples_pushed_ + audio.nb_samples }) := by
  simp [Tick, hb, ha]

/-- One `Tick` from a state that satisfies the no-drift invariant, consuming silence or a unit
that answers the request: it returns, one more frame is counted, the invariant holds again, the
audio sent has `AudioSamplesRequired()` samples, the callback (if set) gets the next
`AudioSamplesRequired()`, and nothing is left pending. -/
theorem Tick_keeps_invariant (self : implementation)
    (hs : self.sound_configuration) (hF : 0 ≤ self.video_frames_pushed_)
    (hinv : self.audio_samples_pushed_ = self.samples_for self.video_frames_pushed_)
    (ha : self.answers_request) :
    ∃ sent next, self.Tick = .ok (sent, next) ∧
      next.video_frames_pushed_ = self.video_frames_pushed_ + 1 ∧
      next.audio_samples_pushed_ = next.samples_for next.video_frames_pushed_ ∧
      next.format_ = self.format_ ∧ next.audio_sample_rate_ = self.audio_sample_rate_ ∧
      next.frame_requested_callback_ = self.frame_requested_callback_ ∧
      next.buffer_frame_ = none ∧
      sent.audio.nb_samples = self.AudioSamplesRequired ∧
      sent.requested =
        (if self.frame_requested_callback_ then some next.AudioSamplesRequired else none) := by
  have hreq := AudioSamplesRequired_of_invariant self hs hF hinv
  cases hb : self.buffer_frame_ with
  | none =>
    obtain ⟨audio, h1, _, _, h2⟩ := Tick_silent self hb
    refine ⟨_, _, h2, rfl, ?_, rfl, rfl, rfl, hb, h1, rfl⟩
    show self.audio_samples_pushed_ + self.AudioSamplesRequired =
      self.samples_for (self.video_frames_pushed_ + 1)
    rw [hreq, hinv]; ring
  | some unit =>
    simp only [answers_request, hb] at ha
    obtain ⟨audio, h1, h2⟩ := ha
    refine ⟨_, _, Tick_pending self unit audio hb h1, rfl, ?_, rfl, rfl, rfl, rfl, h2, rfl⟩
    show self.audio_samples_pushed_ + audio.nb_samples =
      self.samples_for (self.video_frames_pushed_ + 1)
    rw [h2, hreq, hinv]; ring

/-- The rounded sample count depends on the format and the sample rate only. -/
theorem samples_for_congr {a b : implementation} (hf : a.format_ = b.format_)
    (hr : a.audio_sample_rate_ = b.audio_sample_rate_) (n : Int) :
    a.samples_for n = b.samples_for n := by
  simp only [samples_for, hf, hr]

/-- A well-fed run of ticks from a state that satisfies the no-drift invariant returns; each
tick counts one frame, the invariant holds at the end, and the samples sent add up to the growth
of the sample counter. -/
theorem ticks_keep_invariant (pushes : List (Option AVSync)) :
    ∀ self : implementation, self.sound_configuration → 0 ≤ self.video_frames_pushed_ →
      self.audio_samples_pushed_ = self.samples_for self.video_frames_pushed_ →
      well_fed self pushes →
      ∃ sents last, ticks self pushes = .ok (sents, last) ∧
        last.video_frames_pushed_ = self.video_frames_pushed_ + pushes.length ∧
        last.audio_samples_pushed_ = last.samples_for last.video_frames_pushed_ ∧
        last.format_ = self.format_ ∧ last.audio_sample_rate_ = self.audio_sample_rate_ ∧
        sents.length = pushes.length ∧
        (∀ sent ∈ sents,
          sent.audio.nb_samples =
              self.audio_sample_rate_ * self.format_.FrameRate.den /
                self.format_.FrameRate.num ∨
            (sent.audio.nb_samples =
                self.audio_sample_rate_ * self.format_.FrameRate.den /
                  self.format_.FrameRate.num + 1 ∧
              self.audio_sample_rate_ * self.format_.FrameRate.den %
                self.format_.FrameRate.num ≠ 0)) ∧
        (sents.map fun sent => sent.audio.nb_samples).sum =
          last.audio_samples_pushed_ - self.audio_samples_pushed_ := by
  induction pushes with
  | nil =>
    intro self _ _ hinv _
    exact ⟨[], self, rfl, by simp, hinv, rfl, rfl, rfl, by simp, by simp⟩
  | cons pushed rest ih =>
    intro self hs hF hinv hfed
    simp only [well_fed] at hfed
    obtain ⟨hans, hrest⟩ := hfed
    have hfed2 : ∀ fed : implementation, fed.format_ = self.format_ →
        fed.audio_sample_rate_ = self.audio_sample_rate_ →
        fed.video_frames_pushed_ = self.video_frames_pushed_ →
        fed.audio_samples_pushed_ = self.audio_samples_pushed_ →
        fed.answers_request →
        (match fed.Tick with
          | .error _ => True
          | .ok (_, next) => well_fed next rest) →
        ∃ sents last, (match fed.Tick with
            | .error fault => .error fault
            | .ok (sent, next) =>
              match ticks next rest with
              | .error fault => .error fault
              | .ok (sents, last) => .ok (sent :: sents, last)) = Except.ok (sents, last) ∧
          last.video_frames_pushed_ = self.video_frames_pushed_ + (pushed :: rest).length ∧
          last.audio_samples_pushed_ = last.samples_for last.video_frames_pushed_ ∧
          last.format_ = self.format_ ∧ last.audio_sample_rate_ = self.audio_sample_rate_ ∧
          (sents.length = (pushed :: rest).length) ∧
          (∀ sent ∈ sents,
            sent.audio.nb_samples =
                self.audio_sample_rate_ * self.format_.FrameRate.den /
                  self.format_.FrameRate.num ∨
              (sent.audio.nb_samples =
                  self.audio_sample_rate_ * self.format_.FrameRate.den /
                    self.format_.FrameRate.num + 1 ∧
                self.audio_sample_rate_ * self.format_.FrameRate.den %
                  self.format_.FrameRate.num ≠ 0)) ∧
          (sents.map fun sent => sent.audio.nb_samples).sum =
            last.audio_samples_pushed_ - self.audio_samples_pushed_ := by
      intro fed e1 e2 e3 e4 hans hrest
      have hs2 : fed.sound_configuration := by
        simpa only [sound_configuration, e1, e2] using hs
      have hinv2 : fed.audio_samples_pushed_ = fed.samples_for fed.video_frames_pushed_ := by
        rw [e4, e3, hinv]; exact (samples_for_congr e1 e2 _).symm
      obtain ⟨sent, next, t1, t2, t3, t4, t5, _, _, t8, _⟩ :=
        Tick_keeps_invariant fed hs2 (by rw [e3]; exact hF) hinv2 hans
      rw [t1] at hrest
      have hs3 : next.sound_configuration := by
        simpa only [sound_configuration, t4, t5] using hs2
      obtain ⟨sents, last, k1, k2, k3, k4, k5, k6, k8, k7⟩ :=
        ih next hs3 (by rw [t2, e3]; omega) t3 hrest
      refine ⟨sent :: sents, last, by simp only [t1, k1], ?_, k3, ?_, ?_, by simp [k6], ?_, ?_⟩
      · rw [k2, t2, e3]; simp only [List.length_cons]; push_cast; ring
      · rw [k4, t4, e1]
      · rw [k5, t5, e2]
      · intro out hout
        rcases List.mem_cons.mp hout with h | h
        · have hreq := AudioSamplesRequired_of_invariant fed hs2 (by rw [e3]; exact hF) hinv2
          have hstep := (samples_for_step fed fed.video_frames_pushed_ hs2
            (by rw [e3]; exact hF)).1
          rw [← hreq, ← t8, e1, e2] at hstep
          rw [h]; exact hstep
        · have := k8 out h
          rw [t4, t5, e1, e2] at this
          exact this
      · simp only [List.map_cons, List.sum_cons, k7, t8]
        have hreq := AudioSamplesRequired_of_invariant fed hs2 (by rw [e3]; exact hF) hinv2
        rw [hreq, t3, t2, ← e4, hinv2]
        rw [samples_for_congr t4 t5]
        ring
    cases pushed with
    | none => exact hfed2 self rfl rfl rfl rfl hans hrest
    | some unit => exact hfed2 (self.Push unit) rfl rfl rfl rfl hans hrest

/-- After a `Tick` the callback has been given the `AudioSamplesRequired()` of the state the tick
leaves, and `Push` does not change that value: a unit pushed next answers the request exactly
when its audio block has the requested sample count. -/
theorem answers_request_Push (self : implementation) (unit : AVSync) :
    (self.Push unit).AudioSamplesRequired = self.AudioSamplesRequired ∧
    ((self.Push unit).answers_request ↔
      ∃ audio, unit.Audio = some audio ∧ audio.nb_samples = self.AudioSamplesRequired) := by
  constructor
  · rfl
  · simp only [answers_request, Push]
    rfl

end implementation
end NdiOutput
end Ndi
end TVPlayR

namespace TVPlayR
namespace Ndi
namespace NdiOutput
namespace implementation

open FFmpeg

/-- C11: no cumulative audio drift on the NDI clock device. Start from what `AssignToChannel`
leaves (both counters 0) on a channel with a positive frame rate and a sample rate for which
`sample_rate * den` fits `int`. After any run of ticks in which each consumed unit, if there is
one, carries exactly the `AudioSamplesRequired()` samples requested for it (otherwise silence of
that many samples is synthesized), every tick returns, `video_frames_pushed_` is the number `n`
of ticks, `audio_samples_pushed_` equals
`av_rescale(video_frames_pushed_, sample_rate * den, num)`, that is the sum of the sample counts
of the `n` ticks, and that value is the integer nearest to `n * sample_rate * den / num`. -/
theorem C11_no_cumulative_audio_drift (before : implementation) (channel : Core.Channel)
    (empty_video : AVFrame) (pushes : List (Option AVSync))
    (h_assigned : (before.AssignToChannel channel empty_video).1 = true)
    (h_num : 0 < channel.Format.FrameRate.num) (h_den : 0 ≤ channel.Format.FrameRate.den)
    (h_rate : 0 ≤ channel.AudioSampleRate)
    (h_int : channel.AudioSampleRate * channel.Format.FrameRate.den < 2 ^ 31)
    (h_fed : well_fed (before.AssignToChannel channel empty_video).2 pushes) :
    ∃ sents last,
      ticks (before.AssignToChannel channel empty_video).2 pushes = .ok (sents, last) ∧
      last.video_frames_pushed_ = pushes.length ∧
      last.audio_samples_pushed_ =
        av_rescale last.video_frames_pushed_
          (channel.AudioSampleRate * channel.Format.FrameRate.den)
          channel.Format.FrameRate.num ∧
      (sents.map fun sent => sent.audio.nb_samples).sum = last.audio_samples_pushed_ ∧
      2 * (last.audio_samples_pushed_ * channel.Format.FrameRate.num -
          pushes.length * (channel.AudioSampleRate * channel.Format.FrameRate.den)) ≤
        channel.Format.FrameRate.num ∧
      2 * (pushes.length * (channel.AudioSampleRate * channel.Format.FrameRate.den) -
          last.audio_samples_pushed_ * channel.Format.FrameRate.num) ≤
        channel.Format.FrameRate.num := by
  have hrun : before.is_running_ = false := by
    cases h : before.is_running_ with
    | false => rfl
    | true => simp [AssignToChannel, h] at h_assigned
  have hstart : (before.AssignToChannel channel empty_video).2 =
      { before with
        is_running_ := true, format_ := channel.Format
        audio_sample_rate_ := channel.AudioSampleRate, last_video_ := some empty_video
        video_frames_pushed_ := 0, audio_samples_pushed_ := 0, last_video_time_ := 0 } := by
    simp [AssignToChannel, hrun]
  rw [hstart] at h_fed ⊢
  generalize hs0 : ({ before with
        is_running_ := true, format_ := channel.Format
        audio_sample_rate_ := channel.AudioSampleRate, last_video_ := some empty_video
        video_frames_pushed_ := 0, audio_samples_pushed_ := 0, last_video_time_ := 0 } :
      implementation) = start at h_fed ⊢
  have e1 : start.format_ = channel.Format := by rw [← hs0]
  have e2 : start.audio_sample_rate_ = channel.AudioSampleRate := by rw [← hs0]
  have e3 : start.video_frames_pushed_ = 0 := by rw [← hs0]
  have e4 : start.audio_samples_pushed_ = 0 := by rw [← hs0]
  have hs : start.sound_configuration := by
    simp only [sound_configuration, e1, e2]
    exact ⟨h_num, h_den, h_rate, h_int⟩
  obtain ⟨sents, last, k1, k2, k3, k4, k5, _, _, k7⟩ :=
    ticks_keep_invariant pushes start hs (by rw [e3]) (by rw [e3, e4, samples_for_zero start hs])
      h_fed
  have hsl : last.sound_configuration := by
    simpa only [sound_configuration, k4, k5] using hs
  have hF : last.video_frames_pushed_ = pushes.length := by rw [k2, e3]; simp
  have hnear := samples_for_nearest last last.video_frames_pushed_ hsl (by rw [hF]; simp)
  rw [← k3, k4, k5, e1, e2, hF] at hnear
  refine ⟨sents, last, k1, hF, ?_, ?_, hnear.1, hnear.2⟩
  · rw [k3]; simp only [samples_for, k4, k5, e1, e2]
  · rw [k7, e4]; simp

/-- C11, witness: five ticks at 30000/1001 frames a second and 48000 Hz, the second and the fourth
consuming a pushed unit of the requested 1601 samples, the others synthesizing silence. -/
theorem C11_no_cumulative_audio_drift_witness :
    ∃ sents last,
      ticks (((create { type := 0, FrameRate := ⟨0, 1⟩ }).SetFrameRequestedCallback
          true).AssignToChannel (example_channel ⟨30000, 1001⟩) AllocFrame).2
        [none, some ⟨some (SynchronizingBuffer.audio_frame 0 1601), some (SynchronizingBuffer.video_frame 0), 0⟩, none,
          some ⟨some (SynchronizingBuffer.audio_frame 0 1601), some (SynchronizingBuffer.video_frame 1), 33367⟩, none] =
        .ok (sents, last) ∧
      last.video_frames_pushed_ =
        ([none, some ⟨some (SynchronizingBuffer.audio_frame 0 1601), some (SynchronizingBuffer.video_frame 0), 0⟩, none,
          some ⟨some (SynchronizingBuffer.audio_frame 0 1601), some (SynchronizingBuffer.video_frame 1), 33367⟩, none] :
            List (Option AVSync)).length ∧
      last.audio_samples_pushed_ =
        av_rescale last.video_frames_pushed_
          ((example_channel ⟨30000, 1001⟩).AudioSampleRate *
            (example_channel ⟨30000, 1001⟩).Format.FrameRate.den)
          (example_channel ⟨30000, 1001⟩).Format.FrameRate.num ∧
      (sents.map fun sent => sent.audio.nb_samples).sum = last.audio_samples_pushed_ ∧
      2 * (last.audio_samples_pushed_ * (example_channel ⟨30000, 1001⟩).Format.FrameRate.num -
          ([none, some ⟨some (SynchronizingBuffer.audio_frame 0 1601), some (SynchronizingBuffer.video_frame 0), 0⟩, none,
            some ⟨some (SynchronizingBuffer.audio_frame 0 1601), some (SynchronizingBuffer.video_frame 1), 33367⟩, none] :
              List (Option AVSync)).length *
            ((example_channel ⟨30000, 1001⟩).AudioSampleRate *
              (example_channel ⟨30000, 1001⟩).Format.FrameRate.den)) ≤
        (example_channel ⟨30000, 1001⟩).Format.FrameRate.num ∧
      2 * (([none, some ⟨some (SynchronizingBuffer.audio_frame 0 1601), some (SynchronizingBuffer.video_frame 0), 0⟩, none,
            some ⟨some (SynchronizingBuffer.audio_frame 0 1601), some (SynchronizingBuffer.video_frame 1), 33367⟩, none] :
              List (Option AVSync)).length *
            ((example_channel ⟨30000, 1001⟩).AudioSampleRate *
              (example_channel ⟨30000, 1001⟩).Format.FrameRate.den) -
          last.audio_samples_pushed_ * (example_channel ⟨30000, 1001⟩).Format.FrameRate.num) ≤
        (example_channel ⟨30000, 1001⟩).Format.FrameRate.num :=
  C11_no_cumulative_audio_drift
    ((create { type := 0, FrameRate := ⟨0, 1⟩ }).SetFrameRequestedCallback true)
    (example_channel ⟨30000, 1001⟩) AllocFrame _ rfl (by decide) (by decide) (by decide)
    (by decide)
    ⟨trivial, ⟨_, rfl, rfl⟩, trivial, ⟨_, rfl, rfl⟩, trivial, trivial⟩

end implementation
end NdiOutput
end Ndi
end TVPlayR

namespace TVPlayR
namespace Ndi
namespace NdiOutput
namespace implementation

open FFmpeg

/-- For a positive divisor that does not divide `b`, the ceiling `-((-b) / c)` of `b / c` is one
more than the floor. -/
theorem ceil_eq_floor_add_one (b c : Int) (hc : 0 < c) (hr : b % c ≠ 0) :
    -((-b) / c) = b / c + 1 := by
  have h0 := Int.emod_nonneg b (ne_of_gt hc)
  have h1 := Int.emod_lt_of_pos b hc
  have h2 := Int.emod_add_ediv b c
  have h3 : 0 < b % c := lt_of_le_of_ne h0 (Ne.symm hr)
  have h4 : (-b) / c = -(b / c) - 1 := by
    apply ediv_eq_of_bounds hc
    · nlinarith
    · nlinarith
  rw [h4]; ring

/-- C12: under the no-drift invariant (`audio_samples_pushed_` is the rounded count for
`video_frames_pushed_`), with a positive frame rate and `sample_rate * den` within `int`, the
value `AudioSamplesRequired()` returns is the floor or the ceiling of
`sample_rate * den / num`, hence non-negative. At 25 frames a second and 48000 Hz it is 1920. At
30000/1001 frames a second it is 1601 or 1602, and every run of five ticks that each consume
what was requested (or silence) returns, sends five blocks of 1601 or 1602 samples each, and the
five add up to 8008. -/
theorem C12_audio_samples_required_floor_or_ceil (self : implementation)
    (h_sound : self.sound_configuration) (h_frames : 0 ≤ self.video_frames_pushed_)
    (h_invariant : self.audio_samples_pushed_ =
      av_rescale self.video_frames_pushed_
        (self.audio_sample_rate_ * self.format_.FrameRate.den) self.format_.FrameRate.num) :
    (self.AudioSamplesRequired =
        self.audio_sample_rate_ * self.format_.FrameRate.den / self.format_.FrameRate.num ∨
      self.AudioSamplesRequired =
        -((-(self.audio_sample_rate_ * self.format_.FrameRate.den)) /
          self.format_.FrameRate.num)) ∧
    0 ≤ self.AudioSamplesRequired ∧
    (self.format_.FrameRate = ⟨25, 1⟩ → self.audio_sample_rate_ = 48000 →
      self.AudioSamplesRequired = 1920) ∧
    (self.format_.FrameRate = ⟨30000, 1001⟩ → self.audio_sample_rate_ = 48000 →
      (self.AudioSamplesRequired = 1601 ∨ self.AudioSamplesRequired = 1602) ∧
      ∀ pushes : List (Option AVSync), pushes.length = 5 → well_fed self pushes →
        ∃ sents last, ticks self pushes = .ok (sents, last) ∧
          sents.length = 5 ∧
          (∀ sent ∈ sents, sent.audio.nb_samples = 1601 ∨ sent.audio.nb_samples = 1602) ∧
          (sents.map fun sent => sent.audio.nb_samples).sum = 8008) := by
  have hreq := AudioSamplesRequired_of_invariant self h_sound h_frames h_invariant
  have hstep := samples_for_step self self.video_frames_pushed_ h_sound h_frames
  rw [← hreq] at hstep
  obtain ⟨hfc, hnn, _⟩ := hstep
  refine ⟨?_, hnn, ?_, ?_⟩
  · rcases hfc with h | ⟨h, hr⟩
    · exact Or.inl h
    · right
      rw [h, ceil_eq_floor_add_one _ _ h_sound.1 hr]
  · intro hf hr
    rw [hf, hr] at hfc
    rcases hfc with h | ⟨_, h⟩
    · rw [h]; decide
    · exact absurd (by decide) h
  · intro hf hr
    refine ⟨?_, ?_⟩
    · rw [hf, hr] at hfc
      rcases hfc with h | ⟨h, _⟩
      · left; rw [h]; decide
      · right; rw [h]; decide
    · intro pushes hlen hfed
      obtain ⟨sents, last, k1, k2, k3, k4, k5, k6, k8, k7⟩ :=
        ticks_keep_invariant pushes self h_sound h_frames h_invariant hfed
      refine ⟨sents, last, k1, by rw [k6, hlen], ?_, ?_⟩
      · intro sent hsent
        have := k8 sent hsent
        rw [hf, hr] at this
        rcases this with h | ⟨h, _⟩
        · left; rw [h]; decide
        · right; rw [h]; decide
      · rw [k7, k3, k2, hlen, h_invariant]
        simp only [samples_for, k4, k5, hf, hr]
        have hF := h_frames
        generalize self.video_frames_pushed_ = F at hF ⊢
        simp only [av_rescale]
        have e1 : ¬ ((30000 : Int) ≤ 0 ∨ (48000 : Int) * 1001 < 0) := by decide
        have e2 : ¬ (F + ((5 : Nat) : Int) < 0) := by push_cast; omega
        have e3 : ¬ (F < 0) := by omega
        simp only [if_neg e1, if_neg e2, if_neg e3]
        push_cast
        omega

/-- C12, witness: the output of the examples at 30000/1001 frames a second, as `AssignToChannel`
leaves it. -/
theorem C12_audio_samples_required_floor_or_ceil_witness :
    ((example_output ⟨30000, 1001⟩).AudioSamplesRequired =
        (example_output ⟨30000, 1001⟩).audio_sample_rate_ *
          (example_output ⟨30000, 1001⟩).format_.FrameRate.den /
          (example_output ⟨30000, 1001⟩).format_.FrameRate.num ∨
      (example_output ⟨30000, 1001⟩).AudioSamplesRequired =
        -((-((example_output ⟨30000, 1001⟩).audio_sample_rate_ *
            (example_output ⟨30000, 1001⟩).format_.FrameRate.den)) /
          (example_output ⟨30000, 1001⟩).format_.FrameRate.num)) ∧
    0 ≤ (example_output ⟨30000, 1001⟩).AudioSamplesRequired ∧
    ((example_output ⟨30000, 1001⟩).format_.FrameRate = ⟨25, 1⟩ →
      (example_output ⟨30000, 1001⟩).audio_sample_rate_ = 48000 →
      (example_output ⟨30000, 1001⟩).AudioSamplesRequired = 1920) ∧
    ((example_output ⟨30000, 1001⟩).format_.FrameRate = ⟨30000, 1001⟩ →
      (example_output ⟨30000, 1001⟩).audio_sample_rate_ = 48000 →
      ((example_output ⟨30000, 1001⟩).AudioSamplesRequired = 1601 ∨
        (example_output ⟨30000, 1001⟩).AudioSamplesRequired = 1602) ∧
      ∀ pushes : List (Option AVSync), pushes.length = 5 →
        well_fed (example_output ⟨30000, 1001⟩) pushes →
        ∃ sents last, ticks (example_output ⟨30000, 1001⟩) pushes = .ok (sents, last) ∧
          sents.length = 5 ∧
          (∀ sent ∈ sents, sent.audio.nb_samples = 1601 ∨ sent.audio.nb_samples = 1602) ∧
          (sents.map fun sent => sent.audio.nb_samples).sum = 8008) :=
  C12_audio_samples_required_floor_or_ceil (example_output ⟨30000, 1001⟩)
    ⟨by decide, by decide, by decide, by decide⟩ (by decide) rfl

/-- C12, evaluated: five silent ticks at 30000/1001 frames a second send 1602, 1601, 1602, 1601
and 1602 samples, and three ticks at 25 frames a second send 1920 each. -/
theorem NdiOutput_sample_counts_evaluated :
    (match ticks (example_output ⟨30000, 1001⟩) [none, none, none, none, none] with
      | .ok (sents, _) => sents.map fun sent => sent.audio.nb_samples
      | .error _ => []) = [1602, 1601, 1602, 1601, 1602] ∧
    (match ticks (example_output ⟨25, 1⟩) [none, none, none] with
      | .ok (sents, _) => sents.map fun sent => sent.audio.nb_samples
      | .error _ => []) = [1920, 1920, 1920] := by
  constructor <;> rfl

end implementation
end NdiOutput
end Ndi
end TVPlayR

/-! ### Full and Ready, C13 and C14 -/

namespace TVPlayR
namespace FFmpeg
namespace SynchronizingBuffer

/-- For non-negative arguments and a positive divisor `av_rescale` is the rounded quotient. -/
theorem av_rescale_of_nonneg {a b c : Int} (ha : 0 ≤ a) (hb : 0 ≤ b) (hc : 0 < c) :
    av_rescale a b c = (a * b + c / 2) / c := by
  unfold av_rescale
  rw [if_neg (by omega), if_neg (by omega)]

/-- What `Full()` computes, for every object. -/
theorem Full_iff (self : SynchronizingBuffer) :
    self.Full = true ↔
      self.is_flushed_ = true ∨
        (self.video_queue_.length ≥
            to_size_t (av_rescale self.duration_ self.video_frame_rate_.num
              (self.video_frame_rate_.den * AV_TIME_BASE)) ∧
          ∀ fifo, self.fifo_ = some fifo →
            (fifo.SamplesCount : Int) > av_rescale self.duration_ self.sample_rate_
              AV_TIME_BASE) := by
  unfold Full
  cases hf : self.is_flushed_ <;> cases hq : self.fifo_ <;> simp

/-- C13, counterexample: a buffer that is not flushed and holds one frame and 1920 samples, with
a target duration of 40 ms, which is one frame at 25 frames a second and 1920 samples at
48000 Hz. Both media reach the target, yet `Full()` is false: the audio comparison is strict.
And `Full()` is true on the same buffer without a ring buffer, where no audio is buffered. -/
theorem C13_full_at_exact_target_or_without_audio :
    exactly_full_buffer.is_flushed_ = false ∧
    (exactly_full_buffer.video_queue_.length : Int) ≥
      av_rescale exactly_full_buffer.duration_ exactly_full_buffer.video_frame_rate_.num
        (exactly_full_buffer.video_frame_rate_.den * AV_TIME_BASE) ∧
    (∃ fifo, exactly_full_buffer.fifo_ = some fifo ∧
      (fifo.SamplesCount : Int) ≥
        av_rescale exactly_full_buffer.duration_ exactly_full_buffer.sample_rate_
          AV_TIME_BASE) ∧
    exactly_full_buffer.Full = false ∧
    video_only_buffer.is_flushed_ = false ∧ video_only_buffer.fifo_ = none ∧
    video_only_buffer.Full = true := by
  have hcount : (example_fifo 1920).SamplesCount = 1920 :=
    List.length_replicate 1920 _
  refine ⟨rfl, by decide, ⟨example_fifo 1920, rfl, ?_⟩, ?_, rfl, rfl, by decide⟩
  · rw [hcount]; decide
  · have h : ¬ (exactly_full_buffer.Full = true) := by
      rw [Full_iff]
      rintro (h | ⟨_, h⟩)
      · exact absurd h (by decide)
      · have := h (example_fifo 1920) rfl
        rw [hcount] at this
        exact absurd this (by decide)
    simpa using h

/-- C13: for a buffer with a positive frame rate, a non-negative target duration and sample rate,
and `duration_ * num` within 64 bits, `Full()` is true if and only if the buffer is flushed, or
the queue length is at least `av_rescale(duration_, num, den * AV_TIME_BASE)` and either no ring
buffer exists or its sample count is strictly greater than
`av_rescale(duration_, sample_rate_, AV_TIME_BASE)`. In exact terms: the queued frames fall short
of the target duration by less than half a frame interval, and the buffered samples exceed it by
more than half a sample. -/
theorem C13_full_iff_flushed_or_both_media_buffered (self : SynchronizingBuffer)
    (h_num : 0 < self.video_frame_rate_.num) (h_den : 0 < self.video_frame_rate_.den)
    (h_duration : 0 ≤ self.duration_) (h_rate : 0 ≤ self.sample_rate_)
    (h_range : self.duration_ * self.video_frame_rate_.num < 2 ^ 63) :
    (self.Full = true ↔
      self.is_flushed_ = true ∨
        ((self.video_queue_.length : Int) ≥
            av_rescale self.duration_ self.video_frame_rate_.num
              (self.video_frame_rate_.den * AV_TIME_BASE) ∧
          (self.fifo_ = none ∨
            ∃ fifo, self.fifo_ = some fifo ∧
              (fifo.SamplesCount : Int) > av_rescale self.duration_ self.sample_rate_
                AV_TIME_BASE))) ∧
    (self.Full = true ↔
      self.is_flushed_ = true ∨
        (2 * (self.duration_ * self.video_frame_rate_.num) <
            (2 * (self.video_queue_.length : Int) + 1) *
              (self.video_frame_rate_.den * AV_TIME_BASE) ∧
          ∀ fifo, self.fifo_ = some fifo →
            2 * (self.duration_ * self.sample_rate_) + AV_TIME_BASE <
              2 * ((fifo.SamplesCount : Int) * AV_TIME_BASE))) := by
  have hc : 0 < self.video_frame_rate_.den * AV_TIME_BASE := by
    have : (0 : Int) < AV_TIME_BASE := by decide
    positivity
  have hv := av_rescale_of_nonneg h_duration (le_of_lt h_num) hc
  have ha := av_rescale_of_nonneg h_duration h_rate (by decide : (0 : Int) < AV_TIME_BASE)
  have hv0 : 0 ≤ av_rescale self.duration_ self.video_frame_rate_.num
      (self.video_frame_rate_.den * AV_TIME_BASE) := by
    rw [hv]; positivity
  have hv1 : av_rescale self.duration_ self.video_frame_rate_.num
      (self.video_frame_rate_.den * AV_TIME_BASE) < 2 ^ 64 := by
    rw [hv]
    apply Int.ediv_lt_of_lt_mul hc
    have h1 : self.video_frame_rate_.den * AV_TIME_BASE / 2 ≤
        self.video_frame_rate_.den * AV_TIME_BASE := by omega
    nlinarith
  have hsize : ((to_size_t (av_rescale self.duration_ self.video_frame_rate_.num
      (self.video_frame_rate_.den * AV_TIME_BASE)) : Nat) : Int) =
      av_rescale self.duration_ self.video_frame_rate_.num
        (self.video_frame_rate_.den * AV_TIME_BASE) := by
    unfold to_size_t
    rw [Int.emod_eq_of_lt hv0 hv1, Int.toNat_of_nonneg hv0]
  have hlen : self.video_queue_.length ≥
        to_size_t (av_rescale self.duration_ self.video_frame_rate_.num
          (self.video_frame_rate_.den * AV_TIME_BASE)) ↔
      (self.video_queue_.length : Int) ≥
        av_rescale self.duration_ self.video_frame_rate_.num
          (self.video_frame_rate_.den * AV_TIME_BASE) := by
    constructor <;> intro h <;> omega
  have hfirst : self.Full = true ↔
      self.is_flushed_ = true ∨
        ((self.video_queue_.length : Int) ≥
            av_rescale self.duration_ self.video_frame_rate_.num
              (self.video_frame_rate_.den * AV_TIME_BASE) ∧
          ∀ fifo, self.fifo_ = some fifo →
            (fifo.SamplesCount : Int) > av_rescale self.duration_ self.sample_rate_
              AV_TIME_BASE) := by
    rw [Full_iff, hlen]
  refine ⟨?_, ?_⟩
  · rw [hfirst]
    cases hq : self.fifo_ <;> simp
  · rw [hfirst, hv, ha]
    have e1 : (self.video_queue_.length : Int) ≥
          (self.duration_ * self.video_frame_rate_.num +
            self.video_frame_rate_.den * AV_TIME_BASE / 2) /
              (self.video_frame_rate_.den * AV_TIME_BASE) ↔
        2 * (self.duration_ * self.video_frame_rate_.num) <
          (2 * (self.video_queue_.length : Int) + 1) *
            (self.video_frame_rate_.den * AV_TIME_BASE) := by
      have heven : self.video_frame_rate_.den * AV_TIME_BASE / 2 * 2 =
          self.video_frame_rate_.den * AV_TIME_BASE := by
        have : AV_TIME_BASE = 1000000 := rfl
        rw [this]; omega
      rw [ge_iff_le, ← Int.lt_add_one_iff, Int.ediv_lt_iff_lt_mul hc]
      constructor <;> intro h <;> nlinarith
    have e2 : ∀ count : Int,
        count > (self.duration_ * self.sample_rate_ + AV_TIME_BASE / 2) / AV_TIME_BASE ↔
        2 * (self.duration_ * self.sample_rate_) + AV_TIME_BASE < 2 * (count * AV_TIME_BASE) := by
      intro count
      have : AV_TIME_BASE = 1000000 := rfl
      rw [gt_iff_lt, Int.ediv_lt_iff_lt_mul (by decide), this]
      omega
    simp only [e1, e2]

/-- C13, witness: the buffer of one frame and 1920 samples, with a target duration of 40 ms. -/
theorem C13_full_iff_flushed_or_both_media_buffered_witness :
    (exactly_full_buffer.Full = true ↔
      exactly_full_buffer.is_flushed_ = true ∨
        ((exactly_full_buffer.video_queue_.length : Int) ≥
            av_rescale exactly_full_buffer.duration_ exactly_full_buffer.video_frame_rate_.num
              (exactly_full_buffer.video_frame_rate_.den * AV_TIME_BASE) ∧
          (exactly_full_buffer.fifo_ = none ∨
            ∃ fifo, exactly_full_buffer.fifo_ = some fifo ∧
              (fifo.SamplesCount : Int) >
                av_rescale exactly_full_buffer.duration_ exactly_full_buffer.sample_rate_
                  AV_TIME_BASE))) ∧
    (exactly_full_buffer.Full = true ↔
      exactly_full_buffer.is_flushed_ = true ∨
        (2 * (exactly_full_buffer.duration_ * exactly_full_buffer.video_frame_rate_.num) <
            (2 * (exactly_full_buffer.video_queue_.length : Int) + 1) *
              (exactly_full_buffer.video_frame_rate_.den * AV_TIME_BASE) ∧
          ∀ fifo, exactly_full_buffer.fifo_ = some fifo →
            2 * (exactly_full_buffer.duration_ * exactly_full_buffer.sample_rate_) +
                AV_TIME_BASE <
              2 * ((fifo.SamplesCount : Int) * AV_TIME_BASE))) :=
  C13_full_iff_flushed_or_both_media_buffered exactly_full_buffer (by decide) (by decide)
    (by decide) (by decide) (by decide)

end SynchronizingBuffer
end FFmpeg
end TVPlayR

namespace TVPlayR
namespace FFmpeg
namespace SynchronizingBuffer

/-- What `Ready()` computes on a buffer that is not flushed. -/
theorem Ready_unflushed (self : SynchronizingBuffer) (hf : self.is_flushed_ = false) :
    (self.is_playing_ = true →
      (self.Ready = true ↔
        self.video_queue_ ≠ [] ∧
          ∀ fifo, self.fifo_ = some fifo →
            (fifo.SamplesCount : Int) > av_rescale self.sample_rate_
              self.input_video_time_base_.num self.input_video_time_base_.den)) ∧
    (self.is_playing_ = false →
      (self.Ready = true ↔ self.video_queue_ ≠ [] ∨ self.last_video_ ≠ none)) := by
  unfold Ready
  constructor
  · intro hp
    cases hq : self.fifo_ <;> cases hv : self.video_queue_ <;> simp [hf, hp]
  · intro hp
    cases hl : self.last_video_ <;> cases hv : self.video_queue_ <;> simp [hf, hp]

/-- C14, counterexample: a playing 25 fps, 48000 Hz buffer that is not flushed, with one frame
queued and 100 samples buffered, whose source time base is 1/1000. One frame interval is 1920
samples and 100 does not exceed it, yet `Ready()` is true: the threshold is
`av_rescale(sample_rate_, 1, 1000)`, 48 samples. The state is what one `PushAudio` of 100 samples
and one `PushVideo` with that time base leave. -/
theorem C14_ready_below_one_frame_interval :
    calls Variant.plain pts_to_microseconds (example_buffer 2 true)
        [Call.PushAudio (some (audio_frame 0 100)),
          Call.PushVideo (some (video_frame 0)) ⟨1, 1000⟩] = .ok millisecond_source_buffer ∧
    millisecond_source_buffer.is_playing_ = true ∧
    millisecond_source_buffer.is_flushed_ = false ∧
    millisecond_source_buffer.video_queue_ ≠ [] ∧
    av_rescale millisecond_source_buffer.sample_rate_
      millisecond_source_buffer.video_frame_rate_.den
      millisecond_source_buffer.video_frame_rate_.num = 1920 ∧
    (∃ fifo, millisecond_source_buffer.fifo_ = some fifo ∧ fifo.SamplesCount = 100) ∧
    millisecond_source_buffer.Ready = true := by
  refine ⟨rfl, rfl, rfl, by decide, by decide, ⟨example_fifo 100, rfl, ?_⟩, ?_⟩
  · exact List.length_replicate 100 _
  · have hcount : (example_fifo 100).SamplesCount = 100 := List.length_replicate 100 _
    rw [(Ready_unflushed millisecond_source_buffer rfl).1 rfl]
    refine ⟨by decide, ?_⟩
    intro fifo hfifo
    have : fifo = example_fifo 100 := (Option.some.inj hfifo).symm
    rw [this, hcount]
    decide

/-- C14: on a buffer that is not flushed, while playing `Ready()` is true exactly when the video
queue is not empty and either no ring buffer exists or its sample count exceeds
`av_rescale(sample_rate_, input_video_time_base_.num, input_video_time_base_.den)`, the samples
in one tick of the time base recorded by the last `PushVideo`; for a non-negative sample rate and
a time base with a positive denominator that is: the buffered audio lasts longer than one tick of
that time base by more than half a sample. When the recorded time base is the inverse of the
frame rate the threshold is one frame interval's worth of samples, 1920 at 25 frames a second and
48000 Hz. While paused `Ready()` is true exactly when the video queue is not empty or a last
delivered frame is cached. -/
theorem C14_ready_when_unflushed (self : SynchronizingBuffer)
    (h_unflushed : self.is_flushed_ = false) :
    (self.is_playing_ = true →
      (self.Ready = true ↔
        self.video_queue_ ≠ [] ∧
          (self.fifo_ = none ∨
            ∃ fifo, self.fifo_ = some fifo ∧
              (fifo.SamplesCount : Int) > av_rescale self.sample_rate_
                self.input_video_time_base_.num self.input_video_time_base_.den))) ∧
    (self.is_playing_ = true → 0 ≤ self.sample_rate_ →
      0 ≤ self.input_video_time_base_.num → 0 < self.input_video_time_base_.den →
      (self.Ready = true ↔
        self.video_queue_ ≠ [] ∧
          ∀ fifo, self.fifo_ = some fifo →
            2 * (self.sample_rate_ * self.input_video_time_base_.num) +
                self.input_video_time_base_.den <
              2 * ((fifo.SamplesCount : Int) * self.input_video_time_base_.den))) ∧
    (self.is_playing_ = true →
      self.input_video_time_base_ =
        ⟨self.video_frame_rate_.den, self.video_frame_rate_.num⟩ →
      (self.Ready = true ↔
        self.video_queue_ ≠ [] ∧
          ∀ fifo, self.fifo_ = some fifo →
            (fifo.SamplesCount : Int) > av_rescale self.sample_rate_
              self.video_frame_rate_.den self.video_frame_rate_.num) ∧
      (self.sample_rate_ = 48000 → self.video_frame_rate_ = ⟨25, 1⟩ →
        (self.Ready = true ↔
          self.video_queue_ ≠ [] ∧
            ∀ fifo, self.fifo_ = some fifo → fifo.SamplesCount > 1920))) ∧
    (self.is_playing_ = false →
      (self.Ready = true ↔ self.video_queue_ ≠ [] ∨ self.last_video_ ≠ none)) := by
  obtain ⟨hplay, hpause⟩ := Ready_unflushed self h_unflushed
  refine ⟨?_, ?_, ?_, hpause⟩
  · intro hp
    rw [hplay hp]
    cases hq : self.fifo_ <;> simp
  · intro hp hr hn hd
    rw [hplay hp, av_rescale_of_nonneg hr hn hd]
    have e : ∀ count : Int,
        count > (self.sample_rate_ * self.input_video_time_base_.num +
            self.input_video_time_base_.den / 2) / self.input_video_time_base_.den ↔
          2 * (self.sample_rate_ * self.input_video_time_base_.num) +
              self.input_video_time_base_.den <
            2 * (count * self.input_video_time_base_.den) := by
      intro count
      rw [gt_iff_lt, Int.ediv_lt_iff_lt_mul hd]
      generalize self.sample_rate_ * self.input_video_time_base_.num = x
      generalize count * self.input_video_time_base_.den = y
      omega
    simp only [e]
  · intro hp htb
    have h := hplay hp
    rw [htb] at h
    refine ⟨h, ?_⟩
    intro hr hfr
    rw [h, hr, hfr]
    have e : av_rescale 48000 (AVRational.mk 25 1).den (AVRational.mk 25 1).num = 1920 := by
      decide
    rw [e]
    constructor
    · rintro ⟨h1, h2⟩
      exact ⟨h1, fun fifo hfifo => by have := h2 fifo hfifo; omega⟩
    · rintro ⟨h1, h2⟩
      exact ⟨h1, fun fifo hfifo => by have := h2 fifo hfifo; omega⟩

/-- C14, witness: the playing buffer of one frame and 1920 samples with the time base 1/25. -/
theorem C14_ready_when_unflushed_witness :
    (exactly_full_buffer.is_playing_ = true →
      (exactly_full_buffer.Ready = true ↔
        exactly_full_buffer.video_queue_ ≠ [] ∧
          (exactly_full_buffer.fifo_ = none ∨
            ∃ fifo, exactly_full_buffer.fifo_ = some fifo ∧
              (fifo.SamplesCount : Int) > av_rescale exactly_full_buffer.sample_rate_
                exactly_full_buffer.input_video_time_base_.num
                exactly_full_buffer.input_video_time_base_.den))) ∧
    (exactly_full_buffer.is_playing_ = true → 0 ≤ exactly_full_buffer.sample_rate_ →
      0 ≤ exactly_full_buffer.input_video_time_base_.num →
      0 < exactly_full_buffer.input_video_time_base_.den →
      (exactly_full_buffer.Ready = true ↔
        exactly_full_buffer.video_queue_ ≠ [] ∧
          ∀ fifo, exactly_full_buffer.fifo_ = some fifo →
            2 * (exactly_full_buffer.sample_rate_ *
                  exactly_full_buffer.input_video_time_base_.num) +
                exactly_full_buffer.input_video_time_base_.den <
              2 * ((fifo.SamplesCount : Int) *
                exactly_full_buffer.input_video_time_base_.den))) ∧
    (exactly_full_buffer.is_playing_ = true →
      exactly_full_buffer.input_video_time_base_ =
        ⟨exactly_full_buffer.video_frame_rate_.den, exactly_full_buffer.video_frame_rate_.num⟩ →
      (exactly_full_buffer.Ready = true ↔
        exactly_full_buffer.video_queue_ ≠ [] ∧
          ∀ fifo, exactly_full_buffer.fifo_ = some fifo →
            (fifo.SamplesCount : Int) > av_rescale exactly_full_buffer.sample_rate_
              exactly_full_buffer.video_frame_rate_.den
              exactly_full_buffer.video_frame_rate_.num) ∧
      (exactly_full_buffer.sample_rate_ = 48000 →
        exactly_full_buffer.video_frame_rate_ = ⟨25, 1⟩ →
        (exactly_full_buffer.Ready = true ↔
          exactly_full_buffer.video_queue_ ≠ [] ∧
            ∀ fifo, exactly_full_buffer.fifo_ = some fifo → fifo.SamplesCount > 1920))) ∧
    (exactly_full_buffer.is_playing_ = false →
      (exactly_full_buffer.Ready = true ↔
        exactly_full_buffer.video_queue_ ≠ [] ∨ exactly_full_buffer.last_video_ ≠ none)) :=
  C14_ready_when_unflushed exactly_full_buffer rfl

end SynchronizingBuffer
end FFmpeg
end TVPlayR

/-! ### PushAudio on overflow and Flush, C15 and C16 -/

namespace TVPlayR
namespace FFmpeg
namespace SynchronizingBuffer

/-- The two outcomes of `TryPush`: the frame does not fit and the ring buffer is as before, or it
fits and its samples are appended. -/
theorem AudioFifo_TryPush_cases (fifo : AudioFifo) (a : AVFrame) :
    (fifo.capacity < fifo.samples.length + a.data.length ∧ fifo.TryPush a = (false, fifo)) ∨
    (fifo.samples.length + a.data.length ≤ fifo.capacity ∧
      fifo.TryPush a = (true, { fifo with samples := fifo.samples ++ a.data })) := by
  unfold AudioFifo.TryPush
  by_cases h : fifo.samples.length + a.data.length > fifo.capacity
  · left; exact ⟨h, by rw [if_pos h]⟩
  · right; exact ⟨by omega, by rw [if_neg h]⟩

/-- The ring buffer of the examples holds the number of samples it is made with. -/
theorem example_fifo_length (count : Nat) : (example_fifo count).samples.length = count :=
  List.length_replicate count _

/-- The audio frame of the examples holds the number of samples it is made with. -/
theorem audio_frame_length (pts : Int) (count : Nat) :
    (audio_frame pts count).data.length = count :=
  List.length_replicate count _

/-- `PushAudio` of a non-null frame on an object with audio that is not flushed returns, and
changes nothing but the ring buffer, which exists afterwards. -/
theorem PushAudio_unflushed (PtsToTime : Int → AVRational → Int) (self : SynchronizingBuffer)
    (a : AVFrame) (ha : self.have_audio_ = true) (hf : self.is_flushed_ = false) :
    ∃ fifo, self.PushAudio PtsToTime (some a) = .ok { self with fifo_ := some fifo } := by
  unfold PushAudio
  simp only [ha, hf, Sweep]
  split_ifs <;> first | exact ⟨_, rfl⟩ | simp_all

/-- `PushAudio` of a non-null frame on an object with audio that is not flushed and has a ring
buffer: the ring buffer takes the frame, after a reset to the frame's time if the first `TryPush`
fails, and nothing else changes. -/
theorem PushAudio_existing (PtsToTime : Int → AVRational → Int) (self : SynchronizingBuffer)
    (a : AVFrame) (fifo : AudioFifo) (ha : self.have_audio_ = true)
    (hf : self.is_flushed_ = false) (hq : self.fifo_ = some fifo) :
    self.PushAudio PtsToTime (some a) =
      .ok { self with
        fifo_ := some
          (if (fifo.TryPush a).1 = false then
            ((fifo.Reset (PtsToTime a.pts self.audio_time_base_)).TryPush a).2
          else (fifo.TryPush a).2) } := by
  unfold PushAudio
  simp only [ha, hf, hq, Sweep]
  rcases AudioFifo_TryPush_cases fifo a with ⟨_, h⟩ | ⟨_, h⟩ <;> simp [h]

/-- C15, counterexample: after `Flush`, with the ring buffer filled to its capacity, `TryPush` of
a one-sample frame returns false and `PushAudio` of that frame fails `assert(!is_flushed_)`; the
ring buffer is neither reset nor given the frame. -/
theorem C15_flushed_overflowing_push_faults :
    full_fifo_flushed_buffer = full_fifo_buffer.Flush ∧
    (∃ fifo, full_fifo_flushed_buffer.fifo_ = some fifo ∧
      (fifo.TryPush (audio_frame 0 1)).1 = false) ∧
    full_fifo_flushed_buffer.PushAudio pts_to_microseconds (some (audio_frame 0 1)) =
      .error (Fault.assertion_failed, full_fifo_flushed_buffer) := by
  refine ⟨rfl, ⟨example_fifo 480000, rfl, ?_⟩, rfl⟩
  rcases AudioFifo_TryPush_cases (example_fifo 480000) (audio_frame 0 1) with ⟨_, h⟩ | ⟨h, _⟩
  · rw [h]
  · rw [example_fifo_length, audio_frame_length] at h
    exact absurd h (by decide)

/-- C15: for every non-null audio frame `a` and every object with audio that is not flushed and
has a ring buffer, `PushAudio(a)` returns, changing nothing but the ring buffer. When `TryPush(a)`
returns false on the ring buffer, it is reset to the base time
`PtsToTime(a.pts, audio_time_base_)` and `a` is pushed again: afterwards it holds exactly the
samples of `a`, anchored at that time, given `a` alone fits the capacity (and is empty, anchored
at that time, otherwise). When `TryPush(a)` returns true the samples of `a` are appended and the
base time stays. -/
theorem C15_push_audio_resets_on_overflow (PtsToTime : Int → AVRational → Int)
    (self : SynchronizingBuffer) (a : AVFrame) (fifo : AudioFifo)
    (h_audio : self.have_audio_ = true) (h_unflushed : self.is_flushed_ = false)
    (h_fifo : self.fifo_ = some fifo) :
    ((fifo.TryPush a).1 = false →
      self.PushAudio PtsToTime (some a) =
        .ok { self with
          fifo_ := some ((fifo.Reset (PtsToTime a.pts self.audio_time_base_)).TryPush a).2 } ∧
      (a.data.length ≤ fifo.capacity →
        ((fifo.Reset (PtsToTime a.pts self.audio_time_base_)).TryPush a).2 =
          { fifo with samples := a.data, base_time := PtsToTime a.pts self.audio_time_base_ }) ∧
      (fifo.capacity < a.data.length →
        ((fifo.Reset (PtsToTime a.pts self.audio_time_base_)).TryPush a).2 =
          { fifo with samples := [], base_time := PtsToTime a.pts self.audio_time_base_ })) ∧
    ((fifo.TryPush a).1 = true →
      self.PushAudio PtsToTime (some a) =
        .ok { self with fifo_ := some { fifo with samples := fifo.samples ++ a.data } }) := by
  have h := PushAudio_existing PtsToTime self a fifo h_audio h_unflushed h_fifo
  constructor
  · intro ht
    rw [if_pos ht] at h
    refine ⟨h, ?_, ?_⟩
    · intro hfit
      simp only [AudioFifo.Reset, AudioFifo.TryPush, List.length_nil, Nat.zero_add]
      rw [if_neg (by omega)]
      simp
    · intro hbig
      simp only [AudioFifo.Reset, AudioFifo.TryPush, List.length_nil, Nat.zero_add]
      rw [if_pos (by omega)]
  · intro ht
    rw [if_neg (by simp [ht])] at h
    rw [h]
    rcases AudioFifo_TryPush_cases fifo a with ⟨_, hc⟩ | ⟨_, hc⟩
    · rw [hc] at ht
      exact absurd ht Bool.false_ne_true
    · rw [hc]

/-- C15, witness: the ring buffer filled to its capacity, not flushed, and a frame of three
samples stamped 96000, two seconds at 48000 Hz. -/
theorem C15_push_audio_resets_on_overflow_witness :
    (((example_fifo 480000).TryPush (audio_frame 96000 3)).1 = false →
      full_fifo_buffer.PushAudio pts_to_microseconds (some (audio_frame 96000 3)) =
        .ok { full_fifo_buffer with
          fifo_ := some (((example_fifo 480000).Reset
            (pts_to_microseconds (audio_frame 96000 3).pts
              full_fifo_buffer.audio_time_base_)).TryPush (audio_frame 96000 3)).2 } ∧
      ((audio_frame 96000 3).data.length ≤ (example_fifo 480000).capacity →
        (((example_fifo 480000).Reset
            (pts_to_microseconds (audio_frame 96000 3).pts
              full_fifo_buffer.audio_time_base_)).TryPush (audio_frame 96000 3)).2 =
          { example_fifo 480000 with
            samples := (audio_frame 96000 3).data
            base_time := pts_to_microseconds (audio_frame 96000 3).pts
              full_fifo_buffer.audio_time_base_ }) ∧
      ((example_fifo 480000).capacity < (audio_frame 96000 3).data.length →
        (((example_fifo 480000).Reset
            (pts_to_microseconds (audio_frame 96000 3).pts
              full_fifo_buffer.audio_time_base_)).TryPush (audio_frame 96000 3)).2 =
          { example_fifo 480000 with
            samples := []
            base_time := pts_to_microseconds (audio_frame 96000 3).pts
              full_fifo_buffer.audio_time_base_ })) ∧
    (((example_fifo 480000).TryPush (audio_frame 96000 3)).1 = true →
      full_fifo_buffer.PushAudio pts_to_microseconds (some (audio_frame 96000 3)) =
        .ok { full_fifo_buffer with
          fifo_ := some { example_fifo 480000 with
            samples := (example_fifo 480000).samples ++ (audio_frame 96000 3).data } }) :=
  C15_push_audio_resets_on_overflow pts_to_microseconds full_fifo_buffer (audio_frame 96000 3)
    (example_fifo 480000) rfl rfl rfl

/-- The overflow of the example, evaluated: `TryPush` fails on the full ring buffer, and after
`PushAudio` the ring buffer holds the three samples of the frame, anchored at two seconds. -/
theorem PushAudio_overflow_evaluated :
    ((example_fifo 480000).TryPush (audio_frame 96000 3)).1 = false ∧
    ∃ next, full_fifo_buffer.PushAudio pts_to_microseconds (some (audio_frame 96000 3)) =
        .ok next ∧
      next.fifo_ = some { example_fifo 0 with
        samples := [[1, 1], [1, 1], [1, 1]], base_time := 2000000 } := by
  have ht : ((example_fifo 480000).TryPush (audio_frame 96000 3)).1 = false := by
    rcases AudioFifo_TryPush_cases (example_fifo 480000) (audio_frame 96000 3) with
      ⟨_, h⟩ | ⟨h, _⟩
    · rw [h]
    · rw [example_fifo_length, audio_frame_length] at h
      exact absurd h (by decide)
  refine ⟨ht, _, PushAudio_existing pts_to_microseconds full_fifo_buffer (audio_frame 96000 3)
    (example_fifo 480000) rfl rfl rfl, ?_⟩
  rw [if_pos ht]
  rfl

/-- C16: for every buffer state `Flush()` changes only the flushed flag, to true: the video queue,
the ring buffer, the cached last frame, the play flag, the recorded time base, `sync_` and the
constant members are unchanged, and a second `Flush()` changes nothing. -/
theorem C16_flush_changes_only_the_flag (self : SynchronizingBuffer) :
    self.Flush = { self with is_flushed_ := true } ∧
    self.Flush.is_flushed_ = true ∧
    self.Flush.video_queue_ = self.video_queue_ ∧
    self.Flush.fifo_ = self.fifo_ ∧
    self.Flush.last_video_ = self.last_video_ ∧
    self.Flush.is_playing_ = self.is_playing_ ∧
    self.Flush.input_video_time_base_ = self.input_video_time_base_ ∧
    self.Flush.sync_ = self.sync_ ∧
    self.Flush.configuration = self.configuration ∧
    self.Flush.Flush = self.Flush ∧
    (self.is_flushed_ = true → self.Flush = self) :=
  ⟨rfl, rfl, rfl, rfl, rfl, rfl, rfl, rfl, rfl, rfl, fun h => by
    cases self
    simp only [Flush] at h ⊢
    simp_all⟩

end SynchronizingBuffer
end FFmpeg
end TVPlayR

/-! ### The managed channel, C17 and C18 -/

namespace TVPlayR
namespace Channel

/-- C17, counterexample: output 1 is added as the clock source and output 2 after it, the native
channel accepting both, and no other clock is set. `RemoveOutput` of output 1 then takes it off
the managed list of outputs and passes the removal on to the native channel: the call is not
rejected and the output set has changed. -/
theorem C17_clock_output_is_removed :
    ((AddOutput (fun _ _ => true)
        (AddOutput (fun _ _ => true) { _channel := [], _outputs := [] }
          (some (example_output 1)) true).2
        (some (example_output 2)) false).2 = two_output_channel) ∧
    two_output_channel.clock_source = some (example_output 1).GetNativeDevice ∧
    example_output 1 ∈ two_output_channel._outputs ∧
    example_output 2 ∈ two_output_channel._outputs ∧
    (two_output_channel.RemoveOutput (example_output 1))._outputs = [example_output 2] ∧
    (two_output_channel.RemoveOutput (example_output 1))._outputs ≠
      two_output_channel._outputs ∧
    (two_output_channel.RemoveOutput (example_output 1))._channel =
      two_output_channel._channel ++ [Core.Request.RemoveOutput (some 1)] := by
  refine ⟨rfl, rfl, by decide, by decide, by decide, by decide, by decide⟩

/-- C17: for every channel whose output list contains the output, be it the clock source or not
and whatever else is attached, `RemoveOutput` removes its first occurrence from the list, leaves
every other output in place, and passes the removal of its native device on to the native
channel; no earlier call on the native channel is consulted. -/
theorem C17_remove_output_removes (self : Channel) (output : OutputBase)
    (h_attached : output ∈ self._outputs) :
    (self.RemoveOutput output)._outputs = self._outputs.erase output ∧
    (self.RemoveOutput output)._outputs.length + 1 = self._outputs.length ∧
    (self.RemoveOutput output)._outputs ≠ self._outputs ∧
    (∀ other, other ≠ output →
      (other ∈ (self.RemoveOutput output)._outputs ↔ other ∈ self._outputs)) ∧
    (self.RemoveOutput output)._channel =
      self._channel ++ [Core.Request.RemoveOutput output.GetNativeDevice] ∧
    (∀ requests : List Core.Request,
      ({ self with _channel := requests }.RemoveOutput output)._outputs =
        (self.RemoveOutput output)._outputs) := by
  have h1 : (self.RemoveOutput output)._outputs = self._outputs.erase output := by
    simp [RemoveOutput, h_attached]
  have h2 : (self._outputs.erase output).length + 1 = self._outputs.length := by
    rw [List.length_erase_of_mem h_attached]
    have := List.length_pos_of_mem h_attached
    omega
  refine ⟨h1, by rw [h1]; exact h2, ?_, ?_, ?_, ?_⟩
  · rw [h1]
    intro h
    rw [h] at h2
    omega
  · intro other hne
    rw [h1]
    exact List.mem_erase_of_ne hne
  · simp [RemoveOutput, h_attached]
  · intro requests
    simp [RemoveOutput, h_attached]

/-- C17, witness: the clock-source output of the channel with two outputs. -/
theorem C17_remove_output_removes_witness :
    (two_output_channel.RemoveOutput (example_output 1))._outputs =
      two_output_channel._outputs.erase (example_output 1) ∧
    (two_output_channel.RemoveOutput (example_output 1))._outputs.length + 1 =
      two_output_channel._outputs.length ∧
    (two_output_channel.RemoveOutput (example_output 1))._outputs ≠
      two_output_channel._outputs ∧
    (∀ other, other ≠ example_output 1 →
      (other ∈ (two_output_channel.RemoveOutput (example_output 1))._outputs ↔
        other ∈ two_output_channel._outputs)) ∧
    (two_output_channel.RemoveOutput (example_output 1))._channel =
      two_output_channel._channel ++
        [Core.Request.RemoveOutput (example_output 1).GetNativeDevice] ∧
    (∀ requests : List Core.Request,
      ({ two_output_channel with _channel := requests }.RemoveOutput
          (example_output 1))._outputs =
        (two_output_channel.RemoveOutput (example_output 1))._outputs) :=
  C17_remove_output_removes two_output_channel (example_output 1) (by decide)

/-- C18: for every channel state, either value of `setAsClockBase` and whatever the native
channel would answer, `AddOutput(nullptr, setAsClockBase)` returns false, makes no call on the
native channel (neither `SetFrameClock` nor `AddOutput`) and leaves the managed output list
unchanged. -/
theorem C18_add_null_output_rejected
    (native_AddOutput : List Core.Request → Option Core.OutputDevice → Bool) (self : Channel)
    (setAsClockBase : Bool) :
    (self.AddOutput native_AddOutput none setAsClockBase).1 = false ∧
    (self.AddOutput native_AddOutput none setAsClockBase).2._channel = self._channel ∧
    (self.AddOutput native_AddOutput none setAsClockBase).2._outputs = self._outputs ∧
    (self.AddOutput native_AddOutput none setAsClockBase).2 = self :=
  ⟨rfl, rfl, rfl, rfl⟩

/-- What `AddOutput` does with an output that is not null: `SetFrameClock` is called first when
`setAsClockBase` is set, then the native `AddOutput`, and the output joins the managed list
exactly when the native channel accepts it. -/
theorem AddOutput_of_output
    (native_AddOutput : List Core.Request → Option Core.OutputDevice → Bool) (self : Channel)
    (output : OutputBase) (setAsClockBase : Bool) :
    (self.AddOutput native_AddOutput (some output) setAsClockBase).2._channel =
      self._channel ++
        (if setAsClockBase then [Core.Request.SetFrameClock output.GetNativeDevice] else []) ++
        [Core.Request.AddOutput output.GetNativeDevice] ∧
    (self.AddOutput native_AddOutput (some output) setAsClockBase).2._outputs =
      (if (self.AddOutput native_AddOutput (some output) setAsClockBase).1 then
        self._outputs ++ [output]
      else self._outputs) := by
  unfold AddOutput
  cases setAsClockBase <;> simp <;> split_ifs <;> simp_all

end Channel
end TVPlayR

/-! ### Pushes after Flush, C19 -/

namespace TVPlayR
namespace FFmpeg
namespace SynchronizingBuffer

/-- C19, counterexample: on a flushed buffer that recorded the time base 1/25, `PushVideo` with
the time base 1/50 fails its assertion after it has overwritten the recorded time base; and on a
flushed buffer configured without audio, `PushAudio` of a non-null frame returns normally. -/
theorem C19_flushed_push_video_overwrites_time_base :
    flushed_buffer.is_flushed_ = true ∧
    (∃ at_fault,
      flushed_buffer.PushVideo (some (video_frame 1)) ⟨1, 50⟩ =
        .error (Fault.assertion_failed, at_fault) ∧
      at_fault.input_video_time_base_ = ⟨1, 50⟩ ∧
      flushed_buffer.input_video_time_base_ = ⟨1, 25⟩ ∧
      at_fault ≠ flushed_buffer) ∧
    (example_buffer 0 true).Flush.is_flushed_ = true ∧
    (example_buffer 0 true).Flush.PushAudio pts_to_microseconds (some (audio_frame 0 3)) =
      .ok (example_buffer 0 true).Flush := by
  refine ⟨rfl, ⟨_, rfl, rfl, rfl, ?_⟩, rfl, rfl⟩
  intro h
  have := congrArg SynchronizingBuffer.input_video_time_base_ h
  exact absurd this (by decide)

/-- C19: for every buffer state with the flushed flag set and every non-null frame, `PushVideo`
fails its assertion and leaves the state unchanged except for the recorded source time base,
which has been overwritten with the argument; `PushAudio` fails its assertion and leaves the
whole state unchanged when the buffer has audio, and returns normally without any effect when it
has none. After a subsequent `Seek` both pushes return normally: the video queue holds the frame
alone, and with audio the ring buffer exists. -/
theorem C19_push_after_flush (PtsToTime : Int → AVRational → Int) (self : SynchronizingBuffer)
    (frame : AVFrame) (time_base : AVRational) (time : Int)
    (h_flushed : self.is_flushed_ = true) :
    self.PushVideo (some frame) time_base =
      .error (Fault.assertion_failed, { self with input_video_time_base_ := time_base }) ∧
    (({ self with input_video_time_base_ := time_base } : SynchronizingBuffer) = self ↔
      time_base = self.input_video_time_base_) ∧
    (self.have_audio_ = true →
      self.PushAudio PtsToTime (some frame) = .error (Fault.assertion_failed, self)) ∧
    (self.have_audio_ = false → self.PushAudio PtsToTime (some frame) = .ok self) ∧
    (self.Seek time).PushVideo (some frame) time_base =
      .ok { self.Seek time with
        input_video_time_base_ := time_base, video_queue_ := [frame] } ∧
    (∃ next, (self.Seek time).PushAudio PtsToTime (some frame) = .ok next ∧
      next.video_queue_ = [] ∧ next.is_flushed_ = false ∧
      (self.have_audio_ = true → ∃ fifo, next.fifo_ = some fifo)) := by
  refine ⟨?_, ?_, ?_, ?_, ?_, ?_⟩
  · unfold PushVideo
    simp [have_video_, h_flushed]
  · constructor
    · intro h
      have := congrArg SynchronizingBuffer.input_video_time_base_ h
      exact this
    · intro h
      cases self
      simp_all
  · intro ha
    unfold PushAudio
    simp [ha, h_flushed]
  · intro ha
    unfold PushAudio
    simp [ha]
  · unfold PushVideo
    simp [have_video_, Seek, Sweep]
  · cases ha : self.have_audio_
    · have h : (self.Seek time).PushAudio PtsToTime (some frame) = .ok (self.Seek time) := by
        unfold PushAudio
        simp [Seek, ha]
      exact ⟨self.Seek time, h, rfl, rfl, by simp⟩
    · obtain ⟨fifo, h⟩ := PushAudio_unflushed PtsToTime (self.Seek time) frame ha rfl
      exact ⟨{ self.Seek time with fifo_ := some fifo }, h, rfl, rfl, fun _ => ⟨fifo, rfl⟩⟩

/-- C19, witness: the flushed buffer of one frame and three samples. -/
theorem C19_push_after_flush_witness :
    flushed_buffer.PushVideo (some (video_frame 1)) ⟨1, 50⟩ =
      .error (Fault.assertion_failed,
        { flushed_buffer with input_video_time_base_ := ⟨1, 50⟩ }) ∧
    (({ flushed_buffer with input_video_time_base_ := ⟨1, 50⟩ } : SynchronizingBuffer) =
        flushed_buffer ↔
      (⟨1, 50⟩ : AVRational) = flushed_buffer.input_video_time_base_) ∧
    (flushed_buffer.have_audio_ = true →
      flushed_buffer.PushAudio pts_to_microseconds (some (video_frame 1)) =
        .error (Fault.assertion_failed, flushed_buffer)) ∧
    (flushed_buffer.have_audio_ = false →
      flushed_buffer.PushAudio pts_to_microseconds (some (video_frame 1)) =
        .ok flushed_buffer) ∧
    (flushed_buffer.Seek 0).PushVideo (some (video_frame 1)) ⟨1, 50⟩ =
      .ok { flushed_buffer.Seek 0 with
        input_video_time_base_ := ⟨1, 50⟩, video_queue_ := [video_frame 1] } ∧
    (∃ next, (flushed_buffer.Seek 0).PushAudio pts_to_microseconds (some (video_frame 1)) =
        .ok next ∧
      next.video_queue_ = [] ∧ next.is_flushed_ = false ∧
      (flushed_buffer.have_audio_ = true → ∃ fifo, next.fifo_ = some fifo)) :=
  C19_push_after_flush pts_to_microseconds flushed_buffer (video_frame 1) ⟨1, 50⟩ 0 rfl

end SynchronizingBuffer
end FFmpeg
end TVPlayR

/-! ### The two implementations compared, C20 -/

namespace TVPlayR
namespace FFmpeg
namespace SynchronizingBuffer

/-- With a frame queued or cached, `PullSync` of the two variants is the same function. -/
theorem PullSync_variants_agree (PtsToTime : Int → AVRational → Int)
    (self : SynchronizingBuffer) (n : Int)
    (h : ¬ (self.video_queue_ = [] ∧ self.last_video_ = none)) :
    PullSync PtsToTime self n = implementation.PullSync PtsToTime self n := by
  cases ha : pull_audio self n with
  | none => simp only [PullSync, implementation.PullSync, ha]
  | some pulled =>
    obtain ⟨audio, fifo⟩ := pulled
    cases hl : (pull_video { self with fifo_ := fifo }).last_video_ with
    | none => exact absurd ((pull_video_last_video_none _).mp hl) h
    | some video =>
      rw [PullSync_of_audio PtsToTime self n audio fifo ha,
        implementation_PullSync_of_audio PtsToTime self n audio video fifo ha hl, hl]

/-- On the same object, a call other than a `PullSync` without a frame queued or cached gives the
same result and the same successor in both variants. -/
theorem operate_variants_agree (PtsToTime : Int → AVRational → Int)
    (self : SynchronizingBuffer) (op : Operation)
    (h : match op with
      | .PullSync _ => ¬ (self.video_queue_ = [] ∧ self.last_video_ = none)
      | _ => True) :
    operate Variant.plain PtsToTime self op = operate Variant.pimpl PtsToTime self op := by
  cases op with
  | PullSync n =>
    simp only [operate, PullSyncOf]
    rw [PullSync_variants_agree PtsToTime self n h]
  | _ => rfl

/-- From the same object, a run in which every `PullSync` has a frame queued or cached is the
same in both variants. -/
theorem operations_variants_agree (PtsToTime : Int → AVRational → Int) (ops : List Operation) :
    ∀ self : SynchronizingBuffer, pulls_have_video Variant.plain PtsToTime self ops →
      operations Variant.plain PtsToTime self ops =
        operations Variant.pimpl PtsToTime self ops := by
  induction ops with
  | nil => intro self _; rfl
  | cons op rest ih =>
    intro self h
    simp only [pulls_have_video] at h
    obtain ⟨h1, h2⟩ := h
    simp only [operations]
    rw [← operate_variants_agree PtsToTime self op h1]
    cases hop : operate Variant.plain PtsToTime self op with
    | error e => rfl
    | ok p =>
      obtain ⟨result, next⟩ := p
      rw [hop] at h2
      simp only [ih next h2]

/-- `PushVideo` of a non-null frame overwrites the recorded time base before it reads anything
else: what was recorded before does not matter. -/
theorem PushVideo_with_time_base (self : SynchronizingBuffer) (frame : AVFrame)
    (recorded time_base : AVRational) :
    (self.with_time_base recorded).PushVideo (some frame) time_base =
      self.PushVideo (some frame) time_base := rfl

/-- `PushAudio` neither reads nor writes the recorded time base. -/
theorem PushAudio_with_time_base (PtsToTime : Int → AVRational → Int)
    (self : SynchronizingBuffer) (recorded : AVRational) (frame : Option AVFrame) :
    (self.with_time_base recorded).PushAudio PtsToTime frame =
      match self.PushAudio PtsToTime frame with
      | .ok next => .ok (next.with_time_base recorded)
      | .error (fault, at_fault) => .error (fault, at_fault.with_time_base recorded) := by
  unfold PushAudio
  cases frame with
  | none => rfl
  | some f =>
    simp only [with_time_base, Sweep]
    split_ifs <;> rfl

/-- `PushAudio` leaves the video queue and the cached frame alone, also when it faults. -/
theorem PushAudio_keeps_video (PtsToTime : Int → AVRational → Int)
    (self : SynchronizingBuffer) (frame : Option AVFrame) :
    match self.PushAudio PtsToTime frame with
    | .ok next => next.video_queue_ = self.video_queue_ ∧ next.last_video_ = self.last_video_
    | .error (_, at_fault) =>
      at_fault.video_queue_ = self.video_queue_ ∧ at_fault.last_video_ = self.last_video_ := by
  unfold PushAudio
  cases frame with
  | none => exact ⟨rfl, rfl⟩
  | some f =>
    simp only [Sweep]
    split_ifs <;> exact ⟨rfl, rfl⟩

/-- With nothing queued, `Ready()` does not read the recorded time base. -/
theorem Ready_with_time_base (self : SynchronizingBuffer) (recorded : AVRational)
    (hq : self.video_queue_ = []) :
    (self.with_time_base recorded).Ready = self.Ready := by
  unfold Ready
  simp [with_time_base, hq]

/-- One call, other than `PullSync`, on two objects that differ in the recorded time base only
and have no frame queued or cached: both variants return the same result, or fault alike, and
the successors are the same or again differ in the recorded time base only, with nothing queued
or cached. -/
theorem operate_until_first_video (PtsToTime : Int → AVRational → Int)
    (a : SynchronizingBuffer) (recorded : AVRational) (op : Operation)
    (hq : a.video_queue_ = []) (hl : a.last_video_ = none)
    (hop : ∀ n, op ≠ Operation.PullSync n) :
    (∃ result next_a next_b,
      operate Variant.plain PtsToTime a op = .ok (result, next_a) ∧
      operate Variant.pimpl PtsToTime (a.with_time_base recorded) op = .ok (result, next_b) ∧
      same_until_first_video next_a next_b) ∨
    (∃ fault next_a next_b,
      operate Variant.plain PtsToTime a op = .error (fault, next_a) ∧
      operate Variant.pimpl PtsToTime (a.with_time_base recorded) op =
        .error (fault, next_b) ∧
      same_until_first_video next_a next_b) := by
  have hsame : same_until_first_video a (a.with_time_base recorded) :=
    Or.inr ⟨⟨recorded, rfl⟩, hq, hl⟩
  cases op with
  | PullSync n => exact absurd rfl (hop n)
  | PushVideo frame time_base =>
    cases frame with
    | none => exact Or.inl ⟨_, a, a.with_time_base recorded, rfl, rfl, hsame⟩
    | some f =>
      simp only [operate, PushVideo_with_time_base]
      cases h : a.PushVideo (some f) time_base with
      | ok next => exact Or.inl ⟨_, next, next, rfl, rfl, Or.inl rfl⟩
      | error e =>
        obtain ⟨fault, at_fault⟩ := e
        exact Or.inr ⟨fault, at_fault, at_fault, rfl, rfl, Or.inl rfl⟩
  | PushAudio frame =>
    have h1 := PushAudio_with_time_base PtsToTime a recorded frame
    have h2 := PushAudio_keeps_video PtsToTime a frame
    simp only [operate]
    cases h : a.PushAudio PtsToTime frame with
    | ok next =>
      rw [h] at h1 h2
      simp only at h1 h2
      rw [h1]
      exact Or.inl ⟨_, next, next.with_time_base recorded, rfl, rfl,
        Or.inr ⟨⟨recorded, rfl⟩, by rw [h2.1, hq], by rw [h2.2, hl]⟩⟩
    | error e =>
      obtain ⟨fault, at_fault⟩ := e
      rw [h] at h1 h2
      simp only at h1 h2
      rw [h1]
      exact Or.inr ⟨fault, at_fault, at_fault.with_time_base recorded, rfl, rfl,
        Or.inr ⟨⟨recorded, rfl⟩, by rw [h2.1, hq], by rw [h2.2, hl]⟩⟩
  | Ready =>
    refine Or.inl ⟨_, a, a.with_time_base recorded, rfl, ?_, hsame⟩
    simp only [operate, Ready_with_time_base a recorded hq]
  | Full => exact Or.inl ⟨_, a, a.with_time_base recorded, rfl, rfl, hsame⟩
  | IsEof => exact Or.inl ⟨_, a, a.with_time_base recorded, rfl, rfl, hsame⟩
  | Seek time =>
    exact Or.inl ⟨_, a.Seek time, (a.with_time_base recorded).Seek time, rfl, rfl,
      Or.inr ⟨⟨recorded, rfl⟩, rfl, rfl⟩⟩
  | Flush =>
    exact Or.inl ⟨_, a.Flush, (a.with_time_base recorded).Flush, rfl, rfl,
      Or.inr ⟨⟨recorded, rfl⟩, hq, hl⟩⟩
  | SetIsPlaying is_playing =>
    exact Or.inl ⟨_, a.SetIsPlaying is_playing,
      (a.with_time_base recorded).SetIsPlaying is_playing, rfl, rfl,
      Or.inr ⟨⟨recorded, rfl⟩, hq, hl⟩⟩

/-- A run in which every `PullSync` has a frame queued or cached, made by the plain class on one
object and by the pimpl class on another that is the same until the first video frame: the same
results, the same fault if any, and final objects that are again the same until the first video
frame. -/
theorem operations_until_first_video (PtsToTime : Int → AVRational → Int)
    (ops : List Operation) :
    ∀ a b : SynchronizingBuffer, same_until_first_video a b →
      pulls_have_video Variant.plain PtsToTime a ops →
      (operations Variant.plain PtsToTime a ops).results =
          (operations Variant.pimpl PtsToTime b ops).results ∧
        (operations Variant.plain PtsToTime a ops).fault =
          (operations Variant.pimpl PtsToTime b ops).fault ∧
        same_until_first_video (operations Variant.plain PtsToTime a ops).state
          (operations Variant.pimpl PtsToTime b ops).state := by
  induction ops with
  | nil => intro a b hab _; exact ⟨rfl, rfl, hab⟩
  | cons op rest ih =>
    intro a b hab hpulls
    rcases hab with hab | ⟨⟨recorded, hb⟩, hq, hl⟩
    · rw [hab, ← operations_variants_agree PtsToTime (op :: rest) a hpulls]
      exact ⟨rfl, rfl, Or.inl rfl⟩
    · simp only [pulls_have_video] at hpulls
      obtain ⟨h1, h2⟩ := hpulls
      have hop : ∀ n, op ≠ Operation.PullSync n := by
        intro n hn
        rw [hn] at h1
        exact h1 ⟨hq, hl⟩
      rw [hb]
      rcases operate_until_first_video PtsToTime a recorded op hq hl hop with
        ⟨result, next_a, next_b, ha, hb2, hnext⟩ | ⟨fault, next_a, next_b, ha, hb2, hnext⟩
      · rw [ha] at h2
        obtain ⟨i1, i2, i3⟩ := ih next_a next_b hnext h2
        simp only [operations, ha, hb2]
        exact ⟨by rw [i1], i2, i3⟩
      · simp only [operations, ha, hb2]
        exact ⟨trivial, trivial, hnext⟩

/-- For a channel at 48000 Hz with a non-negative channel count the two constructors, given the
same arguments, make objects that agree in every member they initialise. -/
theorem implementation_create_eq (channel : Core.Channel) (is_playing : Bool)
    (duration initial_sync : Int) (plain_time_base pimpl_time_base : AVRational)
    (h_rate : channel.AudioSampleRate = 48000) (h_channels : 0 ≤ channel.AudioChannelsCount) :
    implementation.create channel.Format channel.AudioChannelsCount channel.AudioSampleFormat
        is_playing duration initial_sync pimpl_time_base =
      (create channel is_playing duration initial_sync plain_time_base).with_time_base
        pimpl_time_base := by
  have h : decide (channel.AudioChannelsCount ≠ 0) = decide (channel.AudioChannelsCount > 0) :=
    decide_eq_decide.mpr ⟨fun h => by omega, fun h => by omega⟩
  simp only [implementation.create, create, with_time_base, h_rate, h]

/-- C20: construct the plain class on a channel at 48000 Hz with a non-negative channel count and
the pimpl class with the same format, channel count, sample format, play state, duration and
initial sync; `input_video_time_base_`, which neither constructor initialises, starts with any
value in each. For every sequence of `PushVideo`, `PushAudio`, `PullSync`, `Ready`, `Full`,
`Seek`, `Flush`, `SetIsPlaying` and `IsEof` in which no `PullSync` is issued while the video
queue is empty and no last frame is cached, both runs give the same results, stop at the same
fault if at any, and end in the same state, except that `input_video_time_base_` may still
differ while no frame is queued or cached; with the same uninitialised value the two runs are
identical. -/
theorem C20_implementations_observationally_equivalent (PtsToTime : Int → AVRational → Int)
    (channel : Core.Channel) (is_playing : Bool) (duration initial_sync : Int)
    (plain_time_base pimpl_time_base : AVRational) (ops : List Operation)
    (h_rate : channel.AudioSampleRate = 48000) (h_channels : 0 ≤ channel.AudioChannelsCount)
    (h_pulls : pulls_have_video Variant.plain PtsToTime
      (create channel is_playing duration initial_sync plain_time_base) ops) :
    (operations Variant.plain PtsToTime
        (create channel is_playing duration initial_sync plain_time_base) ops).results =
      (operations Variant.pimpl PtsToTime
        (implementation.create channel.Format channel.AudioChannelsCount
          channel.AudioSampleFormat is_playing duration initial_sync pimpl_time_base)
        ops).results ∧
    (operations Variant.plain PtsToTime
        (create channel is_playing duration initial_sync plain_time_base) ops).fault =
      (operations Variant.pimpl PtsToTime
        (implementation.create channel.Format channel.AudioChannelsCount
          channel.AudioSampleFormat is_playing duration initial_sync pimpl_time_base)
        ops).fault ∧
    same_until_first_video
      (operations Variant.plain PtsToTime
        (create channel is_playing duration initial_sync plain_time_base) ops).state
      (operations Variant.pimpl PtsToTime
        (implementation.create channel.Format channel.AudioChannelsCount
          channel.AudioSampleFormat is_playing duration initial_sync pimpl_time_base)
        ops).state ∧
    (plain_time_base = pimpl_time_base →
      operations Variant.plain PtsToTime
          (create channel is_playing duration initial_sync plain_time_base) ops =
        operations Variant.pimpl PtsToTime
          (implementation.create channel.Format channel.AudioChannelsCount
            channel.AudioSampleFormat is_playing duration initial_sync pimpl_time_base)
          ops) := by
  have hcreate := implementation_create_eq channel is_playing duration initial_sync
    plain_time_base pimpl_time_base h_rate h_channels
  have hstart : same_until_first_video
      (create channel is_playing duration initial_sync plain_time_base)
      (implementation.create channel.Format channel.AudioChannelsCount
        channel.AudioSampleFormat is_playing duration initial_sync pimpl_time_base) :=
    Or.inr ⟨⟨pimpl_time_base, hcreate⟩, rfl, rfl⟩
  obtain ⟨h1, h2, h3⟩ := operations_until_first_video PtsToTime ops _ _ hstart h_pulls
  refine ⟨h1, h2, h3, ?_⟩
  intro heq
  rw [hcreate, ← heq]
  exact operations_variants_agree PtsToTime ops _ h_pulls

/-- C20, witness: thirteen calls on the channel of the examples, every member function of the
claim among them, the two objects starting with different uninitialised time bases. -/
theorem C20_implementations_observationally_equivalent_witness :
    (operations Variant.plain pts_to_microseconds
        (create (example_channel 2) true 1000000 0 ⟨0, 1⟩)
        [Operation.PushAudio (some (audio_frame 0 3)), Operation.Ready,
          Operation.PushVideo (some (video_frame 0)) ⟨1, 25⟩, Operation.Ready, Operation.Full,
          Operation.PullSync 2, Operation.SetIsPlaying false, Operation.PullSync 2,
          Operation.IsEof, Operation.Flush, Operation.IsEof, Operation.Seek 0,
          Operation.Full]).results =
      (operations Variant.pimpl pts_to_microseconds
        (implementation.create (example_channel 2).Format (example_channel 2).AudioChannelsCount
          (example_channel 2).AudioSampleFormat true 1000000 0 ⟨1, 1⟩)
        [Operation.PushAudio (some (audio_frame 0 3)), Operation.Ready,
          Operation.PushVideo (some (video_frame 0)) ⟨1, 25⟩, Operation.Ready, Operation.Full,
          Operation.PullSync 2, Operation.SetIsPlaying false, Operation.PullSync 2,
          Operation.IsEof, Operation.Flush, Operation.IsEof, Operation.Seek 0,
          Operation.Full]).results ∧
    (operations Variant.plain pts_to_microseconds
        (create (example_channel 2) true 1000000 0 ⟨0, 1⟩)
        [Operation.PushAudio (some (audio_frame 0 3)), Operation.Ready,
          Operation.PushVideo (some (video_frame 0)) ⟨1, 25⟩, Operation.Ready, Operation.Full,
          Operation.PullSync 2, Operation.SetIsPlaying false, Operation.PullSync 2,
          Operation.IsEof, Operation.Flush, Operation.IsEof, Operation.Seek 0,
          Operation.Full]).fault =
      (operations Variant.pimpl pts_to_microseconds
        (implementation.create (example_channel 2).Format (example_channel 2).AudioChannelsCount
          (example_channel 2).AudioSampleFormat true 1000000 0 ⟨1, 1⟩)
        [Operation.PushAudio (some (audio_frame 0 3)), Operation.Ready,
          Operation.PushVideo (some (video_frame 0)) ⟨1, 25⟩, Operation.Ready, Operation.Full,
          Operation.PullSync 2, Operation.SetIsPlaying false, Operation.PullSync 2,
          Operation.IsEof, Operation.Flush, Operation.IsEof, Operation.Seek 0,
          Operation.Full]).fault ∧
    same_until_first_video
      (operations Variant.plain pts_to_microseconds
        (create (example_channel 2) true 1000000 0 ⟨0, 1⟩)
        [Operation.PushAudio (some (audio_frame 0 3)), Operation.Ready,
          Operation.PushVideo (some (video_frame 0)) ⟨1, 25⟩, Operation.Ready, Operation.Full,
          Operation.PullSync 2, Operation.SetIsPlaying false, Operation.PullSync 2,
          Operation.IsEof, Operation.Flush, Operation.IsEof, Operation.Seek 0,
          Operation.Full]).state
      (operations Variant.pimpl pts_to_microseconds
        (implementation.create (example_channel 2).Format (example_channel 2).AudioChannelsCount
          (example_channel 2).AudioSampleFormat true 1000000 0 ⟨1, 1⟩)
        [Operation.PushAudio (some (audio_frame 0 3)), Operation.Ready,
          Operation.PushVideo (some (video_frame 0)) ⟨1, 25⟩, Operation.Ready, Operation.Full,
          Operation.PullSync 2, Operation.SetIsPlaying false, Operation.PullSync 2,
          Operation.IsEof, Operation.Flush, Operation.IsEof, Operation.Seek 0,
          Operation.Full]).state ∧
    ((⟨0, 1⟩ : AVRational) = ⟨1, 1⟩ →
      operations Variant.plain pts_to_microseconds
          (create (example_channel 2) true 1000000 0 ⟨0, 1⟩)
          [Operation.PushAudio (some (audio_frame 0 3)), Operation.Ready,
            Operation.PushVideo (some (video_frame 0)) ⟨1, 25⟩, Operation.Ready,
            Operation.Full, Operation.PullSync 2, Operation.SetIsPlaying false,
            Operation.PullSync 2, Operation.IsEof, Operation.Flush, Operation.IsEof,
            Operation.Seek 0, Operation.Full] =
        operations Variant.pimpl pts_to_microseconds
          (implementation.create (example_channel 2).Format
            (example_channel 2).AudioChannelsCount (example_channel 2).AudioSampleFormat true
            1000000 0 ⟨1, 1⟩)
          [Operation.PushAudio (some (audio_frame 0 3)), Operation.Ready,
            Operation.PushVideo (some (video_frame 0)) ⟨1, 25⟩, Operation.Ready,
            Operation.Full, Operation.PullSync 2, Operation.SetIsPlaying false,
            Operation.PullSync 2, Operation.IsEof, Operation.Flush, Operation.IsEof,
            Operation.Seek 0, Operation.Full]) :=
  C20_implementations_observationally_equivalent pts_to_microseconds (example_channel 2) true
    1000000 0 ⟨0, 1⟩ ⟨1, 1⟩ _ rfl (by decide)
    ⟨trivial, trivial, trivial, trivial, trivial, by decide, trivial, by decide, trivial,
      trivial, trivial, trivial, trivial, trivial⟩

/-- The run of the example, evaluated: the results both variants give. -/
theorem operations_evaluated :
    (operations Variant.pimpl pts_to_microseconds
        (implementation.create (example_channel 2).Format (example_channel 2).AudioChannelsCount
          (example_channel 2).AudioSampleFormat true 1000000 0 ⟨1, 1⟩)
        [Operation.PushAudio (some (audio_frame 0 3)), Operation.Ready,
          Operation.PushVideo (some (video_frame 0)) ⟨1, 25⟩, Operation.Ready, Operation.Full,
          Operation.IsEof, Operation.Flush, Operation.IsEof]).results =
      [Observation.nothing, Observation.answer false, Observation.nothing,
        Observation.answer false, Observation.answer false, Observation.answer false,
        Observation.nothing, Observation.answer false] ∧
    (operations Variant.pimpl pts_to_microseconds
        (implementation.create (example_channel 2).Format (example_channel 2).AudioChannelsCount
          (example_channel 2).AudioSampleFormat true 1000000 0 ⟨1, 1⟩)
        [Operation.PullSync 2]).fault = some Fault.null_dereference ∧
    (operations Variant.plain pts_to_microseconds
        (create (example_channel 2) true 1000000 0 ⟨0, 1⟩)
        [Operation.PullSync 2]).fault = none := by
  refine ⟨by decide, by decide, by decide⟩

end SynchronizingBuffer
end FFmpeg
end TVPlayR

/-! ### The NDI tick, C21 -/

namespace TVPlayR
namespace Ndi
namespace NdiOutput
namespace implementation

open FFmpeg

/-- C21, counterexample: a running output with no pending unit and no frame-requested callback
set. `Tick` returns and sends silence, but issues no frame request. And with a pending unit whose
audio block is absent, `Tick` dereferences the null pointer and sends nothing. -/
theorem C21_tick_without_callback_requests_nothing :
    output_without_callback.is_running_ = true ∧
    output_without_callback.buffer_frame_ = none ∧
    (∃ sent next, output_without_callback.Tick = .ok (sent, next) ∧
      sent.requested = none ∧ sent.audio.nb_samples = 1920) ∧
    (example_output ⟨25, 1⟩).is_running_ = true ∧
    ∃ at_fault, ((example_output ⟨25, 1⟩).Push unit_without_audio).Tick =
      .error (Fault.null_dereference, at_fault) :=
  ⟨rfl, rfl, ⟨_, _, rfl, rfl, rfl⟩, rfl, _, rfl⟩

/-- C21: for every running output state. With no pending unit, `Tick` returns and sends the video
frame and the time it holds from the last unit it sent (`last_video_`, `last_video_time_`)
together with a silent two-channel block of exactly `AudioSamplesRequired()` samples, adds 1 to
`video_frames_pushed_` and that sample count to `audio_samples_pushed_`, keeps the frame and the
time, and issues one frame request, with the new `AudioSamplesRequired()`, when a
frame-requested callback is set and none otherwise. With a pending unit whose audio block is
present, `Tick` sends that unit's video, audio and time, empties the pending slot, and counts
and requests in the same way. After any `Tick` that returned, a `Tick` with nothing pushed in
between sends the same video and time again. -/
theorem C21_tick_sends_pending_or_repeats (self : implementation)
    (h_running : self.is_running_ = true) :
    (self.buffer_frame_ = none →
      ∃ sent next, self.Tick = .ok (sent, next) ∧
        sent.video = self.last_video_ ∧ sent.time = self.last_video_time_ ∧
        sent.audio.nb_samples = self.AudioSamplesRequired ∧
        sent.audio.data = silence self.AudioSamplesRequired audio_channels_count_ ∧
        next.video_frames_pushed_ = self.video_frames_pushed_ + 1 ∧
        next.audio_samples_pushed_ = self.audio_samples_pushed_ + self.AudioSamplesRequired ∧
        sent.requested =
          (if self.frame_requested_callback_ then some next.AudioSamplesRequired else none) ∧
        next.buffer_frame_ = none ∧
        next.last_video_ = self.last_video_ ∧
        next.last_video_time_ = self.last_video_time_ ∧
        next.is_running_ = true) ∧
    (∀ unit audio, self.buffer_frame_ = some unit → unit.Audio = some audio →
      ∃ sent next, self.Tick = .ok (sent, next) ∧
        sent.video = unit.Video ∧ sent.audio = audio ∧ sent.time = unit.Time ∧
        next.buffer_frame_ = none ∧
        next.video_frames_pushed_ = self.video_frames_pushed_ + 1 ∧
        next.audio_samples_pushed_ = self.audio_samples_pushed_ + audio.nb_samples ∧
        sent.requested =
          (if self.frame_requested_callback_ then some next.AudioSamplesRequired else none) ∧
        next.last_video_ = unit.Video ∧
        next.last_video_time_ = unit.Time ∧
        next.is_running_ = true) ∧
    (∀ sent next, self.Tick = .ok (sent, next) →
      ∃ again after, next.Tick = .ok (again, after) ∧
        again.video = sent.video ∧ again.time = sent.time) := by
  have hsilent : ∀ s : implementation, s.buffer_frame_ = none →
      ∃ sent next, s.Tick = .ok (sent, next) ∧
        sent.video = s.last_video_ ∧ sent.time = s.last_video_time_ ∧
        sent.audio.nb_samples = s.AudioSamplesRequired ∧
        sent.audio.data = silence s.AudioSamplesRequired audio_channels_count_ ∧
        next.video_frames_pushed_ = s.video_frames_pushed_ + 1 ∧
        next.audio_samples_pushed_ = s.audio_samples_pushed_ + s.AudioSamplesRequired ∧
        sent.requested =
          (if s.frame_requested_callback_ then some next.AudioSamplesRequired else none) ∧
        next.buffer_frame_ = none ∧
        next.last_video_ = s.last_video_ ∧
        next.last_video_time_ = s.last_video_time_ ∧
        next.is_running_ = s.is_running_ := by
    intro s hb
    obtain ⟨audio, h1, _, h3, h4⟩ := Tick_silent s hb
    exact ⟨_, _, h4, rfl, rfl, h1, h3, rfl, rfl, rfl, hb, rfl, rfl, rfl⟩
  refine ⟨?_, ?_, ?_⟩
  · intro hb
    obtain ⟨sent, next, k⟩ := hsilent self hb
    exact ⟨sent, next, k.1, k.2.1, k.2.2.1, k.2.2.2.1, k.2.2.2.2.1, k.2.2.2.2.2.1,
      k.2.2.2.2.2.2.1, k.2.2.2.2.2.2.2.1, k.2.2.2.2.2.2.2.2.1, k.2.2.2.2.2.2.2.2.2.1,
      k.2.2.2.2.2.2.2.2.2.2.1, by rw [k.2.2.2.2.2.2.2.2.2.2.2, h_running]⟩
  · intro unit audio hb ha
    exact ⟨_, _, Tick_pending self unit audio hb ha, rfl, rfl, rfl, rfl, rfl, rfl, rfl, rfl,
      rfl, h_running⟩
  · intro sent next h
    have hnext : next.buffer_frame_ = none ∧ next.last_video_ = sent.video ∧
        next.last_video_time_ = sent.time := by
      cases hb : self.buffer_frame_ with
      | none =>
        obtain ⟨audio, _, _, _, h4⟩ := Tick_silent self hb
        rw [h4] at h
        simp only [Except.ok.injEq, Prod.mk.injEq] at h
        obtain ⟨hs, hn⟩ := h
        rw [← hs, ← hn]
        exact ⟨hb, rfl, rfl⟩
      | some unit =>
        cases ha : unit.Audio with
        | none =>
          simp [Tick, hb, ha] at h
        | some audio =>
          rw [Tick_pending self unit audio hb ha] at h
          simp only [Except.ok.injEq, Prod.mk.injEq] at h
          obtain ⟨hs, hn⟩ := h
          rw [← hs, ← hn]
          exact ⟨rfl, rfl, rfl⟩
    obtain ⟨again, after, k⟩ := hsilent next hnext.1
    exact ⟨again, after, k.1, by rw [k.2.1, hnext.2.1], by rw [k.2.2.1, hnext.2.2]⟩

/-- C21, witness: the output of the examples at 25 frames a second, with a unit pushed. -/
theorem C21_tick_sends_pending_or_repeats_witness :
    (((example_output ⟨25, 1⟩).Push example_unit).buffer_frame_ = none →
      ∃ sent next, ((example_output ⟨25, 1⟩).Push example_unit).Tick = .ok (sent, next) ∧
        sent.video = ((example_output ⟨25, 1⟩).Push example_unit).last_video_ ∧
        sent.time = ((example_output ⟨25, 1⟩).Push example_unit).last_video_time_ ∧
        sent.audio.nb_samples =
          ((example_output ⟨25, 1⟩).Push example_unit).AudioSamplesRequired ∧
        sent.audio.data =
          silence ((example_output ⟨25, 1⟩).Push example_unit).AudioSamplesRequired
            audio_channels_count_ ∧
        next.video_frames_pushed_ =
          ((example_output ⟨25, 1⟩).Push example_unit).video_frames_pushed_ + 1 ∧
        next.audio_samples_pushed_ =
          ((example_output ⟨25, 1⟩).Push example_unit).audio_samples_pushed_ +
            ((example_output ⟨25, 1⟩).Push example_unit).AudioSamplesRequired ∧
        sent.requested =
          (if ((example_output ⟨25, 1⟩).Push example_unit).frame_requested_callback_ then
            some next.AudioSamplesRequired
          else none) ∧
        next.buffer_frame_ = none ∧
        next.last_video_ = ((example_output ⟨25, 1⟩).Push example_unit).last_video_ ∧
        next.last_video_time_ =
          ((example_output ⟨25, 1⟩).Push example_unit).last_video_time_ ∧
        next.is_running_ = true) ∧
    (∀ unit audio, ((example_output ⟨25, 1⟩).Push example_unit).buffer_frame_ = some unit →
      unit.Audio = some audio →
      ∃ sent next, ((example_output ⟨25, 1⟩).Push example_unit).Tick = .ok (sent, next) ∧
        sent.video = unit.Video ∧ sent.audio = audio ∧ sent.time = unit.Time ∧
        next.buffer_frame_ = none ∧
        next.video_frames_pushed_ =
          ((example_output ⟨25, 1⟩).Push example_unit).video_frames_pushed_ + 1 ∧
        next.audio_samples_pushed_ =
          ((example_output ⟨25, 1⟩).Push example_unit).audio_samples_pushed_ +
            audio.nb_samples ∧
        sent.requested =
          (if ((example_output ⟨25, 1⟩).Push example_unit).frame_requested_callback_ then
            some next.AudioSamplesRequired
          else none) ∧
        next.last_video_ = unit.Video ∧
        next.last_video_time_ = unit.Time ∧
        next.is_running_ = true) ∧
    (∀ sent next, ((example_output ⟨25, 1⟩).Push example_unit).Tick = .ok (sent, next) →
      ∃ again after, next.Tick = .ok (again, after) ∧
        again.video = sent.video ∧ again.time = sent.time) :=
  C21_tick_sends_pending_or_repeats ((example_output ⟨25, 1⟩).Push example_unit) rfl

/-- The ticks of the example, evaluated: the pushed unit goes out with a request for 1920 more
samples, and the next tick, with nothing pushed, repeats its video and time over 1920 samples of
silence. -/
theorem NdiOutput_ticks_evaluated :
    (match ticks (example_output ⟨25, 1⟩) [some example_unit, none] with
      | .ok (sents, _) =>
        sents.map fun sent => (sent.requested, sent.video, sent.time, sent.audio.nb_samples)
      | .error _ => []) =
      [(some 1920, some (SynchronizingBuffer.video_frame 1), 40000, 1920),
        (some 1920, some (SynchronizingBuffer.video_frame 1), 40000, 1920)] := by
  rfl

end implementation
end NdiOutput
end Ndi
end TVPlayR

/-! ### The recorded time base and the paused pull, C22 and C23 -/

namespace TVPlayR
namespace FFmpeg
namespace SynchronizingBuffer

/-- The video step of `PullSync` while playing with a frame queued: the front frame is cached and
popped, and nothing else changes. -/
theorem pull_video_playing (self : SynchronizingBuffer) (g : AVFrame) (rest : List AVFrame)
    (hp : self.is_playing_ = true) (hq : self.video_queue_ = g :: rest) :
    pull_video self = { self with last_video_ := some g, video_queue_ := rest } := by
  unfold pull_video
  simp [hp, hq]

/-- A `PullSync` that returned while playing with a frame queued, in either variant: the unit
carries the front frame, converted with the recorded time base, and the frame is popped. -/
theorem PullSyncOf_returned_front (variant : Variant) (PtsToTime : Int → AVRational → Int)
    (self next : SynchronizingBuffer) (n : Int) (unit : AVSync) (g : AVFrame)
    (rest : List AVFrame) (hp : self.is_playing_ = true) (hq : self.video_queue_ = g :: rest)
    (h : PullSyncOf variant PtsToTime self n = .ok (unit, next)) :
    unit.Video = some g ∧ unit.Time = PtsToTime g.pts self.input_video_time_base_ ∧
      next.video_queue_ = rest ∧ next.last_video_ = some g := by
  obtain ⟨audio, fifo, ha, _⟩ := PullSyncOf_form variant PtsToTime self next n unit h
  have hv := pull_video_playing { self with fifo_ := fifo } g rest hp hq
  have hl : (pull_video { self with fifo_ := fifo }).last_video_ = some g := by rw [hv]
  cases variant
  · rw [show PullSyncOf Variant.plain PtsToTime self n = PullSync PtsToTime self n from rfl,
      PullSync_of_audio PtsToTime self n audio fifo ha] at h
    simp only [Except.ok.injEq, Prod.mk.injEq] at h
    obtain ⟨hu, hn⟩ := h
    rw [← hu, ← hn, hv]
    exact ⟨rfl, rfl, rfl, rfl⟩
  · rw [show PullSyncOf Variant.pimpl PtsToTime self n =
        implementation.PullSync PtsToTime self n from rfl,
      implementation_PullSync_of_audio PtsToTime self n audio g fifo ha hl] at h
    simp only [Except.ok.injEq, Prod.mk.injEq] at h
    obtain ⟨hu, hn⟩ := h
    rw [← hu, ← hn, hv]
    exact ⟨rfl, rfl, rfl, rfl⟩

/-- A `PushVideo` of a non-null frame that returned: the object was not flushed, the frame is at
the back of the queue (alone, if the queue was longer than the limit), the time base passed is
recorded, and the play state is as before. -/
theorem PushVideo_returned (self next : SynchronizingBuffer) (f : AVFrame)
    (time_base : AVRational) (h : self.PushVideo (some f) time_base = .ok next) :
    self.is_flushed_ = false ∧
      next.video_queue_ =
        (if self.video_queue_.length > self.video_queue_limit then [] else self.video_queue_)
          ++ [f] ∧
      next.input_video_time_base_ = time_base ∧
      next.is_playing_ = self.is_playing_ ∧
      next.video_frame_rate_ = self.video_frame_rate_ := by
  cases hf : self.is_flushed_ with
  | true =>
    unfold PushVideo at h
    simp [have_video_, hf] at h
  | false =>
    obtain ⟨n1, k1, k2, k3, _, k5⟩ := PushVideo_unflushed self f time_base hf
    obtain ⟨n2, j1, j2, _⟩ := PushVideo_unflushed_frame self f time_base hf
    rw [k1] at h j1
    simp only [Except.ok.injEq] at h j1
    subst h
    subst j1
    exact ⟨rfl, k2, k3, j2, k5⟩

/-- With the channel count within the assertion or a ring buffer at hand, two pushes into a buffer
that is not flushed and a `PullSync` while playing all return, in either variant. -/
theorem push_push_pull_returns (variant : Variant) (PtsToTime : Int → AVRational → Int)
    (self : SynchronizingBuffer) (f1 f2 : AVFrame) (tb1 tb2 : AVRational) (n : Int)
    (h_unflushed : self.is_flushed_ = false) (h_playing : self.is_playing_ = true)
    (h_audio : self.fifo_.isSome = true ∨ self.audio_channel_count_ ≤ 63) :
    ∃ s1 s2 unit next, self.PushVideo (some f1) tb1 = .ok s1 ∧
      s1.PushVideo (some f2) tb2 = .ok s2 ∧
      PullSyncOf variant PtsToTime s2 n = .ok (unit, next) := by
  obtain ⟨s1, a1, a2, a3, a4, _, a6⟩ := PushVideo_unflushed_frame self f1 tb1 h_unflushed
  obtain ⟨s2, b1, b2, b3, b4, _, _⟩ := PushVideo_unflushed_frame s1 f2 tb2 a6
  obtain ⟨_, b5, _⟩ := PushVideo_returned s1 s2 f2 tb2 b1
  have hq : s2.video_queue_ ≠ [] := by rw [b5]; simp
  obtain ⟨g, rest, hg⟩ := List.exists_cons_of_ne_nil hq
  obtain ⟨unit, next, hpull, _⟩ := PullSyncOf_playing_front variant PtsToTime s2 n g rest
    (by rw [b2, a2, h_playing]) hg (by rw [b3, a3, b4, a4]; exact h_audio)
  exact ⟨s1, s2, unit, next, a1, b1, hpull⟩

/-- C22: `PullSync` converts the delivered frame's `pts` with the time base passed to the most
recent `PushVideo` of a non-null frame. Whenever frames `f1` (with time base `tb1`) and then `f2`
(with `tb2`) are pushed and a `PullSync` while playing then returns a unit, in either variant,
the recorded time base is `tb2` and the unit carries the front frame of the queue with its `pts`
converted through `tb2`; when the queue was empty before the pushes (and the overflow limit
`num * 10 / den` is not zero) that frame is `f1`, and the time is `PtsToTime(f1.pts, tb2)`. -/
theorem C22_pull_sync_converts_with_latest_time_base (variant : Variant)
    (PtsToTime : Int → AVRational → Int) (self s1 s2 next : SynchronizingBuffer)
    (f1 f2 : AVFrame) (tb1 tb2 : AVRational) (n : Int) (unit : AVSync)
    (h_push1 : self.PushVideo (some f1) tb1 = .ok s1)
    (h_push2 : s1.PushVideo (some f2) tb2 = .ok s2)
    (h_playing : self.is_playing_ = true)
    (h_pull : PullSyncOf variant PtsToTime s2 n = .ok (unit, next)) :
    s1.input_video_time_base_ = tb1 ∧ s2.input_video_time_base_ = tb2 ∧
    (∃ delivered, s2.video_queue_.head? = some delivered ∧ unit.Video = some delivered ∧
      unit.Time = PtsToTime delivered.pts tb2) ∧
    (self.video_queue_ = [] → 0 < self.video_queue_limit →
      unit.Video = some f1 ∧ unit.Time = PtsToTime f1.pts tb2) := by
  obtain ⟨_, a2, a3, a4, a5⟩ := PushVideo_returned self s1 f1 tb1 h_push1
  obtain ⟨_, b2, b3, b4, b5⟩ := PushVideo_returned s1 s2 f2 tb2 h_push2
  have hp : s2.is_playing_ = true := by rw [b4, a4, h_playing]
  have hq : s2.video_queue_ ≠ [] := by rw [b2]; simp
  obtain ⟨g, rest, hg⟩ := List.exists_cons_of_ne_nil hq
  obtain ⟨k1, k2, _, _⟩ := PullSyncOf_returned_front variant PtsToTime s2 next n unit g rest hp
    hg h_pull
  rw [b3] at k2
  refine ⟨a3, b3, ⟨g, by rw [hg]; rfl, k1, k2⟩, ?_⟩
  intro hempty hlimit
  have h1 : s1.video_queue_ = [f1] := by
    rw [a2, hempty]; simp
  have hl : s1.video_queue_limit = self.video_queue_limit := video_queue_limit_congr a5
  have h2 : s2.video_queue_ = [f1, f2] := by
    rw [b2, h1, hl, if_neg (by simp only [List.length_singleton]; omega)]
    rfl
  rw [h2] at hg
  have hgf : g = f1 := by
    simp only [List.cons.injEq] at hg
    exact hg.1.symm
  rw [hgf] at k1 k2
  exact ⟨k1, k2⟩

/-- C22, witness: a frame stamped 1 in the time base 1/25 (40 ms) and a frame stamped 80 in the
time base 1/1000 are pushed into the empty buffer of the examples; the first unit pulled carries
the first frame with the time 1000 microseconds, its `pts` read in the time base 1/1000. -/
theorem C22_pull_sync_converts_with_latest_time_base_witness :
    ∃ s1 s2 unit next,
      (example_buffer 2 true).PushVideo (some (video_frame 1)) ⟨1, 25⟩ = .ok s1 ∧
      s1.PushVideo (some (video_frame 80)) ⟨1, 1000⟩ = .ok s2 ∧
      PullSyncOf Variant.pimpl pts_to_microseconds s2 1920 = .ok (unit, next) ∧
      unit.Video = some (video_frame 1) ∧ unit.Time = 1000 ∧
      pts_to_microseconds (video_frame 1).pts ⟨1, 25⟩ = 40000 ∧
      (s1.input_video_time_base_ = ⟨1, 25⟩ ∧ s2.input_video_time_base_ = ⟨1, 1000⟩ ∧
        (∃ delivered, s2.video_queue_.head? = some delivered ∧ unit.Video = some delivered ∧
          unit.Time = pts_to_microseconds delivered.pts ⟨1, 1000⟩) ∧
        ((example_buffer 2 true).video_queue_ = [] →
          0 < (example_buffer 2 true).video_queue_limit →
          unit.Video = some (video_frame 1) ∧
            unit.Time = pts_to_microseconds (video_frame 1).pts ⟨1, 1000⟩)) :=
  ⟨_, _, _, _, rfl, rfl, rfl, rfl, rfl, rfl,
    C22_pull_sync_converts_with_latest_time_base Variant.pimpl pts_to_microseconds
      (example_buffer 2 true) _ _ _ (video_frame 1) (video_frame 80) ⟨1, 25⟩ ⟨1, 1000⟩ 1920 _
      rfl rfl rfl rfl⟩

end SynchronizingBuffer
end FFmpeg
end TVPlayR

namespace TVPlayR
namespace FFmpeg
namespace SynchronizingBuffer

end SynchronizingBuffer
end FFmpeg
end TVPlayR

/-! ### The synchronization value, C24 -/

namespace TVPlayR
namespace FFmpeg
namespace SynchronizingBuffer

/-- The video step of `PullSync` neither reads nor writes `sync_`. -/
theorem pull_video_SetSynchro (self : SynchronizingBuffer) (s : Int) :
    pull_video (self.SetSynchro s) = (pull_video self).SetSynchro s := by
  unfold pull_video
  dsimp only [SetSynchro]
  split_ifs <;> rfl

/-- No call of `Operation` reads `sync_`, and none writes it: on an object with another `sync_`
the call gives the same result, or the same fault, and the object it leaves differs in `sync_`
only. -/
theorem operate_SetSynchro (variant : Variant) (PtsToTime : Int → AVRational → Int)
    (self : SynchronizingBuffer) (s : Int) (op : Operation) :
    operate variant PtsToTime (self.SetSynchro s) op =
      match operate variant PtsToTime self op with
      | .ok (result, next) => .ok (result, next.SetSynchro s)
      | .error (fault, at_fault) => .error (fault, at_fault.SetSynchro s) := by
  cases op with
  | PushVideo frame time_base =>
    cases frame with
    | none => rfl
    | some f =>
      simp only [operate, PushVideo, have_video_, SetSynchro, Sweep, video_queue_limit]
      split_ifs <;> rfl
  | PushAudio frame =>
    cases frame with
    | none => rfl
    | some f =>
      simp only [operate, PushAudio, SetSynchro, Sweep]
      split_ifs <;> rfl
  | PullSync n =>
    have ha : pull_audio (self.SetSynchro s) n = pull_audio self n := rfl
    have hv : ∀ fifo, pull_video { self.SetSynchro s with fifo_ := fifo } =
        (pull_video { self with fifo_ := fifo }).SetSynchro s :=
      fun fifo => pull_video_SetSynchro { self with fifo_ := fifo } s
    cases hp : pull_audio self n with
    | none =>
      cases variant <;>
        simp only [operate, PullSyncOf, PullSync, implementation.PullSync, ha, hp] <;> rfl
    | some pulled =>
      obtain ⟨audio, fifo⟩ := pulled
      cases variant
      · simp only [operate, PullSyncOf, PullSync, ha, hp, hv]
        rfl
      · simp only [operate, PullSyncOf, implementation.PullSync, ha, hp, hv]
        cases hl : (pull_video { self with fifo_ := fifo }).last_video_ with
        | none =>
          have hl2 : ((pull_video { self with fifo_ := fifo }).SetSynchro s).last_video_ =
              none := hl
          simp only [hl2]
          rfl
        | some video =>
          have hl2 : ((pull_video { self with fifo_ := fifo }).SetSynchro s).last_video_ =
              some video := hl
          simp only [hl2]
          rfl
  | Ready => rfl
  | Full => rfl
  | Seek time => rfl
  | Flush => rfl
  | SetIsPlaying is_playing => rfl
  | IsEof => rfl

/-- A run shows what the run of its calls other than `SetSynchro` shows on the object with
`sync_` set to 0: the same results, the same fault, and a final object that differs in `sync_`
only. -/
theorem steps_without_SetSynchro (variant : Variant) (PtsToTime : Int → AVRational → Int)
    (calls : List Step) :
    ∀ self : SynchronizingBuffer,
      (steps variant PtsToTime self calls).results =
          (steps variant PtsToTime (self.SetSynchro 0) (other_steps calls)).results ∧
        (steps variant PtsToTime self calls).fault =
          (steps variant PtsToTime (self.SetSynchro 0) (other_steps calls)).fault ∧
        (steps variant PtsToTime self calls).state.SetSynchro 0 =
          (steps variant PtsToTime (self.SetSynchro 0) (other_steps calls)).state.SetSynchro
            0 := by
  induction calls with
  | nil => intro self; exact ⟨rfl, rfl, rfl⟩
  | cons step rest ih =>
    intro self
    cases step with
    | SetSynchro time =>
      have hc : other_steps (Step.SetSynchro time :: rest) = other_steps rest := rfl
      rw [hc]
      exact ih (self.SetSynchro time)
    | IsFlushed =>
      have hc : other_steps (Step.IsFlushed :: rest) = Step.IsFlushed :: other_steps rest := rfl
      obtain ⟨h1, h2, h3⟩ := ih self
      rw [hc]
      simp only [steps]
      exact ⟨by rw [h1]; rfl, h2, h3⟩
    | operation op =>
      have hc : other_steps (Step.operation op :: rest) =
          Step.operation op :: other_steps rest := rfl
      have hop := operate_SetSynchro variant PtsToTime self 0 op
      rw [hc]
      simp only [steps]
      cases h : operate variant PtsToTime self op with
      | error e =>
        obtain ⟨fault, at_fault⟩ := e
        rw [h] at hop
        simp only [hop]
        exact ⟨trivial, trivial, rfl⟩
      | ok p =>
        obtain ⟨result, next⟩ := p
        rw [h] at hop
        obtain ⟨h1, h2, h3⟩ := ih next
        simp only [hop]
        exact ⟨by rw [h1], h2, h3⟩

/-- C24: the synchronization value is dead state. `SetSynchro` changes no member other than
`sync_`, and two buffers constructed alike but for `initial_sync` differ in `sync_` only, in both
implementations. For any two buffers that differ in `sync_` only and any two sequences of calls
that are the same once the `SetSynchro` calls are left out, both runs, in either variant, yield
identical results call by call (the `PullSync` units and the answers of `Ready`, `Full`,
`IsFlushed` and `IsEof`), stop at the same fault if at any, and end in states that differ in
`sync_` only. -/
theorem C24_sync_is_dead_state (variant : Variant) (PtsToTime : Int → AVRational → Int)
    (a b : SynchronizingBuffer) (calls_a calls_b : List Step)
    (h_same : b.SetSynchro a.sync_ = a)
    (h_calls : other_steps calls_a = other_steps calls_b) :
    (steps variant PtsToTime a calls_a).results = (steps variant PtsToTime b calls_b).results ∧
    (steps variant PtsToTime a calls_a).fault = (steps variant PtsToTime b calls_b).fault ∧
    (steps variant PtsToTime b calls_b).state.SetSynchro
        (steps variant PtsToTime a calls_a).state.sync_ =
      (steps variant PtsToTime a calls_a).state ∧
    (∀ (self : SynchronizingBuffer) (time : Int),
      self.SetSynchro time = { self with sync_ := time } ∧
      (self.SetSynchro time).SetSynchro self.sync_ = self) ∧
    (∀ (channel : Core.Channel) (is_playing : Bool) (duration sync_a sync_b : Int)
        (time_base : AVRational),
      (create channel is_playing duration sync_b time_base).SetSynchro sync_a =
        create channel is_playing duration sync_a time_base ∧
      (implementation.create channel.Format channel.AudioChannelsCount
          channel.AudioSampleFormat is_playing duration sync_b time_base).SetSynchro sync_a =
        implementation.create channel.Format channel.AudioChannelsCount
          channel.AudioSampleFormat is_playing duration sync_a time_base) := by
  obtain ⟨a1, a2, a3⟩ := steps_without_SetSynchro variant PtsToTime calls_a a
  obtain ⟨b1, b2, b3⟩ := steps_without_SetSynchro variant PtsToTime calls_b b
  have hstart : a.SetSynchro 0 = b.SetSynchro 0 := by
    rw [← h_same]; rfl
  rw [h_calls, hstart] at a1 a2 a3
  refine ⟨by rw [a1, b1], by rw [a2, b2], ?_, fun self time => ⟨rfl, rfl⟩,
    fun _ _ _ _ _ _ => ⟨rfl, rfl⟩⟩
  have h : (steps variant PtsToTime b calls_b).state.SetSynchro 0 =
      (steps variant PtsToTime a calls_a).state.SetSynchro 0 := by rw [a3, b3]
  have h2 := congrArg (fun s : SynchronizingBuffer =>
    s.SetSynchro (steps variant PtsToTime a calls_a).state.sync_) h
  exact h2

/-- C24, witness: a buffer constructed with `initial_sync` 0 and one constructed with 5000000,
the second given two `SetSynchro` calls among the same pushes, pulls and queries. -/
theorem C24_sync_is_dead_state_witness :
    (steps Variant.plain pts_to_microseconds (create (example_channel 2) true 1000000 0 ⟨0, 1⟩)
        [Step.operation (Operation.PushVideo (some (video_frame 0)) ⟨1, 25⟩),
          Step.operation Operation.Ready, Step.operation (Operation.PullSync 1920),
          Step.IsFlushed, Step.operation Operation.Flush, Step.IsFlushed,
          Step.operation Operation.IsEof, Step.operation Operation.Full]).results =
      (steps Variant.plain pts_to_microseconds
        (create (example_channel 2) true 1000000 5000000 ⟨0, 1⟩)
        [Step.SetSynchro 7, Step.operation (Operation.PushVideo (some (video_frame 0)) ⟨1, 25⟩),
          Step.operation Operation.Ready, Step.operation (Operation.PullSync 1920),
          Step.IsFlushed, Step.SetSynchro 9, Step.operation Operation.Flush, Step.IsFlushed,
          Step.operation Operation.IsEof, Step.operation Operation.Full]).results ∧
    (steps Variant.plain pts_to_microseconds (create (example_channel 2) true 1000000 0 ⟨0, 1⟩)
        [Step.operation (Operation.PushVideo (some (video_frame 0)) ⟨1, 25⟩),
          Step.operation Operation.Ready, Step.operation (Operation.PullSync 1920),
          Step.IsFlushed, Step.operation Operation.Flush, Step.IsFlushed,
          Step.operation Operation.IsEof, Step.operation Operation.Full]).fault =
      (steps Variant.plain pts_to_microseconds
        (create (example_channel 2) true 1000000 5000000 ⟨0, 1⟩)
        [Step.SetSynchro 7, Step.operation (Operation.PushVideo (some (video_frame 0)) ⟨1, 25⟩),
          Step.operation Operation.Ready, Step.operation (Operation.PullSync 1920),
          Step.IsFlushed, Step.SetSynchro 9, Step.operation Operation.Flush, Step.IsFlushed,
          Step.operation Operation.IsEof, Step.operation Operation.Full]).fault ∧
    (steps Variant.plain pts_to_microseconds
        (create (example_channel 2) true 1000000 5000000 ⟨0, 1⟩)
        [Step.SetSynchro 7, Step.operation (Operation.PushVideo (some (video_frame 0)) ⟨1, 25⟩),
          Step.operation Operation.Ready, Step.operation (Operation.PullSync 1920),
          Step.IsFlushed, Step.SetSynchro 9, Step.operation Operation.Flush, Step.IsFlushed,
          Step.operation Operation.IsEof, Step.operation Operation.Full]).state.SetSynchro
        (steps Variant.plain pts_to_microseconds
          (create (example_channel 2) true 1000000 0 ⟨0, 1⟩)
          [Step.operation (Operation.PushVideo (some (video_frame 0)) ⟨1, 25⟩),
            Step.operation Operation.Ready, Step.operation (Operation.PullSync 1920),
            Step.IsFlushed, Step.operation Operation.Flush, Step.IsFlushed,
            Step.operation Operation.IsEof, Step.operation Operation.Full]).state.sync_ =
      (steps Variant.plain pts_to_microseconds
        (create (example_channel 2) true 1000000 0 ⟨0, 1⟩)
        [Step.operation (Operation.PushVideo (some (video_frame 0)) ⟨1, 25⟩),
          Step.operation Operation.Ready, Step.operation (Operation.PullSync 1920),
          Step.IsFlushed, Step.operation Operation.Flush, Step.IsFlushed,
          Step.operation Operation.IsEof, Step.operation Operation.Full]).state ∧
    (∀ (self : SynchronizingBuffer) (time : Int),
      self.SetSynchro time = { self with sync_ := time } ∧
      (self.SetSynchro time).SetSynchro self.sync_ = self) ∧
    (∀ (channel : Core.Channel) (is_playing : Bool) (duration sync_a sync_b : Int)
        (time_base : AVRational),
      (create channel is_playing duration sync_b time_base).SetSynchro sync_a =
        create channel is_playing duration sync_a time_base ∧
      (implementation.create channel.Format channel.AudioChannelsCount
          channel.AudioSampleFormat is_playing duration sync_b time_base).SetSynchro sync_a =
        implementation.create channel.Format channel.AudioChannelsCount
          channel.AudioSampleFormat is_playing duration sync_a time_base) :=
  C24_sync_is_dead_state Variant.plain pts_to_microseconds _ _ _ _ rfl rfl

/-- The run of the example, evaluated. -/
theorem steps_evaluated :
    (steps Variant.plain pts_to_microseconds
        (create (example_channel 2) true 1000000 5000000 ⟨0, 1⟩)
        [Step.SetSynchro 7, Step.operation (Operation.PushVideo (some (video_frame 0)) ⟨1, 25⟩),
          Step.operation Operation.Ready, Step.IsFlushed, Step.SetSynchro 9,
          Step.operation Operation.Flush, Step.IsFlushed,
          Step.operation Operation.IsEof]).results =
      [Observation.nothing, Observation.answer true, Observation.answer false,
        Observation.nothing, Observation.answer true, Observation.answer false] := by
  decide

end SynchronizingBuffer
end FFmpeg
end TVPlayR

/-! ### Decklink timecodes and display modes, C25 and C26 -/

namespace TVPlayR
namespace Decklink

open FFmpeg

/-- Within `int`, the 32-bit conversion changes nothing. -/
theorem to_int_of_int {v : Int} (h1 : -(2 ^ 31) ≤ v) (h2 : v < 2 ^ 31) : to_int v = v := by
  unfold to_int
  omega

/-- Where the product stays within `int`, the frame number is exact: for a timecode of at most
`seconds_bound` seconds, a non-negative numerator with `seconds_bound * num` below `2 ^ 31` and a
positive denominator, `timecode_frame_number` is the floor of `seconds * num / den` plus the
frames. -/
theorem timecode_frame_number_exact (hours minutes seconds frames : Nat)
    (frame_rate : Common.Rational) (h_hours : hours < 24) (h_minutes : minutes < 60)
    (h_seconds : seconds < 60) (h_frames : frames < 60)
    (h_num : 0 ≤ frame_rate.Numerator) (h_den : 0 < frame_rate.Denominator)
    (h_product : 86399 * frame_rate.Numerator < 2 ^ 31) :
    timecode_frame_number hours minutes seconds frames frame_rate =
      (((hours : Int) * 60 + minutes) * 60 + seconds) * frame_rate.Numerator /
        frame_rate.Denominator + frames := by
  unfold timecode_frame_number
  have e1 : to_int ((hours : Int) * 60) = (hours : Int) * 60 := to_int_of_int (by omega) (by omega)
  rw [e1]
  have e2 : to_int ((hours : Int) * 60 + minutes) = (hours : Int) * 60 + minutes :=
    to_int_of_int (by omega) (by omega)
  rw [e2]
  have e3 : to_int (((hours : Int) * 60 + minutes) * 60 + seconds) =
      ((hours : Int) * 60 + minutes) * 60 + seconds := to_int_of_int (by omega) (by omega)
  rw [e3]
  have hs0 : (0 : Int) ≤ ((hours : Int) * 60 + minutes) * 60 + seconds := by omega
  have hs1 : ((hours : Int) * 60 + minutes) * 60 + seconds ≤ 86399 := by omega
  generalize ((hours : Int) * 60 + minutes) * 60 + seconds = total at hs0 hs1 ⊢
  have hn : frame_rate.Numerator ≤ 24855 := by omega
  have hp0 : 0 ≤ total * frame_rate.Numerator := mul_nonneg hs0 h_num
  have hp1 : total * frame_rate.Numerator ≤ 86399 * 24855 := by nlinarith
  have hq0 : 0 ≤ total * frame_rate.Numerator / frame_rate.Denominator :=
    Int.ediv_nonneg hp0 (le_of_lt h_den)
  have hq1 : total * frame_rate.Numerator / frame_rate.Denominator ≤
      total * frame_rate.Numerator :=
    Int.ediv_le_self _ hp0
  generalize total * frame_rate.Numerator = product at hp0 hp1 hq0 hq1 ⊢
  have e4 : to_int product = product := to_int_of_int (by omega) (by omega)
  rw [e4, Int.tdiv_eq_ediv hp0 (le_of_lt h_den)]
  exact to_int_of_int (by omega) (by omega)

/-- C25, at the failing input: the timecode 23:59:59:00 at 30000/1001 frames a second. The
product `86399 * 30000` does not fit `int`; wrapped to 32 bits it is negative, and
`GetFrameFromTimecode` and `GetPts` return -1701296 where the exact frame number is 2589380. The
first timecode at which the product leaves `int` at this rate is 19:53:03. -/
theorem C25_timecode_product_leaves_int :
    GetFrameFromTimecode (example_video_frame (S_OK, some []) (S_OK, 23, 59, 59, 0))
        BMDTimecodeFormat.bmdTimecodeRP188Any ⟨30000, 1001⟩ = -1701296 ∧
    DecklinkInputSynchroProvider.GetPts
        (DecklinkInputSynchroProvider.SetInputParameters
          { field_dominance_ := 0, time_scale_ := 0, frame_duration_ := 0,
            frame_rate_ := ⟨0, 1⟩, video_time_base_ := ⟨1, 0⟩ } 0 30000 1001)
        (example_video_frame (S_OK, some []) (S_OK, 23, 59, 59, 0))
        BMDTimecodeFormat.bmdTimecodeVITC = -1701296 ∧
    ((((23 : Int) * 60 + 59) * 60 + 59) * 30000 / 1001 + 0 = 2589380) ∧
    (((23 : Int) * 60 + 59) * 60 + 59) * 30000 ≥ 2 ^ 31 ∧
    timecode_frame_number 19 53 2 0 ⟨30000, 1001⟩ = 2145314 ∧
    timecode_frame_number 19 53 3 0 ⟨30000, 1001⟩ = -2145331 ∧
    timecode_frame_number 23 59 59 0 ⟨25000, 1000⟩ = -2134992 := by
  refine ⟨by decide, by decide, by decide, by decide, by decide, by decide, by decide⟩

/-- C26: the display-mode mapping round trip. For every Decklink display mode `d` and either
value of `isWide` for which `BMDDisplayModeToVideoFormatType(d, isWide)` is not `invalid`,
`GetDecklinkDisplayMode` maps that format back to `d`; and for every video format type `f` that
`GetDecklinkDisplayMode` does not map to `bmdModeUnknown` there is a value of `isWide` with which
`BMDDisplayModeToVideoFormatType` maps `GetDecklinkDisplayMode(f)` back to `f`. -/
theorem C26_display_mode_round_trip :
    (∀ (d : BMDDisplayMode) (isWide : Bool),
      BMDDisplayModeToVideoFormatType d isWide ≠ Core.VideoFormatType.invalid →
      GetDecklinkDisplayMode (BMDDisplayModeToVideoFormatType d isWide) = d) ∧
    (∀ f : Core.VideoFormatType,
      GetDecklinkDisplayMode f ≠ BMDDisplayMode.bmdModeUnknown →
      ∃ isWide, BMDDisplayModeToVideoFormatType (GetDecklinkDisplayMode f) isWide = f) := by
  constructor
  · intro d isWide h
    cases d <;> cases isWide <;>
      first
        | rfl
        | exact absurd rfl h
  · intro f h
    cases f <;>
      first
        | exact ⟨false, rfl⟩
        | exact ⟨true, rfl⟩
        | exact absurd rfl h

/-- The round trip, evaluated: PAL comes back as PAL from both of its formats, and the two PAL
formats are told apart by `isWide` alone. -/
theorem display_modes_evaluated :
    GetDecklinkDisplayMode Core.VideoFormatType.pal_fha = BMDDisplayMode.bmdModePAL ∧
    GetDecklinkDisplayMode Core.VideoFormatType.pal = BMDDisplayMode.bmdModePAL ∧
    BMDDisplayModeToVideoFormatType BMDDisplayMode.bmdModePAL true =
      Core.VideoFormatType.pal_fha ∧
    BMDDisplayModeToVideoFormatType BMDDisplayMode.bmdModePAL false =
      Core.VideoFormatType.pal ∧
    BMDDisplayModeToVideoFormatType (BMDDisplayMode.other 7) true =
      Core.VideoFormatType.invalid ∧
    GetDecklinkDisplayMode (Core.VideoFormatType.other 7) = BMDDisplayMode.bmdModeUnknown :=
  ⟨rfl, rfl, rfl, rfl, rfl, rfl⟩

end Decklink
end TVPlayR

/-! ### The decoder's seek filter, C27 -/

namespace TVPlayR
namespace FFmpeg
namespace Decoder
namespace implementation

/-- C27, counterexample: the decoder is sought to timestamp 100 and the codec delivers a frame
with `pts` 100 and `pkt_duration` 0 (duration unknown). The frame ends at the seek point,
`pts + pkt_duration <= seek_pts`, yet `Pull` returns it: `pts >= seek_pts` holds. -/
theorem C27_zero_duration_frame_at_seek_point_returned :
    (example_decoder 100).seek_pts_ = 100 ∧
    (decoded_frame 100 0).frame.pts + (decoded_frame 100 0).pkt_duration ≤
      (example_decoder 100).seek_pts_ ∧
    Pull example_transfer (example_decoder 100) 0 (decoded_frame 100 0) =
      .ok (some (decoded_frame 100 0), example_decoder 100) := by
  refine ⟨rfl, by decide, rfl⟩

/-- C27: when the codec delivers a frame (`avcodec_receive_frame` returns 0), with `pts` first
replaced by `best_effort_timestamp` when it is absent: `Pull` hands the frame on if and only if
`pts >= seek_pts` or `pts + pkt_duration > seek_pts`; it then returns the frame itself when no
hardware device context exists, the software copy (with the frame's `pts` and `pict_type`) when
one exists and the transfer succeeds, and throws when the transfer fails. Every frame that starts
before the seek point and ends at or before it yields null and leaves the object, the EOF flag
included, unchanged. After `Seek(t)` the threshold is `TimeToPts(t, time_base)` and the EOF and
flushed flags are cleared. -/
theorem C27_pull_filters_frames_before_seek_point
    (av_hwframe_transfer_data : DecodedFrame → Int × DecodedFrame)
    (TimeToPts : Int → AVRational → Int) (self : implementation) (decoded : DecodedFrame)
    (pts : Int)
    (h_pts : pts =
      if decoded.frame.pts = AV_NOPTS_VALUE then decoded.best_effort_timestamp
      else decoded.frame.pts) :
    ((pts ≥ self.seek_pts_ ∨ pts + decoded.pkt_duration > self.seek_pts_) →
      (self.hw_device_ctx_ = false →
        Pull av_hwframe_transfer_data self 0 decoded =
          .ok (some { decoded with frame := { decoded.frame with pts := pts } }, self)) ∧
      (self.hw_device_ctx_ = true →
        0 ≤ (av_hwframe_transfer_data
          { decoded with frame := { decoded.frame with pts := pts } }).1 →
        ∃ sw_frame, Pull av_hwframe_transfer_data self 0 decoded = .ok (some sw_frame, self) ∧
          sw_frame.frame.pts = pts ∧ sw_frame.pict_type = decoded.pict_type) ∧
      (self.hw_device_ctx_ = true →
        (av_hwframe_transfer_data
          { decoded with frame := { decoded.frame with pts := pts } }).1 < 0 →
        ∃ code, Pull av_hwframe_transfer_data self 0 decoded = .error (code, self))) ∧
    (¬ (pts ≥ self.seek_pts_ ∨ pts + decoded.pkt_duration > self.seek_pts_) →
      Pull av_hwframe_transfer_data self 0 decoded = .ok (none, self)) ∧
    (pts < self.seek_pts_ → pts + decoded.pkt_duration ≤ self.seek_pts_ →
      Pull av_hwframe_transfer_data self 0 decoded = .ok (none, self)) ∧
    (0 < decoded.pkt_duration → pts + decoded.pkt_duration ≤ self.seek_pts_ →
      Pull av_hwframe_transfer_data self 0 decoded = .ok (none, self)) ∧
    (∀ t, (self.Seek TimeToPts t).seek_pts_ = TimeToPts t self.time_base_ ∧
      (self.Seek TimeToPts t).is_eof_ = false ∧ (self.Seek TimeToPts t).is_flushed_ = false ∧
      (self.Seek TimeToPts t).time_base_ = self.time_base_) := by
  have hframe : (if decoded.frame.pts = AV_NOPTS_VALUE then
        ({ decoded with
          frame := { decoded.frame with pts := decoded.best_effort_timestamp } } : DecodedFrame)
      else decoded) = { decoded with frame := { decoded.frame with pts := pts } } := by
    rw [h_pts]
    split_ifs <;> rfl
  have hnull : ¬ (pts ≥ self.seek_pts_ ∨ pts + decoded.pkt_duration > self.seek_pts_) →
      Pull av_hwframe_transfer_data self 0 decoded = .ok (none, self) := by
    intro hc
    unfold Pull
    simp only [hframe]
    simp only [if_true, if_neg hc]
  refine ⟨?_, hnull, ?_, ?_, fun t => ⟨rfl, rfl, rfl, rfl⟩⟩
  · intro hc
    refine ⟨?_, ?_, ?_⟩
    · intro hw
      unfold Pull
      simp only [hframe]
      simp only [if_true, if_pos hc, hw]
      rfl
    · intro hw hcode
      unfold Pull
      simp only [hframe]
      simp only [if_true, if_pos hc, hw]
      split_ifs with hneg
      · exact absurd hneg (not_lt.mpr hcode)
      · exact ⟨_, rfl, rfl, rfl⟩
    · intro hw hcode
      unfold Pull
      simp only [hframe]
      simp only [if_true, if_pos hc, hw]
      split_ifs with hneg
      · exact ⟨_, rfl⟩
      · exact absurd hcode hneg
  · intro h1 h2
    exact hnull (by omega)
  · intro h1 h2
    exact hnull (by omega)

/-- C27, witness: the software decoder sought to timestamp 100 and a frame of duration 1 stamped
99, which ends at the seek point. -/
theorem C27_pull_filters_frames_before_seek_point_witness :
    (((99 : Int) ≥ (example_decoder 100).seek_pts_ ∨
        99 + (decoded_frame 99 1).pkt_duration > (example_decoder 100).seek_pts_) →
      ((example_decoder 100).hw_device_ctx_ = false →
        Pull example_transfer (example_decoder 100) 0 (decoded_frame 99 1) =
          .ok (some { decoded_frame 99 1 with
            frame := { (decoded_frame 99 1).frame with pts := 99 } }, example_decoder 100)) ∧
      ((example_decoder 100).hw_device_ctx_ = true →
        0 ≤ (example_transfer
          { decoded_frame 99 1 with
            frame := { (decoded_frame 99 1).frame with pts := 99 } }).1 →
        ∃ sw_frame, Pull example_transfer (example_decoder 100) 0 (decoded_frame 99 1) =
            .ok (some sw_frame, example_decoder 100) ∧
          sw_frame.frame.pts = 99 ∧ sw_frame.pict_type = (decoded_frame 99 1).pict_type) ∧
      ((example_decoder 100).hw_device_ctx_ = true →
        (example_transfer
          { decoded_frame 99 1 with
            frame := { (decoded_frame 99 1).frame with pts := 99 } }).1 < 0 →
        ∃ code, Pull example_transfer (example_decoder 100) 0 (decoded_frame 99 1) =
          .error (code, example_decoder 100))) ∧
    (¬ ((99 : Int) ≥ (example_decoder 100).seek_pts_ ∨
        99 + (decoded_frame 99 1).pkt_duration > (example_decoder 100).seek_pts_) →
      Pull example_transfer (example_decoder 100) 0 (decoded_frame 99 1) =
        .ok (none, example_decoder 100)) ∧
    ((99 : Int) < (example_decoder 100).seek_pts_ →
      99 + (decoded_frame 99 1).pkt_duration ≤ (example_decoder 100).seek_pts_ →
      Pull example_transfer (example_decoder 100) 0 (decoded_frame 99 1) =
        .ok (none, example_decoder 100)) ∧
    (0 < (decoded_frame 99 1).pkt_duration →
      99 + (decoded_frame 99 1).pkt_duration ≤ (example_decoder 100).seek_pts_ →
      Pull example_transfer (example_decoder 100) 0 (decoded_frame 99 1) =
        .ok (none, example_decoder 100)) ∧
    (∀ t, ((example_decoder 100).Seek microseconds_to_pts t).seek_pts_ =
        microseconds_to_pts t (example_decoder 100).time_base_ ∧
      ((example_decoder 100).Seek microseconds_to_pts t).is_eof_ = false ∧
      ((example_decoder 100).Seek microseconds_to_pts t).is_flushed_ = false ∧
      ((example_decoder 100).Seek microseconds_to_pts t).time_base_ =
        (example_decoder 100).time_base_) :=
  C27_pull_filters_frames_before_seek_point example_transfer microseconds_to_pts
    (example_decoder 100) (decoded_frame 99 1) 99 rfl

/-- The decoder of the examples, evaluated: sought to four seconds (timestamp 100 in 1/25), it
drops the frame that ends at the seek point, hands on the frame that straddles it and the frame
that starts at it, takes the timestamp of a frame without `pts` from `best_effort_timestamp`, and
sets the EOF flag only when the codec reports the end. -/
theorem Decoder_evaluated :
    ((example_decoder 0).Seek microseconds_to_pts 4000000).seek_pts_ = 100 ∧
    Pull example_transfer (example_decoder 100) 0 (decoded_frame 99 1) =
      .ok (none, example_decoder 100) ∧
    Pull example_transfer (example_decoder 100) 0 (decoded_frame 99 2) =
      .ok (some (decoded_frame 99 2), example_decoder 100) ∧
    Pull example_transfer (example_decoder 100) 0 (decoded_frame 100 1) =
      .ok (some (decoded_frame 100 1), example_decoder 100) ∧
    Pull example_transfer (example_decoder 100) 0
        { decoded_frame AV_NOPTS_VALUE 1 with best_effort_timestamp := 100 } =
      .ok (some (decoded_frame 100 1), example_decoder 100) ∧
    Pull example_transfer (example_decoder 100) AVERROR_EOF (decoded_frame 0 0) =
      .ok (none, { example_decoder 100 with is_eof_ := true }) ∧
    Pull example_transfer (example_decoder 100) AVERROR_EAGAIN (decoded_frame 0 0) =
      .ok (none, example_decoder 100) := by
  refine ⟨by decide, rfl, rfl, rfl, rfl, rfl, rfl⟩

end implementation
end Decoder
end FFmpeg
end TVPlayR

/-! ### The video filter without a filter graph, C28 -/

namespace TVPlayR
namespace FFmpeg
namespace VideoFilter
namespace implementation

/-- C28: without a filter graph (no source and no sink context) the filter is a one-slot buffer.
On an empty slot `Push(f)` returns true and stores `f`; the frame `f` points to has its
`pict_type` and `key_frame` reset and is otherwise as before, and no other frame is touched; a
following `Pull()` returns `f` and empties the slot, which leaves the object as it was before the
push. `Push` on an occupied slot returns false and leaves the stored frame, the object and the
frames in memory unchanged. `Pull` on an empty slot returns null and changes nothing. -/
theorem C28_pass_through_is_one_slot_buffer (written received : Int) (filtered : AVFramePtr)
    (frames : Frames) (self : implementation) (f : AVFramePtr)
    (h_source : self.source_ctx_ = none) (h_sink : self.sink_ctx_ = none) :
    (self.direct_path_frame_ = none →
      ∃ stored next, Push written frames self (some f) = .ok (true, stored, next) ∧
        next.direct_path_frame_ = some f ∧
        (stored f).content = (frames f).content ∧
        (stored f).pict_type = AV_PICTURE_TYPE_NONE ∧ (stored f).key_frame = 0 ∧
        (∀ other, other ≠ f → stored other = frames other) ∧
        Pull received filtered next = (some f, self) ∧
        (Pull received filtered next).2.direct_path_frame_ = none) ∧
    (∀ g, self.direct_path_frame_ = some g →
      Push written frames self (some f) = .ok (false, frames, self) ∧
      Pull received filtered self = (some g, { self with direct_path_frame_ := none })) ∧
    (self.direct_path_frame_ = none → Pull received filtered self = (none, self)) := by
  refine ⟨?_, ?_, ?_⟩
  · intro h_empty
    refine ⟨Function.update frames f
        { frames f with pict_type := AV_PICTURE_TYPE_NONE, key_frame := 0 },
      { self with direct_path_frame_ := some f }, ?_, rfl, ?_, ?_, ?_, ?_, ?_, ?_⟩
    · simp [Push, h_source, h_empty]
    · simp [Function.update]
    · simp [Function.update]
    · simp [Function.update]
    · intro other hne
      simp [Function.update, hne]
    · simp only [Pull, h_sink]
      cases self
      simp_all
    · simp only [Pull, h_sink]
  · intro g hg
    constructor
    · simp [Push, h_source, hg]
    · simp only [Pull, h_sink, hg]
  · intro h_empty
    simp only [Pull, h_sink, h_empty]
    cases self
    simp_all

/-- C28, witness: a newly constructed filter and the frame at address 7. -/
theorem C28_pass_through_is_one_slot_buffer_witness :
    (create.direct_path_frame_ = none →
      ∃ stored next, Push 0 example_frames create (some 7) = .ok (true, stored, next) ∧
        next.direct_path_frame_ = some 7 ∧
        (stored 7).content = (example_frames 7).content ∧
        (stored 7).pict_type = AV_PICTURE_TYPE_NONE ∧ (stored 7).key_frame = 0 ∧
        (∀ other, other ≠ 7 → stored other = example_frames other) ∧
        Pull 0 0 next = (some 7, create) ∧
        (Pull 0 0 next).2.direct_path_frame_ = none) ∧
    (∀ g, create.direct_path_frame_ = some g →
      Push 0 example_frames create (some 7) = .ok (false, example_frames, create) ∧
      Pull 0 0 create = (some g, { create with direct_path_frame_ := none })) ∧
    (create.direct_path_frame_ = none → Pull 0 0 create = (none, create)) :=
  C28_pass_through_is_one_slot_buffer 0 0 0 example_frames create 7 rfl rfl

/-- The one-slot buffer, evaluated: a second push on the occupied slot is refused and the pull
hands out the first frame, whose picture type and key-frame flag `Push` has reset. -/
theorem VideoFilter_evaluated :
    (match Push 0 example_frames create (some 7) with
      | .ok (pushed, stored, next) =>
        (pushed, (stored 7).pict_type, (stored 7).key_frame, (stored 8).pict_type,
          (match Push 0 stored next (some 8) with
            | .ok (again, _, after) => (again, (Pull 0 0 after).1)
            | .error _ => (true, none)))
      | .error _ => (false, 1, 1, 1, (true, none))) =
      (true, 0, 0, 1, (false, some 7)) ∧
    Push 0 example_frames create none = .error Fault.null_dereference := by
  constructor
  · decide
  · rfl

end implementation
end VideoFilter
end FFmpeg
end TVPlayR

/-! ### The audio muxer's EOF flag, C29 -/

namespace TVPlayR
namespace FFmpeg
namespace AudioMuxer
namespace implementation

/-- Whatever `CreateFilterChain` does, returning or throwing, on an object whose EOF flag is
false, the flag is false afterwards. -/
theorem CreateFilterChain_is_eof (self : implementation) (built : Built)
    (h : self.is_eof_ = false) :
    match CreateFilterChain self built with
    | .ok next => next.is_eof_ = false
    | .error (_, at_throw) => at_throw.is_eof_ = false := by
  cases hd : self.decoders_ with
  | nil =>
    simp only [CreateFilterChain, hd]
    split_ifs <;> first | exact h | rfl
  | cons first others =>
    simp only [CreateFilterChain, hd]
    split_ifs <;> first | exact h | rfl

/-- Whatever `Push` does, returning or throwing, on an object whose EOF flag is false, the flag
is false afterwards. -/
theorem Push_is_eof (stream_index : Int) (attempts : List (Int × Built)) :
    ∀ self : implementation, self.is_eof_ = false →
      match Push self stream_index attempts with
      | .ok next => next.is_eof_ = false
      | .error (_, at_throw) => at_throw.is_eof_ = false := by
  induction attempts with
  | nil =>
    intro self h
    unfold Push
    cases self.source_ctx_.find? fun ctx => decide (ctx.1 = stream_index) <;> exact h
  | cons attempt rest ih =>
    intro self h
    obtain ⟨written, built⟩ := attempt
    unfold Push
    cases self.source_ctx_.find? fun ctx => decide (ctx.1 = stream_index) with
    | none => exact h
    | some found =>
      simp only []
      split_ifs
      · exact h
      · have hc := CreateFilterChain_is_eof self built h
        cases hr : CreateFilterChain self built with
        | error thrown =>
          rw [hr] at hc
          exact hc
        | ok rebuilt =>
          rw [hr] at hc
          exact ih rebuilt hc
      · exact h
      · exact h

/-- One call, returning or throwing, leaves the EOF flag false when it was false. -/
theorem call_is_eof (self : implementation) (c : Call) (h : self.is_eof_ = false) :
    (call self c).is_eof_ = false := by
  cases c with
  | Push stream_index attempts =>
    have hp := Push_is_eof stream_index attempts self h
    simp only [call]
    cases hr : Push self stream_index attempts with
    | ok next => rw [hr] at hp; exact hp
    | error thrown => rw [hr] at hp; exact hp
  | Pull received frame =>
    simp only [call, Pull]
    split_ifs <;> exact h
  | Flush =>
    simp only [call, Flush]
    split_ifs <;> exact h
  | Reset built =>
    have hr : Reset self built = .ok self := by
      unfold Reset
      simp [h]
    simp only [call, hr]
    exact h

/-- A sequence of calls leaves the EOF flag false when it was false. -/
theorem calls_is_eof (run : List Call) :
    ∀ self : implementation, self.is_eof_ = false → (calls self run).is_eof_ = false := by
  induction run with
  | nil => intro self h; exact h
  | cons c rest ih => intro self h; exact ih (call self c) (call_is_eof self c h)

/-- C29: in every state of the muxer reachable from its constructor through `Push`, `Pull`,
`Flush` and `Reset`, whatever the libav calls return and whether the calls return or throw, the
EOF flag is false: `IsEof()` returns false, and `Reset()` returns at once, without a new filter
graph and with the flushed flag as it was. -/
theorem C29_audio_muxer_never_at_eof (decoders : List DecoderInfo) (built : Built)
    (made : implementation) (run : List Call)
    (h_created : create decoders built = some made) :
    (calls made run).is_eof_ = false ∧
    (calls made run).IsEof = false ∧
    (∀ rebuilt : Built,
      Reset (calls made run) rebuilt = .ok (calls made run) ∧
      call (calls made run) (Call.Reset rebuilt) = calls made run ∧
      (call (calls made run) (Call.Reset rebuilt)).graph_ = (calls made run).graph_ ∧
      (call (calls made run) (Call.Reset rebuilt)).IsFlushed = (calls made run).IsFlushed) := by
  have hmade : made.is_eof_ = false := by
    unfold create at h_created
    have hc := CreateFilterChain_is_eof
      { decoders_ := decoders, source_ctx_ := [], sink_ctx_ := none, graph_ := 0,
        is_eof_ := false, is_flushed_ := false } built rfl
    cases hr : CreateFilterChain
        { decoders_ := decoders, source_ctx_ := [], sink_ctx_ := none, graph_ := 0,
          is_eof_ := false, is_flushed_ := false } built with
    | error thrown => rw [hr] at h_created; simp at h_created
    | ok next =>
      rw [hr] at h_created hc
      simp only [Option.some.injEq] at h_created
      rw [← h_created]
      exact hc
  have h := calls_is_eof run made hmade
  have hreset : ∀ rebuilt : Built, Reset (calls made run) rebuilt = .ok (calls made run) := by
    intro rebuilt
    unfold Reset
    simp [h]
  refine ⟨h, h, fun rebuilt => ?_⟩
  have hcall : call (calls made run) (Call.Reset rebuilt) = calls made run := by
    simp only [call, hreset rebuilt]
  exact ⟨hreset rebuilt, hcall, by rw [hcall], by rw [hcall]⟩

/-- C29, witness: the muxer of the examples after a push that meets `EINVAL` once, a flush, a
pull at the end of the stream, a reset and a push to an unknown stream, which throws. -/
theorem C29_audio_muxer_never_at_eof_witness :
    ∃ made, example_muxer = some made ∧
      (calls made
        [Call.Push 1 [(AVERROR_EINVAL, { sink_created := true, sources_created := 2 }), (0,
            { sink_created := true, sources_created := 2 })],
          Call.Flush, Call.Pull AVERROR_EOF AllocFrame,
          Call.Reset { sink_created := true, sources_created := 2 },
          Call.Push 5 [(0, { sink_created := true, sources_created := 2 })]]).is_eof_ = false ∧
      (calls made
        [Call.Push 1 [(AVERROR_EINVAL, { sink_created := true, sources_created := 2 }), (0,
            { sink_created := true, sources_created := 2 })],
          Call.Flush, Call.Pull AVERROR_EOF AllocFrame,
          Call.Reset { sink_created := true, sources_created := 2 },
          Call.Push 5 [(0, { sink_created := true, sources_created := 2 })]]).IsFlushed = true ∧
      (calls made
        [Call.Push 1 [(AVERROR_EINVAL, { sink_created := true, sources_created := 2 }), (0,
            { sink_created := true, sources_created := 2 })],
          Call.Flush, Call.Pull AVERROR_EOF AllocFrame,
          Call.Reset { sink_created := true, sources_created := 2 },
          Call.Push 5 [(0, { sink_created := true, sources_created := 2 })]]).graph_ = 2 :=
  ⟨_, rfl,
    (C29_audio_muxer_never_at_eof
      [{ StreamIndex := 1, is_audio := true }, { StreamIndex := 2, is_audio := true }]
      { sink_created := true, sources_created := 2 } _ _ rfl).1, by decide, by decide⟩

end implementation
end AudioMuxer
end FFmpeg
end TVPlayR

/-! ### Frames from Decklink buffers, C30 -/

namespace TVPlayR
namespace Decklink

open FFmpeg

/-- `AVFrameFromDecklinkAudio` returns the null pointer whenever the packet pointer is null,
`GetBytes` fails, or `GetBytes` leaves a null byte pointer, and never copies from a null
pointer. -/
theorem AVFrameFromDecklinkAudio_rejects (audio_packet : Option IDeckLinkAudioInputPacket)
    (channels sample_rate : Int) (default_channel_layout : Nat)
    (av_frame_get_buffer : Int × Int) :
    (audio_packet = none ∨
        (∃ packet, audio_packet = some packet ∧
          (FAILED packet.GetBytes.1 = true ∨ packet.GetBytes.2 = none)) →
      AVFrameFromDecklinkAudio audio_packet channels sample_rate default_channel_layout
        av_frame_get_buffer = Converted.null) ∧
    AVFrameFromDecklinkAudio audio_packet channels sample_rate default_channel_layout
      av_frame_get_buffer ≠ Converted.copy_from_null := by
  unfold AVFrameFromDecklinkAudio
  constructor
  · rintro (h | ⟨packet, h, hb⟩)
    · rw [h]
    · rw [h]
      rcases hb with hb | hb <;> simp [hb]
  · cases audio_packet with
    | none => simp
    | some packet =>
      cases hb : packet.GetBytes.2 with
      | none => simp [hb]
      | some bytes =>
        simp only [hb]
        split_ifs <;> simp

/-- C30, at the failing inputs: a Decklink video frame whose `GetBytes` fails and leaves the byte
pointer null, and one whose `GetBytes` succeeds with a null byte pointer. In both cases
`AVFrameFromDecklinkVideo` does not return the null frame: it goes on to `memcpy` from the null
pointer. `AVFrameFromDecklinkAudio` returns the null frame for a packet with either `GetBytes`.
The video function does return the null frame when `GetBytes` fails with a non-null pointer, and
when the frame pointer is null. -/
theorem C30_video_copies_from_null_bytes :
    AVFrameFromDecklinkVideo (some (example_video_frame (E_FAIL, none) (S_OK, 0, 0, 0, 0)))
        25000 (0, 8) = Converted.copy_from_null ∧
    AVFrameFromDecklinkVideo (some (example_video_frame (S_OK, none) (S_OK, 0, 0, 0, 0)))
        25000 (0, 8) = Converted.copy_from_null ∧
    AVFrameFromDecklinkAudio (some (example_audio_packet (E_FAIL, none))) 2 48000 3 (0, 16) =
      Converted.null ∧
    AVFrameFromDecklinkAudio (some (example_audio_packet (S_OK, none))) 2 48000 3 (0, 16) =
      Converted.null ∧
    AVFrameFromDecklinkVideo (some (example_video_frame (E_FAIL, some []) (S_OK, 0, 0, 0, 0)))
        25000 (0, 8) = Converted.null ∧
    AVFrameFromDecklinkVideo none 25000 (0, 8) = Converted.null :=
  ⟨rfl, rfl, rfl, rfl, rfl, rfl⟩

/-- What `AVFrameFromDecklinkVideo` does with a frame whose bytes are at hand: with a successful
`GetBytes`, a buffer allocated and the row size as asserted, it returns a frame holding the bytes
copied, stamped `frameTime / frameDuration`. -/
theorem AVFrameFromDecklinkVideo_evaluated :
    AVFrameFromDecklinkVideo
        (some (example_video_frame (S_OK, some (List.range 16)) (S_OK, 0, 0, 0, 0))) 25000
        (0, 8) =
      Converted.frame { AllocFrame with
        pts := 3, format := AV_PIX_FMT_UYVY422, width := 4, height := 2
        data := [List.range 16] } := by
  decide

end Decklink
end TVPlayR
